import Mathlib

/-!
# D3D12HelloTriangle: acceleration structures, descriptor heap and shader binding table

A shallow embedding of `D3D12HelloTriangle.cpp` / `D3D12HelloTriangle.h`.

* GPU resources are handles (`Resource`); the device is an allocation log plus the
  numbers only the device can report (`DeviceQueries`).
* The application object is the record `App`; every member function is a function
  on `App`.
* The command list is the list of commands recorded so far.
* `UINT`, `size_t` and `UINT64` values are natural numbers reduced modulo
  `2^32` / `2^64` wherever the source converts or computes.
* World transforms are symbolic (`XMMATRIX`): no floating-point value is computed.
-/

namespace D3D12HelloTriangle

/-! ## Machine integers -/

/-- Conversion to `UINT` (32 bits), as done by `static_cast<UINT>`. -/
def toUINT (n : Nat) : Nat := n % 4294967296

/-- Arithmetic in `size_t` (64 bits; the program is built for 64-bit targets). -/
def toSizeT (n : Nat) : Nat := n % 18446744073709551616

/-- Arithmetic on `D3D12_GPU_VIRTUAL_ADDRESS` (`UINT64`). -/
def toUINT64 (n : Nat) : Nat := n % 18446744073709551616

/-! ## Resources and the device -/

/-- Handle held by a `ComPtr<ID3D12Resource>`; `0` is the null pointer. -/
abbrev Resource := Nat

/-- The `D3D12_RESOURCE_FLAGS` values the program uses. -/
inductive ResourceFlag
  | NONE
  | ALLOW_UNORDERED_ACCESS
  | ALLOW_DEPTH_STENCIL
  deriving DecidableEq, Repr

/-- The `D3D12_RESOURCE_STATES` values the program uses. -/
inductive ResourceState
  | COMMON
  | UNORDERED_ACCESS
  | RAYTRACING_ACCELERATION_STRUCTURE
  | GENERIC_READ
  | COPY_SOURCE
  | COPY_DEST
  | RENDER_TARGET
  | PRESENT
  | DEPTH_WRITE
  deriving DecidableEq, Repr

/-- The two heap kinds: `kDefaultHeapProps` and `kUploadHeapProps`. -/
inductive HeapProps
  | kDefaultHeapProps
  | kUploadHeapProps
  deriving DecidableEq, Repr

/-- One allocation made through `nv_helpers_dx12::CreateBuffer`. -/
structure BufferDesc where
  size : Nat
  flags : ResourceFlag
  initialState : ResourceState
  heap : HeapProps
  deriving DecidableEq, Repr

/-- Symbolic world transform. `translation000` is `XMMatrixTranslation(0, 0, 0)`;
`rotationAt t` is the matrix `OnUpdate` computes from `m_time = t`. -/
inductive XMMATRIX
  | translation000
  | rotationAt (time : Nat)
  | other (tag : Nat)
  deriving DecidableEq, Repr

/-- One element of the staging buffer of instance descriptors
(`D3D12_RAYTRACING_INSTANCE_DESC`). `transform` is `none` when the generator's
reference to the matrix no longer points into the instance vector. -/
structure InstanceDesc where
  transform : Option XMMATRIX
  instanceID : Nat
  hitGroupIndex : Nat
  accelerationStructure : Nat
  deriving DecidableEq, Repr

/-- The kinds of descriptor range (`D3D12_DESCRIPTOR_RANGE_TYPE`). -/
inductive D3D12_DESCRIPTOR_RANGE_TYPE
  | SRV
  | UAV
  | CBV
  | SAMPLER
  deriving DecidableEq, Repr

/-- A descriptor written into a descriptor heap by one of the `Create*View` calls
of `CreateShaderResourceHeap` and `CreateCameraBuffer`. -/
inductive Descriptor
  | unorderedAccessView (resource : Resource)
  | accelerationStructureView (location : Nat)
  | constantBufferView (bufferLocation : Nat) (sizeInBytes : Nat)
  deriving DecidableEq, Repr

/-- The range type under which a shader reads a descriptor: a UAV, an SRV (the
acceleration structure is bound as a shader resource view) or a CBV. -/
def Descriptor.kind : Descriptor → D3D12_DESCRIPTOR_RANGE_TYPE
  | .unorderedAccessView _ => .UAV
  | .accelerationStructureView _ => .SRV
  | .constantBufferView _ _ => .CBV

/-- What the device allocated behind a resource handle. -/
inductive ResourceDesc
  | buffer (b : BufferDesc)
  | texture2D (width height : Nat) (flags : ResourceFlag) (initialState : ResourceState)
      (heap : HeapProps)
  | descriptorHeap (numDescriptors : Nat) (shaderVisible : Bool)
  deriving DecidableEq, Repr

/-- One binding slot of a root signature: a descriptor range of a heap-ranges
parameter is `(register, count, space, type, heap offset)`. -/
structure DescriptorRange where
  baseShaderRegister : Nat
  numDescriptors : Nat
  registerSpace : Nat
  rangeType : D3D12_DESCRIPTOR_RANGE_TYPE
  offsetInDescriptorsFromTableStart : Nat
  deriving DecidableEq, Repr

/-- One parameter of a root signature: a descriptor table made of heap ranges, or a
root descriptor bound by a direct pointer. -/
inductive RootParameter
  | heapRanges (ranges : List DescriptorRange)
  | rootParameter (type : D3D12_DESCRIPTOR_RANGE_TYPE) (shaderRegister : Nat)
  deriving DecidableEq, Repr

/-- A root argument of a shader-binding-table record. The source passes untyped
8-byte pointers (`void*`); the constructor records what the pointer is: the GPU
handle of a descriptor table, or the GPU address of a resource. -/
inductive RootArgument
  | descriptorTableHandle (ptr : Nat)
  | resourcePointer (address : Nat)
  deriving DecidableEq, Repr

/-- One record written into the shader binding table: the program whose identifier
is written, its root arguments, and the size it is padded to. -/
structure SBTRecordBytes where
  entryPoint : String
  rootArguments : List RootArgument
  stride : Nat
  deriving DecidableEq, Repr

/-- The device `m_device`: the resources allocated so far (the handle of
`resources[k]` is `k + 1`), the root signatures created so far (same numbering),
the contents last written to each staging buffer of instance descriptors, the
descriptors written (by CPU descriptor handle) and the shader-binding-table
contents written (newest first each). -/
structure Device where
  resources : List ResourceDesc
  rootSignatures : List (List RootParameter)
  instanceDescWrites : List (Resource × List InstanceDesc)
  descriptorWrites : List (Nat × Descriptor)
  sbtWrites : List (Resource × List SBTRecordBytes)
  deriving DecidableEq, Repr

/-- Allocation of a resource: the new resource gets a fresh handle. -/
def Device.allocate (d : Device) (r : ResourceDesc) : Device × Resource :=
  ({ d with resources := d.resources ++ [r] }, d.resources.length + 1)

/-- Modelled from the spec: the helper `nv_helpers_dx12::CreateBuffer` is missing
from the sources; the spec gives the device "buffer allocation with a
{usage-flags, initial-state, memory-kind} tuple". -/
def CreateBuffer (d : Device) (size : Nat) (flags : ResourceFlag)
    (initState : ResourceState) (heap : HeapProps) : Device × Resource :=
  d.allocate (.buffer ⟨size, flags, initState, heap⟩)

/-- Modelled from the spec: the helper `nv_helpers_dx12::CreateDescriptorHeap` is
missing from the sources; it is the spec's `allocate(capacity) -> table`. -/
def CreateDescriptorHeap (d : Device) (count : Nat) (shaderVisible : Bool) : Device × Resource :=
  d.allocate (.descriptorHeap count shaderVisible)

/-- What the device allocated behind a handle, if it gave the handle out. -/
def Device.descOf (d : Device) (r : Resource) : Option ResourceDesc :=
  if r = 0 then none else d.resources.get? (r - 1)

/-- Size of the buffer behind a handle. -/
def Device.sizeOf (d : Device) (r : Resource) : Option Nat :=
  match d.descOf r with
  | some (.buffer b) => some b.size
  | _ => none

/-- Contents last written to the staging buffer `r`. -/
def Device.instanceDescs (d : Device) (r : Resource) : Option (List InstanceDesc) :=
  (d.instanceDescWrites.find? (fun w => w.1 == r)).map Prod.snd

/-- The descriptor last written at the CPU descriptor handle `ptr`. -/
def Device.descriptorAt (d : Device) (ptr : Nat) : Option Descriptor :=
  (d.descriptorWrites.find? (fun w => w.1 == ptr)).map Prod.snd

/-! ## Bottom-level generator (`nv_helpers_dx12::BottomLevelASGenerator`) -/

/-- Size of `struct Vertex` (`XMFLOAT3` + `XMFLOAT4`). -/
def sizeofVertex : Nat := 28

/-- One `AddVertexBuffer` call, with the arguments of the overload that was called. -/
inductive Geometry
  | nonIndexed (vertexBuffer : Resource) (vertexOffsetInBytes : Nat) (vertexCount : Nat)
      (vertexSizeInBytes : Nat) (transformBuffer : Resource) (transformOffsetInBytes : Nat)
  | indexed (vertexBuffer : Resource) (vertexOffsetInBytes : Nat) (vertexCount : Nat)
      (vertexSizeInBytes : Nat) (indexBuffer : Resource) (indexOffsetInBytes : Nat)
      (indexCount : Nat) (transformBuffer : Resource) (transformOffsetInBytes : Nat)
      (isOpaque : Bool)
  deriving DecidableEq, Repr

/-- The calls whose `HRESULT` the program receives. -/
inductive GpuCall
  | CommandAllocatorReset
  | CommandListReset
  | CommandListClose
  | QueueSignal
  | FenceSetEventOnCompletion
  | SwapChainPresent
  | CheckFeatureSupport
  | QueryInterface
  | ResourceMap
  | CreateDXGIFactory2
  | EnumWarpAdapter
  | D3D12CreateDevice
  | CreateCommandQueue
  | CreateSwapChainForHwnd
  | MakeWindowAssociation
  | SwapChainAs
  | CreateDescriptorHeap
  | SwapChainGetBuffer
  | CreateCommandAllocator
  | CreateCommittedResource
  | D3D12SerializeRootSignature
  | CreateRootSignature
  | D3DCompileFromFile
  | CreateGraphicsPipelineState
  | CreateCommandList
  | CreateFence
  | CreateEvent
  deriving DecidableEq, Repr

/-- The numbers and answers only the device can give. -/
structure DeviceQueries where
  /-- Scratch and result size of a bottom-level build (geometries, allow-update flag). -/
  blasSizes : List Geometry → Bool → Nat × Nat
  /-- Scratch, result and instance-descriptor size of a top-level build
  (instance count, allow-update flag). -/
  tlasSizes : Nat → Bool → Nat × Nat × Nat
  /-- `GetGPUVirtualAddress` of a resource. -/
  gpuVA : Resource → Nat
  /-- `GetDescriptorHandleIncrementSize(CBV_SRV_UAV)`, a `UINT`. -/
  descriptorIncrement : Nat
  /-- `GetCPUDescriptorHandleForHeapStart` of a descriptor heap. -/
  cpuHandleForHeapStart : Resource → Nat
  /-- `GetGPUDescriptorHandleForHeapStart` of a descriptor heap. -/
  gpuHandleForHeapStart : Resource → Nat
  /-- `D3D12_SHADER_IDENTIFIER_SIZE_IN_BYTES`. -/
  shaderIdentifierSize : Nat
  /-- `D3D12_RAYTRACING_SHADER_RECORD_BYTE_ALIGNMENT`. -/
  recordAlignment : Nat
  /-- `D3D12_RAYTRACING_SHADER_TABLE_BYTE_ALIGNMENT`. -/
  tableAlignment : Nat
  /-- The tier `CheckFeatureSupport` reports, in tenths (`10` is tier 1.0). -/
  raytracingTier : Nat
  /-- Whether a call returns a success code. -/
  succeeded : GpuCall → Bool
  /-- `GetCurrentBackBufferIndex` of the swap chain after the given number of
  presented frames. -/
  currentBackBufferIndex : Nat → Nat
  /-- Whether `GetCompletedValue` has already reached the given fence value when
  `WaitForPreviousFrame` looks at it. -/
  fenceCompleted : Nat → Bool

/-- Modelled from the spec: the helper class `BottomLevelASGenerator` is missing
from the sources; it holds the geometries added so far ("source GeometryRef list"). -/
structure BottomLevelASGenerator where
  vertexBuffers : List Geometry
  deriving DecidableEq, Repr

/-- Modelled from the spec: `BottomLevelASGenerator::AddVertexBuffer` (missing helper)
appends one geometry. -/
def BottomLevelASGenerator.AddVertexBuffer (g : BottomLevelASGenerator) (geo : Geometry) :
    BottomLevelASGenerator :=
  { g with vertexBuffers := g.vertexBuffers ++ [geo] }

/-- Modelled from the spec: `BottomLevelASGenerator::ComputeASBufferSizes` (missing
helper): the two sizes are numbers the device returns, which the program does not
compute itself. -/
def BottomLevelASGenerator.ComputeASBufferSizes (q : DeviceQueries) (g : BottomLevelASGenerator)
    (allowUpdate : Bool) : Nat × Nat :=
  q.blasSizes g.vertexBuffers allowUpdate

/-! ## Top-level generator (`nv_helpers_dx12::TopLevelASGenerator`) -/

/-- Modelled from the spec: the helper class `TopLevelASGenerator` is missing from
the sources. An instance is the spec's "BLAS reference, world transform, instance
index, shader-table hit-group offset". `AddInstance` receives the transform by
reference (`instances[i].second`), and the spec's refit rewrites the descriptors
"with updated transforms" although a refit hands the generator no instance: the
generator keeps the reference. `transformRef` is the index of the referenced
element of `m_instances`. -/
structure TLASInstance where
  bottomLevelAS : Resource
  transformRef : Nat
  instanceID : Nat
  hitGroupIndex : Nat
  deriving DecidableEq, Repr

/-- The member `m_topLevelASGenerator`: the instances added so far, in order. -/
structure TopLevelASGenerator where
  instances : List TLASInstance
  deriving DecidableEq, Repr

/-- Modelled from the spec: `TopLevelASGenerator::AddInstance` (missing helper)
appends one instance to the generator's ordered list. -/
def TopLevelASGenerator.AddInstance (g : TopLevelASGenerator) (bottomLevelAS : Resource)
    (transformRef : Nat) (instanceID : Nat) (hitGroupIndex : Nat) : TopLevelASGenerator :=
  { g with instances := g.instances ++ [⟨bottomLevelAS, transformRef, instanceID, hitGroupIndex⟩] }

/-- Modelled from the spec: `TopLevelASGenerator::ComputeASBufferSizes` (missing
helper) is the spec's "size-query using device + instance count + allow update
flag". -/
def TopLevelASGenerator.ComputeASBufferSizes (q : DeviceQueries) (g : TopLevelASGenerator)
    (allowUpdate : Bool) : Nat × Nat × Nat :=
  q.tlasSizes g.instances.length allowUpdate

/-- One range of a shader table in `D3D12_DISPATCH_RAYS_DESC`
(`StrideInBytes` is absent from the ray-generation record and kept `0` there). -/
structure ShaderTableRange where
  StartAddress : Nat
  SizeInBytes : Nat
  StrideInBytes : Nat
  deriving DecidableEq, Repr

/-- The struct `D3D12_DISPATCH_RAYS_DESC`. -/
structure D3D12_DISPATCH_RAYS_DESC where
  RayGenerationShaderRecord : ShaderTableRange
  MissShaderTable : ShaderTableRange
  HitGroupTable : ShaderTableRange
  Width : Nat
  Height : Nat
  Depth : Nat
  deriving DecidableEq, Repr

/-- A command recorded in `m_commandList`. -/
inductive Cmd
  | buildBLAS (geometries : List Geometry) (scratch result : Resource) (updateOnly : Bool)
      (previousResult : Resource)
  | buildTLAS (scratch result instanceDescs : Resource) (numInstances : Nat)
      (updateOnly : Bool) (previousResult : Resource)
  | uavBarrier (resource : Resource)
  | SetGraphicsRootSignature
  | RSSetViewports
  | RSSetScissorRects
  | transition (resource : Resource) (before after : ResourceState)
  | OMSetRenderTargets (frameIndex : Nat)
  | ClearDepthStencilView
  | SetDescriptorHeaps (heap : Resource)
  | SetGraphicsRootDescriptorTable (rootIndex : Nat) (heap : Resource)
  | ClearRenderTargetView (frameIndex : Nat)
  | IASetPrimitiveTopology
  | IASetVertexBuffers (buffer : Resource)
  | DrawInstanced (vertexCount instanceCount startVertex startInstance : Nat)
  | SetPipelineState1
  | DispatchRays (desc : D3D12_DISPATCH_RAYS_DESC)
  | CopyResource (dst src : Resource)
  deriving DecidableEq, Repr

/-- Modelled from the spec: `BottomLevelASGenerator::Generate` (missing helper)
"issues one build command referencing both [buffers] plus all GeometryRefs" and
"emits a structural barrier after build". -/
def BottomLevelASGenerator.Generate (g : BottomLevelASGenerator) (scratchBuffer : Resource)
    (resultBuffer : Resource) (updateOnly : Bool) (previousResult : Resource) : List Cmd :=
  [Cmd.buildBLAS g.vertexBuffers scratchBuffer resultBuffer updateOnly previousResult,
   Cmd.uavBarrier resultBuffer]

/-- Modelled from the spec: the descriptor the generator writes for one instance,
"transform, mask, hit-group offset, BLAS device address" (the value of the mask is
not fixed by the spec and is left out). The transform is read through the
reference at the time of the call. -/
def TLASInstance.toDesc (q : DeviceQueries) (mem : List (Resource × XMMATRIX))
    (inst : TLASInstance) : InstanceDesc :=
  { transform := (mem.get? inst.transformRef).map Prod.snd
    instanceID := inst.instanceID
    hitGroupIndex := inst.hitGroupIndex
    accelerationStructure := q.gpuVA inst.bottomLevelAS }

/-- Modelled from the spec: `TopLevelASGenerator::Generate` (missing helper).
It writes one descriptor per instance into the staging buffer and records the
build; an update build "reads the previous result buffer as a base and overwrites
it in place". Returns the descriptors written and the commands recorded. -/
def TopLevelASGenerator.Generate (q : DeviceQueries) (g : TopLevelASGenerator)
    (mem : List (Resource × XMMATRIX)) (scratchBuffer resultBuffer descriptorsBuffer : Resource)
    (updateOnly : Bool) (previousResult : Resource) : List InstanceDesc × List Cmd :=
  (g.instances.map (TLASInstance.toDesc q mem),
   [Cmd.buildTLAS scratchBuffer resultBuffer descriptorsBuffer g.instances.length updateOnly
      previousResult,
    Cmd.uavBarrier resultBuffer])

/-! ## Root signatures (`nv_helpers_dx12::RootSignatureGenerator`) -/

/-- Modelled from the spec: the helper class `RootSignatureGenerator` is missing from
the sources; it builds a BindingLayout, an "ordered list of binding slots, each
either descriptor-table range or direct resource pointer". -/
structure RootSignatureGenerator where
  parameters : List RootParameter
  deriving DecidableEq, Repr

/-- Modelled from the spec: `AddHeapRangesParameter` (missing helper) appends one
descriptor-table slot. -/
def RootSignatureGenerator.AddHeapRangesParameter (g : RootSignatureGenerator)
    (ranges : List DescriptorRange) : RootSignatureGenerator :=
  { g with parameters := g.parameters ++ [.heapRanges ranges] }

/-- Modelled from the spec: `AddRootParameter` (missing helper) appends one
direct-pointer slot. -/
def RootSignatureGenerator.AddRootParameter (g : RootSignatureGenerator)
    (type : D3D12_DESCRIPTOR_RANGE_TYPE) (shaderRegister : Nat) : RootSignatureGenerator :=
  { g with parameters := g.parameters ++ [.rootParameter type shaderRegister] }

/-- Modelled from the spec: `RootSignatureGenerator::Generate` (missing helper)
creates the root-signature object; its handle is its position in the device's list. -/
def RootSignatureGenerator.Generate (g : RootSignatureGenerator) (d : Device) :
    Device × Resource :=
  ({ d with rootSignatures := d.rootSignatures ++ [g.parameters] }, d.rootSignatures.length + 1)

/-- The slots of the root signature behind a handle. -/
def Device.rootSignature (d : Device) (r : Resource) : Option (List RootParameter) :=
  if r = 0 then none else d.rootSignatures.get? (r - 1)

/-! ## Pipeline (`nv_helpers_dx12::RayTracingPipelineGenerator`) -/

/-- A library added to the pipeline: the compiled file and the symbols exported. -/
structure Library where
  dxil : String
  exportedSymbols : List String
  deriving DecidableEq, Repr

/-- A hit group: its name and the closest-hit symbol it resolves to. -/
structure HitGroup where
  hitGroupName : String
  closestHitSymbol : String
  deriving DecidableEq, Repr

/-- A root signature and the programs it is associated with. -/
structure RootSignatureAssociation where
  rootSignature : Resource
  symbols : List String
  deriving DecidableEq, Repr

/-- Modelled from the spec: the helper class `RayTracingPipelineGenerator` is missing
from the sources; it records `declareLibrary`, `declareHitGroup` and
`declareBindingLayout` calls and the three policy constants. -/
structure RayTracingPipelineGenerator where
  m_libraries : List Library
  m_hitGroups : List HitGroup
  m_rootSignatureAssociations : List RootSignatureAssociation
  m_maxPayLoadSizeInBytes : Nat
  m_maxAttributeSizeInBytes : Nat
  m_maxRecursionDepth : Nat
  deriving DecidableEq, Repr

/-- Modelled from the spec: `AddLibrary` (missing helper), the spec's `declareLibrary`. -/
def RayTracingPipelineGenerator.AddLibrary (g : RayTracingPipelineGenerator) (dxil : String)
    (symbols : List String) : RayTracingPipelineGenerator :=
  { g with m_libraries := g.m_libraries ++ [⟨dxil, symbols⟩] }

/-- Modelled from the spec: `AddHitGroup` (missing helper), the spec's `declareHitGroup`. -/
def RayTracingPipelineGenerator.AddHitGroup (g : RayTracingPipelineGenerator)
    (hitGroupName closestHitSymbol : String) : RayTracingPipelineGenerator :=
  { g with m_hitGroups := g.m_hitGroups ++ [⟨hitGroupName, closestHitSymbol⟩] }

/-- Modelled from the spec: `AddRootSignatureAssociation` (missing helper), the
spec's `declareBindingLayout`. -/
def RayTracingPipelineGenerator.AddRootSignatureAssociation (g : RayTracingPipelineGenerator)
    (rootSignature : Resource) (symbols : List String) : RayTracingPipelineGenerator :=
  { g with m_rootSignatureAssociations :=
      g.m_rootSignatureAssociations ++ [⟨rootSignature, symbols⟩] }

/-- The root signatures associated with a program, in declaration order. -/
def RayTracingPipelineGenerator.signaturesOf (g : RayTracingPipelineGenerator)
    (program : String) : List Resource :=
  (g.m_rootSignatureAssociations.filter (fun a => a.symbols.contains program)).map
    RootSignatureAssociation.rootSignature

/-! ## Shader binding table (`nv_helpers_dx12::ShaderBindingTableGenerator`) -/

/-- One record of the table as the program declares it: program name and root
arguments. -/
structure SBTEntry where
  m_entryPoint : String
  m_inputData : List RootArgument
  deriving DecidableEq, Repr

/-- Modelled from the spec: the helper class `ShaderBindingTableGenerator` is missing
from the sources. It keeps one ordered list of records per section ("records are
appended within each section in call order") and the stride of each section as
last computed. -/
structure ShaderBindingTableGenerator where
  m_rayGen : List SBTEntry
  m_miss : List SBTEntry
  m_hitGroup : List SBTEntry
  m_rayGenEntrySize : Nat
  m_missEntrySize : Nat
  m_hitGroupEntrySize : Nat
  deriving DecidableEq, Repr

/-- Modelled from the spec: `Reset` (missing helper), the spec's `reset()`. -/
def ShaderBindingTableGenerator.Reset (_g : ShaderBindingTableGenerator) :
    ShaderBindingTableGenerator :=
  ⟨[], [], [], 0, 0, 0⟩

/-- Modelled from the spec: `AddRayGenerationProgram` (missing helper). -/
def ShaderBindingTableGenerator.AddRayGenerationProgram (g : ShaderBindingTableGenerator)
    (entryPoint : String) (inputData : List RootArgument) : ShaderBindingTableGenerator :=
  { g with m_rayGen := g.m_rayGen ++ [⟨entryPoint, inputData⟩] }

/-- Modelled from the spec: `AddMissProgram` (missing helper). -/
def ShaderBindingTableGenerator.AddMissProgram (g : ShaderBindingTableGenerator)
    (entryPoint : String) (inputData : List RootArgument) : ShaderBindingTableGenerator :=
  { g with m_miss := g.m_miss ++ [⟨entryPoint, inputData⟩] }

/-- Modelled from the spec: `AddHitGroup` (missing helper). -/
def ShaderBindingTableGenerator.AddHitGroup (g : ShaderBindingTableGenerator)
    (entryPoint : String) (inputData : List RootArgument) : ShaderBindingTableGenerator :=
  { g with m_hitGroup := g.m_hitGroup ++ [⟨entryPoint, inputData⟩] }

/-- Rounding `v` up to a multiple of `alignment`. -/
def roundUp (v alignment : Nat) : Nat := (v + alignment - 1) / alignment * alignment

/-- Size of one record before padding: the program identifier and 8 bytes per root
argument. -/
def SBTEntry.recordSize (q : DeviceQueries) (e : SBTEntry) : Nat :=
  q.shaderIdentifierSize + 8 * e.m_inputData.length

/-- Modelled from the spec: the stride of a section is "max(record sizes in the
section), rounded up to the device's required record alignment". -/
def GetEntrySize (q : DeviceQueries) (entries : List SBTEntry) : Nat :=
  roundUp ((entries.map (SBTEntry.recordSize q)).foldl max 0) q.recordAlignment

/-- Modelled from the spec: `GetRayGenSectionSize` (missing helper); a section is
its stride times its record count. -/
def ShaderBindingTableGenerator.GetRayGenSectionSize (g : ShaderBindingTableGenerator) : Nat :=
  g.m_rayGenEntrySize * g.m_rayGen.length

/-- Modelled from the spec: `GetMissEntrySize` (missing helper). -/
def ShaderBindingTableGenerator.GetMissEntrySize (g : ShaderBindingTableGenerator) : Nat :=
  g.m_missEntrySize

/-- Modelled from the spec: `GetMissSectionSize` (missing helper). -/
def ShaderBindingTableGenerator.GetMissSectionSize (g : ShaderBindingTableGenerator) : Nat :=
  g.m_missEntrySize * g.m_miss.length

/-- Modelled from the spec: `GetHitGroupEntrySize` (missing helper). -/
def ShaderBindingTableGenerator.GetHitGroupEntrySize (g : ShaderBindingTableGenerator) : Nat :=
  g.m_hitGroupEntrySize

/-- Modelled from the spec: `GetHitGroupSectionSize` (missing helper). -/
def ShaderBindingTableGenerator.GetHitGroupSectionSize (g : ShaderBindingTableGenerator) : Nat :=
  g.m_hitGroupEntrySize * g.m_hitGroup.length

/-- Modelled from the spec: `ComputeSBTSize` (missing helper), the spec's
`computeLayout() -> sizeBytes`. It computes the stride of every section from that
section's records; the spec gives no formula for the total, taken here as the three
sections one after the other, which is how `PopulateCommandList` addresses them. -/
def ShaderBindingTableGenerator.ComputeSBTSize (q : DeviceQueries)
    (g : ShaderBindingTableGenerator) : ShaderBindingTableGenerator × Nat :=
  let g1 : ShaderBindingTableGenerator :=
    { g with
      m_rayGenEntrySize := GetEntrySize q g.m_rayGen
      m_missEntrySize := GetEntrySize q g.m_miss
      m_hitGroupEntrySize := GetEntrySize q g.m_hitGroup }
  (g1, g1.GetRayGenSectionSize + g1.GetMissSectionSize + g1.GetHitGroupSectionSize)

/-- Modelled from the spec: `ShaderBindingTableGenerator::Generate` (missing helper)
writes the sections in the order RayGen, Miss, HitGroup, each record padded to its
section's stride. -/
def ShaderBindingTableGenerator.Generate (g : ShaderBindingTableGenerator) :
    List SBTRecordBytes :=
  g.m_rayGen.map (fun e => ⟨e.m_entryPoint, e.m_inputData, g.m_rayGenEntrySize⟩) ++
  g.m_miss.map (fun e => ⟨e.m_entryPoint, e.m_inputData, g.m_missEntrySize⟩) ++
  g.m_hitGroup.map (fun e => ⟨e.m_entryPoint, e.m_inputData, g.m_hitGroupEntrySize⟩)

/-! ## The application object -/

/-- The struct `AccelerationStructureBuffers`. -/
structure AccelerationStructureBuffers where
  pScratch : Resource
  pResult : Resource
  pInstanceDesc : Resource
  deriving DecidableEq, Repr

/-- What the command queue `m_commandQueue`, the fence and the swap chain were asked
to do, in order. -/
inductive QueueOp
  | ExecuteCommandLists (commands : List Cmd)
  | Signal (value : Nat)
  | SetEventOnCompletion (value : Nat)
  | WaitForSingleObject
  | Present
  deriving DecidableEq, Repr

/-- What a member function throws. -/
inductive Error
  | hresult (call : GpuCall)
  | runtime_error (what : String)
  | logic_error (what : String)
  | outOfRange (what : String)
  deriving DecidableEq, Repr

/-- The call `ThrowIfFailed(hr)` for the result of `call`. -/
def ThrowIfFailed (q : DeviceQueries) (call : GpuCall) : Except Error Unit :=
  if q.succeeded call then .ok () else .error (.hresult call)

/-- The members of `D3D12HelloTriangle` (and of its base `DXSample`) that the
ray-tracing code reads or writes. -/
structure App where
  m_width : Nat
  m_height : Nat
  m_useWarpDevice : Bool
  /-- The number of frames `m_swapChain` has presented. -/
  m_swapChainPresents : Nat
  m_rtvHeap : Resource
  m_dsvHeap : Resource
  m_depthStencil : Resource
  m_rootSignature : Resource
  m_perInstanceConstantBuffers : List Resource
  m_device : Device
  m_commandList : List Cmd
  m_commandQueue : List QueueOp
  m_renderTargets : List Resource
  m_frameIndex : Nat
  m_fenceValue : Nat
  m_raster : Bool
  m_CubeBuffer : Resource
  m_planeBuffer : Resource
  m_bottomLevelAS : Resource
  m_topLevelASGenerator : TopLevelASGenerator
  m_topLevelASBuffers : AccelerationStructureBuffers
  m_instances : List (Resource × XMMATRIX)
  m_rayGenSignature : Resource
  m_hitSignature : Resource
  m_missSignature : Resource
  m_shadowSignature : Resource
  m_rtStateObject : Option RayTracingPipelineGenerator
  m_outputResource : Resource
  m_srvUavHeap : Resource
  m_cameraBuffer : Resource
  m_constHeap : Resource
  m_cameraBufferSize : Nat
  m_sbtHelper : ShaderBindingTableGenerator
  m_sbtStorage : Resource
  m_time : Nat
  deriving DecidableEq, Repr

/-! ## Bottom-level build -/

/-- The loop of `CreateBottomLevelAS`, from index `i` on. Geometry `i` is added with
the indexed overload when `i < vIndexBuffers.size() && vIndexBuffers[i].second > 0`,
and with the non-indexed overload otherwise. -/
def addVertexBuffersFrom (vIndexBuffers : List (Resource × Nat)) :
    List (Resource × Nat) → Nat → BottomLevelASGenerator → BottomLevelASGenerator
  | [], _, g => g
  | vb :: rest, i, g =>
    if i < vIndexBuffers.length && decide ((vIndexBuffers.getD i (0, 0)).2 > 0) then
      addVertexBuffersFrom vIndexBuffers rest (i + 1)
        (g.AddVertexBuffer (.indexed vb.1 0 vb.2 sizeofVertex (vIndexBuffers.getD i (0, 0)).1 0
          (vIndexBuffers.getD i (0, 0)).2 0 0 true))
    else
      addVertexBuffersFrom vIndexBuffers rest (i + 1)
        (g.AddVertexBuffer (.nonIndexed vb.1 0 vb.2 sizeofVertex 0 0))

/-- The function `CreateBottomLevelAS(vVertexBuffers, vIndexBuffers)`: it returns
the buffers and leaves the allocations and the recorded build in the application. -/
def CreateBottomLevelAS (q : DeviceQueries) (s : App) (vVertexBuffers : List (Resource × Nat))
    (vIndexBuffers : List (Resource × Nat)) : App × AccelerationStructureBuffers :=
  let bottomLevelAS := addVertexBuffersFrom vIndexBuffers vVertexBuffers 0 ⟨[]⟩
  let sizes := bottomLevelAS.ComputeASBufferSizes q false
  let scratchSizeInBytes := sizes.1
  let resultSizeInBytes := sizes.2
  let a1 := CreateBuffer s.m_device scratchSizeInBytes ResourceFlag.ALLOW_UNORDERED_ACCESS
    ResourceState.COMMON HeapProps.kDefaultHeapProps
  let a2 := CreateBuffer a1.1 resultSizeInBytes ResourceFlag.ALLOW_UNORDERED_ACCESS
    ResourceState.RAYTRACING_ACCELERATION_STRUCTURE HeapProps.kDefaultHeapProps
  let buffers : AccelerationStructureBuffers := ⟨a1.2, a2.2, 0⟩
  ({ s with
     m_device := a2.1
     m_commandList :=
       s.m_commandList ++ bottomLevelAS.Generate buffers.pScratch buffers.pResult false 0 },
   buffers)

/-! ## Top-level build -/

/-- The loop of `CreateTopLevelAS`, from index `i` on: one `AddInstance` per element,
with instance index `static_cast<UINT>(i)` and hit-group offset
`static_cast<UINT>(2 * i)`, the product being computed in `size_t`. -/
def addInstancesFrom : List (Resource × XMMATRIX) → Nat → TopLevelASGenerator →
    TopLevelASGenerator
  | [], _, g => g
  | inst :: rest, i, g =>
    addInstancesFrom rest (i + 1) (g.AddInstance inst.1 i (toUINT i) (toUINT (toSizeT (2 * i))))

/-- The function `CreateTopLevelAS(instances, updateOnly)`. The reference parameter
`instances` is bound to the member `m_instances` at both call sites. -/
def CreateTopLevelAS (q : DeviceQueries) (s : App) (updateOnly : Bool) : App :=
  let s1 : App :=
    if !updateOnly then
      let gen := addInstancesFrom s.m_instances 0 s.m_topLevelASGenerator
      let sizes := gen.ComputeASBufferSizes q true
      let a1 := CreateBuffer s.m_device sizes.1 ResourceFlag.ALLOW_UNORDERED_ACCESS
        ResourceState.UNORDERED_ACCESS HeapProps.kDefaultHeapProps
      let a2 := CreateBuffer a1.1 sizes.2.1 ResourceFlag.ALLOW_UNORDERED_ACCESS
        ResourceState.RAYTRACING_ACCELERATION_STRUCTURE HeapProps.kDefaultHeapProps
      let a3 := CreateBuffer a2.1 sizes.2.2 ResourceFlag.NONE
        ResourceState.GENERIC_READ HeapProps.kUploadHeapProps
      { s with
        m_topLevelASGenerator := gen
        m_device := a3.1
        m_topLevelASBuffers := ⟨a1.2, a2.2, a3.2⟩ }
    else s
  let out := s1.m_topLevelASGenerator.Generate q s1.m_instances
    s1.m_topLevelASBuffers.pScratch s1.m_topLevelASBuffers.pResult
    s1.m_topLevelASBuffers.pInstanceDesc updateOnly s1.m_topLevelASBuffers.pResult
  { s1 with
    m_device := { s1.m_device with
      instanceDescWrites :=
        (s1.m_topLevelASBuffers.pInstanceDesc, out.1) :: s1.m_device.instanceDescWrites }
    m_commandList := s1.m_commandList ++ out.2 }

/-- The function `CreateAccelerationStructures`. The results of `Close`, `Signal`
and `SetEventOnCompletion` are not looked at; the one of `Reset` is. After the
signal the function registers the completion event and waits for it. -/
def CreateAccelerationStructures (q : DeviceQueries) (s : App) : Except Error App :=
  let cube := CreateBottomLevelAS q s [(s.m_CubeBuffer, 6 * 6)] []
  let cubeBottomLevelBuffers := cube.2
  let plane := CreateBottomLevelAS q cube.1 [(s.m_planeBuffer, 6)] []
  let planeBottomLevelBuffers := plane.2
  let s1 : App := { plane.1 with
    m_instances := [(cubeBottomLevelBuffers.pResult, XMMATRIX.translation000),
                    (planeBottomLevelBuffers.pResult, XMMATRIX.translation000)] }
  let s2 := CreateTopLevelAS q s1 false
  let s3 : App := { s2 with
    m_commandQueue := s2.m_commandQueue ++ [QueueOp.ExecuteCommandLists s2.m_commandList] }
  let s4 : App := { s3 with m_fenceValue := toSizeT (s3.m_fenceValue + 1) }
  let s5 : App := { s4 with
    m_commandQueue := s4.m_commandQueue ++
      [QueueOp.Signal s4.m_fenceValue, QueueOp.SetEventOnCompletion s4.m_fenceValue,
       QueueOp.WaitForSingleObject] }
  match ThrowIfFailed q GpuCall.CommandListReset with
  | .error e => .error e
  | .ok _ => .ok { s5 with m_commandList := [], m_bottomLevelAS := cubeBottomLevelBuffers.pResult }

/-! ## Root signatures and pipeline -/

/-- The function `CreateRayGenSignature`: one heap-ranges parameter with the output
image (UAV, heap slot 0), the top-level structure (SRV, heap slot 1) and the camera
(CBV, heap slot 2). -/
def CreateRayGenSignature (d : Device) : Device × Resource :=
  let rsc : RootSignatureGenerator := ⟨[]⟩
  let rsc := rsc.AddHeapRangesParameter
    [⟨0, 1, 0, .UAV, 0⟩,
     ⟨0, 1, 0, .SRV, 1⟩,
     ⟨0, 1, 0, .CBV, 2⟩]
  rsc.Generate d

/-- The function `CreateHitSignature`: two root SRVs (`t0`, `t1`) and one heap-ranges
parameter (`t2`, heap slot 1). -/
def CreateHitSignature (d : Device) : Device × Resource :=
  let rsc : RootSignatureGenerator := ⟨[]⟩
  let rsc := rsc.AddRootParameter .SRV 0
  let rsc := rsc.AddRootParameter .SRV 1
  let rsc := rsc.AddHeapRangesParameter [⟨2, 1, 0, .SRV, 1⟩]
  rsc.Generate d

/-- The function `CreateMissSignature`: no parameter. -/
def CreateMissSignature (d : Device) : Device × Resource :=
  let rsc : RootSignatureGenerator := ⟨[]⟩
  rsc.Generate d

/-- The declarations `CreateRaytracingPipeline` makes on the pipeline generator,
given the four root signatures. -/
def declarePipeline (rayGenSignature missSignature hitSignature shadowSignature : Resource) :
    RayTracingPipelineGenerator :=
  let pipeline : RayTracingPipelineGenerator := ⟨[], [], [], 0, 0, 0⟩
  let pipeline := pipeline.AddLibrary "res/shaders/RayGen.hlsl" ["RayGen"]
  let pipeline := pipeline.AddLibrary "res/shaders/Miss.hlsl" ["Miss"]
  let pipeline := pipeline.AddLibrary "res/shaders/Hit.hlsl"
    ["ClosestHit", "CubeClosestHit", "PlaneClosestHit"]
  let pipeline := pipeline.AddLibrary "res/shaders/ShadowRay.hlsl"
    ["ShadowClosestHit", "ShadowMiss"]
  let pipeline := pipeline.AddHitGroup "HitGroup" "ClosestHit"
  let pipeline := pipeline.AddHitGroup "CubeHitGroup" "CubeClosestHit"
  let pipeline := pipeline.AddHitGroup "PlaneHitGroup" "PlaneClosestHit"
  let pipeline := pipeline.AddHitGroup "ShadowHitGroup" "ShadowClosestHit"
  let pipeline := pipeline.AddRootSignatureAssociation rayGenSignature ["RayGen"]
  let pipeline := pipeline.AddRootSignatureAssociation shadowSignature ["ShadowHitGroup"]
  let pipeline := pipeline.AddRootSignatureAssociation missSignature ["Miss", "ShadowMiss"]
  let pipeline := pipeline.AddRootSignatureAssociation hitSignature
    ["HitGroup", "CubeHitGroup", "PlaneHitGroup"]
  { pipeline with
    m_maxPayLoadSizeInBytes := 4 * 4
    m_maxAttributeSizeInBytes := 2 * 4
    m_maxRecursionDepth := 2 }

/-- The function `CreateRaytracingPipeline`: the four signatures are created in the
order ray-gen, miss, hit, shadow (the last two both by `CreateHitSignature`), then
the pipeline is generated. -/
def CreateRaytracingPipeline (q : DeviceQueries) (s : App) : Except Error App :=
  let r1 := CreateRayGenSignature s.m_device
  let r2 := CreateMissSignature r1.1
  let r3 := CreateHitSignature r2.1
  let r4 := CreateHitSignature r3.1
  let pipeline := declarePipeline r1.2 r2.2 r3.2 r4.2
  match ThrowIfFailed q GpuCall.QueryInterface with
  | .error e => .error e
  | .ok _ =>
    .ok { s with
          m_device := r4.1
          m_rayGenSignature := r1.2
          m_missSignature := r2.2
          m_hitSignature := r3.2
          m_shadowSignature := r4.2
          m_rtStateObject := some pipeline }

/-- The root signature the finalized pipeline associates with a program: the slots
of the first association naming it. -/
def App.bindingLayoutOf (s : App) (program : String) : Option (List RootParameter) :=
  match s.m_rtStateObject with
  | none => none
  | some pipeline =>
    match pipeline.signaturesOf program with
    | [] => none
    | sig :: _ => s.m_device.rootSignature sig

/-! ## Output image, camera buffer, descriptor heap -/

/-- The function `CreateRaytracingOutputBuffer`: a 2-D texture of the window's size,
created in the copy-source state. -/
def CreateRaytracingOutputBuffer (q : DeviceQueries) (s : App) : Except Error App :=
  match ThrowIfFailed q GpuCall.CreateCommittedResource with
  | .error e => .error e
  | .ok _ =>
    let a := s.m_device.allocate (.texture2D s.m_width s.m_height
      ResourceFlag.ALLOW_UNORDERED_ACCESS ResourceState.COPY_SOURCE HeapProps.kDefaultHeapProps)
    .ok { s with m_device := a.1, m_outputResource := a.2 }

/-- Size of an `XMMATRIX` (16 floats). -/
def sizeofXMMATRIX : Nat := 64

/-- The function `CreateCameraBuffer`. -/
def CreateCameraBuffer (q : DeviceQueries) (s : App) : App :=
  let nbMatrix := 4
  let cameraBufferSize := toUINT (nbMatrix * sizeofXMMATRIX)
  let a := CreateBuffer s.m_device cameraBufferSize ResourceFlag.NONE
    ResourceState.GENERIC_READ HeapProps.kUploadHeapProps
  let h := CreateDescriptorHeap a.1 1 true
  let srvHandle := q.cpuHandleForHeapStart h.2
  { s with
    m_cameraBufferSize := cameraBufferSize
    m_cameraBuffer := a.2
    m_constHeap := h.2
    m_device := { h.1 with
      descriptorWrites :=
        (srvHandle, Descriptor.constantBufferView (q.gpuVA a.2) cameraBufferSize) ::
          h.1.descriptorWrites } }

/-- The function `CreateShaderResourceHeap`: a heap of 3 descriptors; the UAV of the
output image is written at the heap start, the handle is advanced by the device's
increment, the view of the top-level structure is written, the handle is advanced
again, and the view of the camera buffer is written. -/
def CreateShaderResourceHeap (q : DeviceQueries) (s : App) : App :=
  let h := CreateDescriptorHeap s.m_device 3 true
  let srvHandle := q.cpuHandleForHeapStart h.2
  let w1 := (srvHandle, Descriptor.unorderedAccessView s.m_outputResource)
  let srvHandle := toSizeT (srvHandle + q.descriptorIncrement)
  let w2 := (srvHandle,
    Descriptor.accelerationStructureView (q.gpuVA s.m_topLevelASBuffers.pResult))
  let srvHandle := toSizeT (srvHandle + q.descriptorIncrement)
  let w3 := (srvHandle,
    Descriptor.constantBufferView (q.gpuVA s.m_cameraBuffer) s.m_cameraBufferSize)
  { s with
    m_srvUavHeap := h.2
    m_device := { h.1 with descriptorWrites := w3 :: w2 :: w1 :: h.1.descriptorWrites } }

/-- The CPU handle of slot `k` of a descriptor heap. -/
def slotHandle (q : DeviceQueries) (heap : Resource) (k : Nat) : Nat :=
  toSizeT (q.cpuHandleForHeapStart heap + k * q.descriptorIncrement)

/-- The descriptor in slot `k` of the heap `m_srvUavHeap`. -/
def App.srvUavSlot (q : DeviceQueries) (s : App) (k : Nat) : Option Descriptor :=
  s.m_device.descriptorAt (slotHandle q s.m_srvUavHeap k)

/-! ## Shader binding table -/

/-- The records `CreateShaderBindingTable` declares, in call order, after the reset.
`heapPointer` is the GPU handle of the start of `m_srvUavHeap`. -/
def declareShaderBindingTable (g : ShaderBindingTableGenerator) (heapPointer : Nat) :
    ShaderBindingTableGenerator :=
  let g := g.Reset
  let g := g.AddRayGenerationProgram "RayGen" [RootArgument.descriptorTableHandle heapPointer]
  let g := g.AddMissProgram "Miss" []
  let g := g.AddMissProgram "ShadowMiss" []
  let g := g.AddHitGroup "CubeHitGroup" []
  let g := g.AddHitGroup "ShadowHitGroup" []
  g.AddHitGroup "PlaneHitGroup" [RootArgument.descriptorTableHandle heapPointer]

/-- The function `CreateShaderBindingTable`. -/
def CreateShaderBindingTable (q : DeviceQueries) (s : App) : Except Error App :=
  let heapPointer := q.gpuHandleForHeapStart s.m_srvUavHeap
  let g := declareShaderBindingTable s.m_sbtHelper heapPointer
  let c := g.ComputeSBTSize q
  let sbtSize := toUINT c.2
  let a := CreateBuffer s.m_device sbtSize ResourceFlag.NONE ResourceState.GENERIC_READ
    HeapProps.kUploadHeapProps
  if a.2 = 0 then
    .error (.logic_error "Could not allocate the shader binding table.")
  else
    .ok { s with
          m_sbtHelper := c.1
          m_sbtStorage := a.2
          m_device := { a.1 with sbtWrites := (a.2, c.1.Generate) :: a.1.sbtWrites } }

/-! ## Per-frame functions -/

/-- The function `OnUpdate`: `m_time` is a `uint32_t`; the transform of instance 0 is
replaced by the matrix computed from the new time. Writing `m_instances[0]` of an
empty vector is undefined and is reported as an error here. -/
def OnUpdate (q : DeviceQueries) (s : App) : Except Error App :=
  let m_time := toUINT (s.m_time + 1)
  match s.m_instances with
  | [] => .error (.outOfRange "m_instances[0]")
  | inst :: rest =>
    match ThrowIfFailed q GpuCall.ResourceMap with
    | .error e => .error e
    | .ok _ =>
      .ok { s with m_time := m_time, m_instances := (inst.1, XMMATRIX.rotationAt m_time) :: rest }

/-- The key code `VK_SPACE`. -/
def VK_SPACE : Nat := 32

/-- The function `OnKeyUp`. -/
def OnKeyUp (s : App) (key : Nat) : App :=
  if key = VK_SPACE then { s with m_raster := !s.m_raster } else s

/-- The dispatch descriptor `PopulateCommandList` fills in. -/
def dispatchDesc (q : DeviceQueries) (s : App) : D3D12_DISPATCH_RAYS_DESC :=
  let rayGenerationSectionSizeInBytes := toUINT s.m_sbtHelper.GetRayGenSectionSize
  let missSectionSizeInBytes := toUINT s.m_sbtHelper.GetMissSectionSize
  let hitGroupsSectionSize := toUINT s.m_sbtHelper.GetHitGroupSectionSize
  { RayGenerationShaderRecord := ⟨q.gpuVA s.m_sbtStorage, rayGenerationSectionSizeInBytes, 0⟩
    MissShaderTable :=
      ⟨toUINT64 (q.gpuVA s.m_sbtStorage + rayGenerationSectionSizeInBytes),
       missSectionSizeInBytes, s.m_sbtHelper.GetMissEntrySize⟩
    HitGroupTable :=
      ⟨toUINT64 (toUINT64 (q.gpuVA s.m_sbtStorage + rayGenerationSectionSizeInBytes) +
         missSectionSizeInBytes),
       hitGroupsSectionSize, s.m_sbtHelper.GetHitGroupEntrySize⟩
    Width := s.m_width
    Height := s.m_height
    Depth := 1 }

/-- The rasterization branch of `PopulateCommandList`. -/
def rasterCommands (s : App) : List Cmd :=
  [Cmd.ClearDepthStencilView,
   Cmd.SetDescriptorHeaps s.m_constHeap,
   Cmd.SetGraphicsRootDescriptorTable 0 s.m_constHeap,
   Cmd.ClearRenderTargetView s.m_frameIndex,
   Cmd.IASetPrimitiveTopology,
   Cmd.IASetVertexBuffers s.m_CubeBuffer,
   Cmd.DrawInstanced (6 * 6) 1 0 0,
   Cmd.IASetVertexBuffers s.m_planeBuffer,
   Cmd.DrawInstanced 6 1 0 0]

/-- The commands of the ray-tracing branch of `PopulateCommandList` that follow the
refit. -/
def raytraceCommands (q : DeviceQueries) (s : App) : List Cmd :=
  let backBuffer := s.m_renderTargets.getD s.m_frameIndex 0
  [Cmd.SetDescriptorHeaps s.m_srvUavHeap,
   Cmd.transition s.m_outputResource ResourceState.COPY_SOURCE ResourceState.UNORDERED_ACCESS,
   Cmd.SetPipelineState1,
   Cmd.DispatchRays (dispatchDesc q s),
   Cmd.transition s.m_outputResource ResourceState.UNORDERED_ACCESS ResourceState.COPY_SOURCE,
   Cmd.transition backBuffer ResourceState.RENDER_TARGET ResourceState.COPY_DEST,
   Cmd.CopyResource backBuffer s.m_outputResource,
   Cmd.transition backBuffer ResourceState.COPY_DEST ResourceState.RENDER_TARGET]

/-- The function `PopulateCommandList`. -/
def PopulateCommandList (q : DeviceQueries) (s : App) : Except Error App :=
  match ThrowIfFailed q GpuCall.CommandAllocatorReset with
  | .error e => .error e
  | .ok _ =>
  match ThrowIfFailed q GpuCall.CommandListReset with
  | .error e => .error e
  | .ok _ =>
    let backBuffer := s.m_renderTargets.getD s.m_frameIndex 0
    let s1 : App := { s with
      m_commandList :=
        [Cmd.SetGraphicsRootSignature, Cmd.RSSetViewports, Cmd.RSSetScissorRects,
         Cmd.transition backBuffer ResourceState.PRESENT ResourceState.RENDER_TARGET,
         Cmd.OMSetRenderTargets s.m_frameIndex] }
    let s2 : App :=
      if s1.m_raster then
        { s1 with m_commandList := s1.m_commandList ++ rasterCommands s1 }
      else
        let t := CreateTopLevelAS q s1 true
        { t with m_commandList := t.m_commandList ++ raytraceCommands q t }
    let s3 : App := { s2 with
      m_commandList := s2.m_commandList ++
        [Cmd.transition backBuffer ResourceState.RENDER_TARGET ResourceState.PRESENT] }
    match ThrowIfFailed q GpuCall.CommandListClose with
    | .error e => .error e
    | .ok _ => .ok s3

/-! ## Start-up and frame loop -/

/-- A run of `ThrowIfFailed` over calls made one after the other: the first call that
returns a failure code raises. -/
def throwIfAnyFailed (q : DeviceQueries) : List GpuCall → Except Error Unit
  | [] => .ok ()
  | call :: rest => if q.succeeded call then throwIfAnyFailed q rest else .error (.hresult call)

/-- The function `WaitForPreviousFrame`: signal the current fence value, increment it,
and, unless the fence already reached the value, register the event and wait. -/
def WaitForPreviousFrame (q : DeviceQueries) (s : App) : Except Error App :=
  let fence := s.m_fenceValue
  match ThrowIfFailed q GpuCall.QueueSignal with
  | .error e => .error e
  | .ok _ =>
    let s1 : App := { s with
      m_commandQueue := s.m_commandQueue ++ [QueueOp.Signal fence]
      m_fenceValue := toUINT64 (s.m_fenceValue + 1) }
    if q.fenceCompleted fence then
      .ok { s1 with m_frameIndex := q.currentBackBufferIndex s1.m_swapChainPresents }
    else
      match ThrowIfFailed q GpuCall.FenceSetEventOnCompletion with
      | .error e => .error e
      | .ok _ =>
        .ok { s1 with
              m_commandQueue := s1.m_commandQueue ++
                [QueueOp.SetEventOnCompletion fence, QueueOp.WaitForSingleObject]
              m_frameIndex := q.currentBackBufferIndex s1.m_swapChainPresents }

/-- The calls `LoadPipeline` checks with `ThrowIfFailed`, in order. -/
def loadPipelineCalls (useWarpDevice : Bool) : List GpuCall :=
  [GpuCall.CreateDXGIFactory2] ++
  (if useWarpDevice then [GpuCall.EnumWarpAdapter, GpuCall.D3D12CreateDevice]
   else [GpuCall.D3D12CreateDevice]) ++
  [GpuCall.CreateCommandQueue, GpuCall.CreateSwapChainForHwnd, GpuCall.MakeWindowAssociation,
   GpuCall.SwapChainAs, GpuCall.CreateDescriptorHeap, GpuCall.SwapChainGetBuffer,
   GpuCall.SwapChainGetBuffer, GpuCall.CreateCommandAllocator, GpuCall.CreateCommittedResource]

/-- The function `LoadPipeline` (with `CreateDepthBuffer`): a new device, a new command
queue, a swap chain of `FrameCount = 2` back buffers, the heap of their render-target
views, the depth buffer and its heap. The views themselves are not modelled. -/
def LoadPipeline (q : DeviceQueries) (s : App) : Except Error App :=
  match throwIfAnyFailed q (loadPipelineCalls s.m_useWarpDevice) with
  | .error e => .error e
  | .ok _ =>
    let device : Device := ⟨[], [], [], [], []⟩
    let rtvHeap := device.allocate (.descriptorHeap 2 false)
    let target0 := rtvHeap.1.allocate (.texture2D s.m_width s.m_height ResourceFlag.NONE
      ResourceState.PRESENT HeapProps.kDefaultHeapProps)
    let target1 := target0.1.allocate (.texture2D s.m_width s.m_height ResourceFlag.NONE
      ResourceState.PRESENT HeapProps.kDefaultHeapProps)
    let dsvHeap := CreateDescriptorHeap target1.1 1 false
    let depth := dsvHeap.1.allocate (.texture2D s.m_width s.m_height
      ResourceFlag.ALLOW_DEPTH_STENCIL ResourceState.DEPTH_WRITE HeapProps.kDefaultHeapProps)
    .ok { s with
          m_device := depth.1
          m_commandQueue := []
          m_swapChainPresents := 0
          m_frameIndex := q.currentBackBufferIndex 0
          m_rtvHeap := rtvHeap.2
          m_renderTargets := [target0.2, target1.2]
          m_dsvHeap := dsvHeap.2
          m_depthStencil := depth.2 }

/-- The calls `LoadAssets` checks with `ThrowIfFailed` before it waits for the GPU, in
order (`CreatePlaneVB` and `CreateCubeVB` included). -/
def loadAssetsCalls : List GpuCall :=
  [GpuCall.D3D12SerializeRootSignature, GpuCall.CreateRootSignature, GpuCall.D3DCompileFromFile,
   GpuCall.D3DCompileFromFile, GpuCall.CreateGraphicsPipelineState, GpuCall.CreateCommandList,
   GpuCall.CreateCommittedResource, GpuCall.ResourceMap, GpuCall.CreateCommittedResource,
   GpuCall.ResourceMap, GpuCall.CreateFence, GpuCall.CreateEvent]

/-- The function `LoadAssets` (with `CreatePlaneVB` and `CreateCubeVB`): the
rasterization root signature, the command list (created recording and empty), the
plane and the cube vertex buffer, the fence with `m_fenceValue = 1`, and a first
`WaitForPreviousFrame`. -/
def LoadAssets (q : DeviceQueries) (s : App) : Except Error App :=
  match throwIfAnyFailed q loadAssetsCalls with
  | .error e => .error e
  | .ok _ =>
    let rootParameters : List RootParameter := [.heapRanges [⟨0, 1, 0, .CBV, 4294967295⟩]]
    let d1 : Device := { s.m_device with
      rootSignatures := s.m_device.rootSignatures ++ [rootParameters] }
    let plane := d1.allocate (.buffer ⟨6 * sizeofVertex, ResourceFlag.NONE,
      ResourceState.GENERIC_READ, HeapProps.kUploadHeapProps⟩)
    let cube := plane.1.allocate (.buffer ⟨36 * sizeofVertex, ResourceFlag.NONE,
      ResourceState.GENERIC_READ, HeapProps.kUploadHeapProps⟩)
    WaitForPreviousFrame q { s with
      m_device := cube.1
      m_rootSignature := s.m_device.rootSignatures.length + 1
      m_commandList := []
      m_planeBuffer := plane.2
      m_CubeBuffer := cube.2
      m_fenceValue := 1 }

/-- The function `CheckRaytracingSupport`: the feature query is checked with
`ThrowIfFailed`; a reported tier below 1.0 raises a runtime error. -/
def CheckRaytracingSupport (q : DeviceQueries) (s : App) : Except Error App :=
  match ThrowIfFailed q GpuCall.CheckFeatureSupport with
  | .error e => .error e
  | .ok _ =>
    if q.raytracingTier < 10 then .error (.runtime_error "Raytracing not supported on device")
    else .ok s

/-- Size of an `XMVECTOR` (4 floats). -/
def sizeofXMVECTOR : Nat := 16

/-- The function `CreatePerInstanceConstantBuffers`: three upload buffers of three
vectors each, each mapped once. -/
def CreatePerInstanceConstantBuffers (q : DeviceQueries) (s : App) : Except Error App :=
  match throwIfAnyFailed q [GpuCall.ResourceMap, GpuCall.ResourceMap, GpuCall.ResourceMap] with
  | .error e => .error e
  | .ok _ =>
    let bufferSize := toUINT (sizeofXMVECTOR * 3)
    let b1 := CreateBuffer s.m_device bufferSize ResourceFlag.NONE ResourceState.GENERIC_READ
      HeapProps.kUploadHeapProps
    let b2 := CreateBuffer b1.1 bufferSize ResourceFlag.NONE ResourceState.GENERIC_READ
      HeapProps.kUploadHeapProps
    let b3 := CreateBuffer b2.1 bufferSize ResourceFlag.NONE ResourceState.GENERIC_READ
      HeapProps.kUploadHeapProps
    .ok { s with m_device := b3.1, m_perInstanceConstantBuffers := [b1.2, b2.2, b3.2] }

/-- The steps of `OnInit`. -/
inductive InitStep
  | LoadPipeline
  | LoadAssets
  | CheckRaytracingSupport
  | CreateAccelerationStructures
  | CloseCommandList
  | CreateRaytracingPipeline
  | CreatePerInstanceConstantBuffers
  | CreateRaytracingOutputBuffer
  | CreateCameraBuffer
  | CreateShaderResourceHeap
  | CreateShaderBindingTable
  deriving DecidableEq, Repr

/-- What one step of `OnInit` does. -/
def InitStep.run (q : DeviceQueries) : InitStep → App → Except Error App
  | .LoadPipeline, s => D3D12HelloTriangle.LoadPipeline q s
  | .LoadAssets, s => D3D12HelloTriangle.LoadAssets q s
  | .CheckRaytracingSupport, s => D3D12HelloTriangle.CheckRaytracingSupport q s
  | .CreateAccelerationStructures, s => D3D12HelloTriangle.CreateAccelerationStructures q s
  | .CloseCommandList, s =>
    match ThrowIfFailed q GpuCall.CommandListClose with
    | .error e => .error e
    | .ok _ => .ok s
  | .CreateRaytracingPipeline, s => D3D12HelloTriangle.CreateRaytracingPipeline q s
  | .CreatePerInstanceConstantBuffers, s => D3D12HelloTriangle.CreatePerInstanceConstantBuffers q s
  | .CreateRaytracingOutputBuffer, s => D3D12HelloTriangle.CreateRaytracingOutputBuffer q s
  | .CreateCameraBuffer, s => .ok (D3D12HelloTriangle.CreateCameraBuffer q s)
  | .CreateShaderResourceHeap, s => .ok (D3D12HelloTriangle.CreateShaderResourceHeap q s)
  | .CreateShaderBindingTable, s => D3D12HelloTriangle.CreateShaderBindingTable q s

/-- The statements of `OnInit`, in source order (the two camera-manipulator calls
before `LoadPipeline` touch no member and are left out). -/
def OnInitSteps : List InitStep :=
  [.LoadPipeline, .LoadAssets, .CheckRaytracingSupport, .CreateAccelerationStructures,
   .CloseCommandList, .CreateRaytracingPipeline, .CreatePerInstanceConstantBuffers,
   .CreateRaytracingOutputBuffer, .CreateCameraBuffer, .CreateShaderResourceHeap,
   .CreateShaderBindingTable]

/-- Steps run one after the other; the first that throws ends the run. -/
def runSteps (q : DeviceQueries) : List InitStep → App → Except Error App
  | [], s => .ok s
  | step :: rest, s =>
    match step.run q s with
    | .error e => .error e
    | .ok s1 => runSteps q rest s1

/-- The steps that were entered, the one that threw included. -/
def stepsStarted (q : DeviceQueries) : List InitStep → App → List InitStep
  | [], _ => []
  | step :: rest, s =>
    match step.run q s with
    | .error _ => [step]
    | .ok s1 => step :: stepsStarted q rest s1

/-- The function `OnInit`. -/
def OnInit (q : DeviceQueries) (s : App) : Except Error App :=
  runSteps q OnInitSteps s

/-- The function `OnRender`: record the frame, execute the command list, present, and
wait for the GPU. -/
def OnRender (q : DeviceQueries) (s : App) : Except Error App :=
  match PopulateCommandList q s with
  | .error e => .error e
  | .ok s1 =>
    let s2 : App := { s1 with
      m_commandQueue := s1.m_commandQueue ++ [QueueOp.ExecuteCommandLists s1.m_commandList] }
    match ThrowIfFailed q GpuCall.SwapChainPresent with
    | .error e => .error e
    | .ok _ =>
      WaitForPreviousFrame q { s2 with
        m_commandQueue := s2.m_commandQueue ++ [QueueOp.Present]
        m_swapChainPresents := s2.m_swapChainPresents + 1 }

/-- What the window procedure calls after `OnInit`. -/
inductive Action
  | OnUpdate
  | OnKeyUp (key : Nat)
  | OnRender
  deriving DecidableEq, Repr

/-- What one call does. -/
def Action.run (q : DeviceQueries) : Action → App → Except Error App
  | .OnUpdate, s => D3D12HelloTriangle.OnUpdate q s
  | .OnKeyUp key, s => .ok (D3D12HelloTriangle.OnKeyUp s key)
  | .OnRender, s => D3D12HelloTriangle.OnRender q s

/-- Calls made one after the other; the first that throws ends the run. -/
def runActions (q : DeviceQueries) : List Action → App → Except Error App
  | [], s => .ok s
  | a :: rest, s =>
    match a.run q s with
    | .error e => .error e
    | .ok s1 => runActions q rest s1

/-! ## Observations used by the properties -/

/-- The slots `CreateRayGenSignature` declares. -/
def rayGenSlots : List RootParameter :=
  [.heapRanges [⟨0, 1, 0, .UAV, 0⟩, ⟨0, 1, 0, .SRV, 1⟩, ⟨0, 1, 0, .CBV, 2⟩]]

/-- The slots `CreateHitSignature` declares. -/
def hitSlots : List RootParameter :=
  [.rootParameter .SRV 0, .rootParameter .SRV 1, .heapRanges [⟨2, 1, 0, .SRV, 1⟩]]

/-- Whether a root argument is of the kind a slot takes: a descriptor-table handle
for a heap-ranges slot, a resource address for a root descriptor. -/
def RootArgument.fits : RootArgument → RootParameter → Bool
  | .descriptorTableHandle _, .heapRanges _ => true
  | .resourcePointer _, .rootParameter _ _ => true
  | _, _ => false

/-- Whether a record's root arguments are one value per slot of a layout, in slot
order and of the slot's kind. -/
def matchesLayout (args : List RootArgument) (layout : List RootParameter) : Bool :=
  args.length == layout.length && (List.zipWith RootArgument.fits args layout).all id

/-- The range type a root signature declares at heap offset `k` of its descriptor
tables. -/
def heapRangeKindAt (slots : List RootParameter) (k : Nat) : Option D3D12_DESCRIPTOR_RANGE_TYPE :=
  ((slots.flatMap (fun p => match p with
      | .heapRanges ranges => ranges
      | .rootParameter _ _ => [])).find?
    (fun r => r.offsetInDescriptorsFromTableStart == k)).map DescriptorRange.rangeType

/-- A sequence of `CreateTopLevelAS` calls, one per flag (`updateOnly`). -/
def runBuilds (q : DeviceQueries) (s : App) (flags : List Bool) : App :=
  flags.foldl (fun t updateOnly => CreateTopLevelAS q t updateOnly) s

/-- The geometry the loop of `CreateBottomLevelAS` adds for the vertex buffer `vb`
at index `i`. -/
def geometryAt (vIndexBuffers : List (Resource × Nat)) (i : Nat) (vb : Resource × Nat) : Geometry :=
  if i < vIndexBuffers.length && decide ((vIndexBuffers.getD i (0, 0)).2 > 0) then
    .indexed vb.1 0 vb.2 sizeofVertex (vIndexBuffers.getD i (0, 0)).1 0
      (vIndexBuffers.getD i (0, 0)).2 0 0 true
  else .nonIndexed vb.1 0 vb.2 sizeofVertex 0 0

/-- Whether a geometry was added with the indexed overload of `AddVertexBuffer`. -/
def Geometry.isIndexed : Geometry → Bool
  | .indexed .. => true
  | .nonIndexed .. => false

/-- All records of the table, in section order. -/
def ShaderBindingTableGenerator.records (g : ShaderBindingTableGenerator) : List SBTEntry :=
  g.m_rayGen ++ g.m_miss ++ g.m_hitGroup

/-- The programs that can own a record of the shader binding table. -/
def sbtPrograms : List String :=
  ["RayGen", "Miss", "ShadowMiss", "HitGroup", "CubeHitGroup", "PlaneHitGroup", "ShadowHitGroup"]

/-- In how many root-signature associations of the pipeline a program is named
(counted with multiplicity). -/
def RayTracingPipelineGenerator.associationCount (g : RayTracingPipelineGenerator)
    (program : String) : Nat :=
  (g.m_rootSignatureAssociations.map (fun a => a.symbols.count program)).sum

/-- The spec's words "the section's largest record": `m` is the size of a record of
the section and no record of the section is larger. -/
def IsLargestRecordSize (q : DeviceQueries) (entries : List SBTEntry) (m : Nat) : Prop :=
  (∃ e ∈ entries, e.recordSize q = m) ∧ ∀ e ∈ entries, e.recordSize q ≤ m

instance (q : DeviceQueries) (entries : List SBTEntry) (m : Nat) :
    Decidable (IsLargestRecordSize q entries m) := by
  unfold IsLargestRecordSize
  infer_instance

/-- The spec's words "rounded up to the alignment": `r` is a multiple of `a`, at
least `v`, and no smaller multiple of `a` is at least `v`. -/
def IsRoundedUp (v a r : Nat) : Prop :=
  r % a = 0 ∧ v ≤ r ∧ ∀ r2 < r, r2 % a = 0 → r2 < v

instance (v a r : Nat) : Decidable (IsRoundedUp v a r) := by
  unfold IsRoundedUp
  infer_instance

/-- The result buffer of a full (not update-only) top-level build command. -/
def Cmd.fullBuildResult : Cmd → Option Resource
  | .buildTLAS _ result _ _ false _ => some result
  | _ => none

/-- The result buffers of the full top-level builds the queue was given, oldest
first. -/
def fullBuildResults (queue : List QueueOp) : List Resource :=
  queue.flatMap (fun op =>
    match op with
    | .ExecuteCommandLists cmds => cmds.filterMap Cmd.fullBuildResult
    | _ => [])

/-- Whether a command is a `DispatchRays`. -/
def Cmd.isDispatch : Cmd → Bool
  | .DispatchRays _ => true
  | _ => false

/-- Whether a command is a refit of the top-level structure (an update-only build). -/
def Cmd.isRefit : Cmd → Bool
  | .buildTLAS _ _ _ _ true _ => true
  | _ => false

/-- The descriptor of a `DispatchRays` command. -/
def Cmd.dispatched : Cmd → Option D3D12_DISPATCH_RAYS_DESC
  | .DispatchRays desc => some desc
  | _ => none

/-- Whether a library added to the pipeline exports the symbol. -/
def RayTracingPipelineGenerator.exports (g : RayTracingPipelineGenerator) (symbol : String) :
    Bool :=
  g.m_libraries.any (fun l => l.exportedSymbols.contains symbol)

/-- Whether a hit group of that name was added to the pipeline. -/
def RayTracingPipelineGenerator.declaresHitGroup (g : RayTracingPipelineGenerator)
    (name : String) : Bool :=
  g.m_hitGroups.any (fun h => h.hitGroupName == name)

/-- All symbols the libraries of the pipeline export, library by library. -/
def RayTracingPipelineGenerator.exportedSymbols (g : RayTracingPipelineGenerator) :
    List String :=
  g.m_libraries.flatMap Library.exportedSymbols

/-- The fence values signalled on the queue, oldest first. -/
def signalledValues (queue : List QueueOp) : List Nat :=
  queue.filterMap (fun op =>
    match op with
    | .Signal value => some value
    | _ => none)

/-- The state a resource is created in. -/
def Device.creationState (d : Device) (r : Resource) : Option ResourceState :=
  match d.descOf r with
  | some (.buffer b) => some b.initialState
  | some (.texture2D _ _ _ initialState _) => some initialState
  | _ => none

/-- One command executed on the resource states: a transition barrier is valid only if
its before-state is the state the resource is in, and leaves the resource in its
after-state; no other command changes a state. -/
def Cmd.applyBarrier (states : Resource → Option ResourceState) :
    Cmd → Option (Resource → Option ResourceState)
  | .transition r before after =>
    if states r = some before then some (fun x => if x = r then some after else states x)
    else none
  | _ => some states

/-- A command list executed on the resource states; `none` if a barrier is invalid. -/
def runBarriers : List Cmd → (Resource → Option ResourceState) →
    Option (Resource → Option ResourceState)
  | [], states => some states
  | c :: rest, states =>
    match c.applyBarrier states with
    | none => none
    | some states1 => runBarriers rest states1

/-- Everything submitted to the queue executed in order on the resource states. -/
def runQueue : List QueueOp → (Resource → Option ResourceState) →
    Option (Resource → Option ResourceState)
  | [], states => some states
  | .ExecuteCommandLists cmds :: rest, states =>
    match runBarriers cmds states with
    | none => none
    | some states1 => runQueue rest states1
  | _ :: rest, states => runQueue rest states

/-! ## Concrete devices and application states -/

/-- A device with fixed answers, for evaluating the program on concrete inputs. -/
def exampleQueries : DeviceQueries where
  blasSizes := fun geometries _ => (256 * geometries.length, 1024 * geometries.length)
  tlasSizes := fun n _ => (512 * n, 2048 * n, 64 * n)
  gpuVA := fun r => 65536 * r
  descriptorIncrement := 32
  cpuHandleForHeapStart := fun h => 4096 * (h % 1048576)
  gpuHandleForHeapStart := fun h => 1048576 * h
  shaderIdentifierSize := 32
  recordAlignment := 32
  tableAlignment := 64
  raytracingTier := 10
  succeeded := fun _ => true
  currentBackBufferIndex := fun presents => presents % 2
  fenceCompleted := fun _ => false

/-- The application object as constructed: nothing allocated, nothing recorded,
rasterization mode (`m_raster = true`), an empty top-level generator. -/
def freshApp : App where
  m_width := 1280
  m_height := 720
  m_useWarpDevice := false
  m_swapChainPresents := 0
  m_rtvHeap := 0
  m_dsvHeap := 0
  m_depthStencil := 0
  m_rootSignature := 0
  m_perInstanceConstantBuffers := []
  m_device := ⟨[], [], [], [], []⟩
  m_commandList := []
  m_commandQueue := []
  m_renderTargets := []
  m_frameIndex := 0
  m_fenceValue := 0
  m_raster := true
  m_CubeBuffer := 0
  m_planeBuffer := 0
  m_bottomLevelAS := 0
  m_topLevelASGenerator := ⟨[]⟩
  m_topLevelASBuffers := ⟨0, 0, 0⟩
  m_instances := []
  m_rayGenSignature := 0
  m_hitSignature := 0
  m_missSignature := 0
  m_shadowSignature := 0
  m_rtStateObject := none
  m_outputResource := 0
  m_srvUavHeap := 0
  m_cameraBuffer := 0
  m_constHeap := 0
  m_cameraBufferSize := 0
  m_sbtHelper := ⟨[], [], [], 0, 0, 0⟩
  m_sbtStorage := 0
  m_time := 0

/-- An application holding two instances. -/
def twoInstanceApp : App :=
  { freshApp with m_instances := [(5, XMMATRIX.translation000), (7, XMMATRIX.other 1)] }

/-- An application holding one instance. -/
def oneInstanceApp : App :=
  { freshApp with m_instances := [(5, XMMATRIX.translation000)] }

/-- An application holding `2^31 + 1` instances. -/
def bigApp : App :=
  { freshApp with m_instances := List.replicate 2147483649 (1, XMMATRIX.translation000) }

/-- An application holding `2^32 + 1` instances. -/
def hugeApp : App :=
  { freshApp with m_instances := List.replicate 4294967297 (1, XMMATRIX.translation000) }

/-- The application after `LoadPipeline` and `LoadAssets`, as far as the ray-tracing
code sees it: two back buffers, the plane and the cube vertex buffer, the fence
value 2. -/
def loadedApp : App :=
  { freshApp with
    m_device :=
      ⟨[.texture2D 1280 720 .NONE .PRESENT .kDefaultHeapProps,
        .texture2D 1280 720 .NONE .PRESENT .kDefaultHeapProps,
        .buffer ⟨168, .NONE, .GENERIC_READ, .kUploadHeapProps⟩,
        .buffer ⟨1008, .NONE, .GENERIC_READ, .kUploadHeapProps⟩], [], [], [], []⟩
    m_renderTargets := [1, 2]
    m_planeBuffer := 3
    m_CubeBuffer := 4
    m_fenceValue := 2 }

/-- The state a call returned, or `dflt` if it threw. -/
def orElse (r : Except Error App) (dflt : App) : App :=
  match r with
  | .ok a => a
  | .error _ => dflt

/-- The example after `CreateAccelerationStructures`. -/
def exampleScene : App :=
  orElse (CreateAccelerationStructures exampleQueries loadedApp) loadedApp

/-- The example after `CreateRaytracingPipeline`. -/
def examplePipeline : App :=
  orElse (CreateRaytracingPipeline exampleQueries exampleScene) exampleScene

/-- The example after `CreateRaytracingOutputBuffer`. -/
def exampleOutput : App :=
  orElse (CreateRaytracingOutputBuffer exampleQueries examplePipeline) examplePipeline

/-- The example after the output image, the camera buffer and the descriptor heap
are created. -/
def exampleHeap : App :=
  CreateShaderResourceHeap exampleQueries (CreateCameraBuffer exampleQueries exampleOutput)

/-- The example after `CreateShaderBindingTable`. -/
def exampleInit : App :=
  orElse (CreateShaderBindingTable exampleQueries exampleHeap) exampleHeap

/-- The example inside `CreateAccelerationStructures`, just before the full
top-level build: both bottom-level builds recorded, `m_instances` assigned. -/
def exampleBeforeTLAS : App :=
  let cube := CreateBottomLevelAS exampleQueries loadedApp [(loadedApp.m_CubeBuffer, 6 * 6)] []
  let plane := CreateBottomLevelAS exampleQueries cube.1 [(loadedApp.m_planeBuffer, 6)] []
  { plane.1 with
    m_instances := [(cube.2.pResult, XMMATRIX.translation000),
                    (plane.2.pResult, XMMATRIX.translation000)] }

/-- The example once the space key switched it to ray tracing. -/
def exampleFrame : App := OnKeyUp exampleInit VK_SPACE

/-- The example after `OnUpdate`. -/
def exampleUpdated : App := orElse (OnUpdate exampleQueries exampleFrame) exampleFrame

/-- The example after the frame's `PopulateCommandList`. -/
def exampleRefit : App :=
  orElse (PopulateCommandList exampleQueries exampleUpdated) exampleUpdated

/-- A table with one record per section, none with a root argument, its strides
computed. -/
def minimalTable : ShaderBindingTableGenerator :=
  (ShaderBindingTableGenerator.ComputeSBTSize exampleQueries
    ⟨[⟨"RayGen", []⟩], [⟨"Miss", []⟩], [⟨"HitGroup", []⟩], 0, 0, 0⟩).1

/-- The example in ray-tracing mode, holding `minimalTable` as its table. -/
def minimalTableApp : App := { exampleFrame with m_sbtHelper := minimalTable }

/-- The example device, reporting no ray-tracing tier. -/
def unsupportedQueries : DeviceQueries := { exampleQueries with raytracingTier := 0 }

/-- The example device, on which closing a command list, signalling the queue and
registering the completion event fail. -/
def failingSyncQueries : DeviceQueries :=
  { exampleQueries with
    succeeded := fun call =>
      match call with
      | .CommandListClose => false
      | .QueueSignal => false
      | .FenceSetEventOnCompletion => false
      | _ => true }

/-- The freshly constructed application after `OnInit` on the example device. -/
def exampleOnInit : App := orElse (OnInit exampleQueries freshApp) freshApp

/-- Calls that follow `OnInit`: switch to ray tracing, update, render twice. -/
def exampleActions : List Action := [.OnKeyUp VK_SPACE, .OnUpdate, .OnRender, .OnRender]

/-- The application after `OnInit` and `exampleActions`. -/
def exampleAfterFrames : App :=
  orElse (runActions exampleQueries exampleActions exampleOnInit) exampleOnInit

/-- The application after `OnInit` and one frame. -/
def exampleFirstFrame : App := orElse (OnRender exampleQueries exampleOnInit) exampleOnInit

/-- The command list of the frame that follows `exampleAfterFrames`, recorded. -/
def exampleNextFrame : App :=
  orElse (PopulateCommandList exampleQueries exampleAfterFrames) exampleAfterFrames

/-! ## Helper lemmas -/

theorem toUINT_toSizeT (n : Nat) : toUINT (toSizeT n) = n % 4294967296 := by
  unfold toUINT toSizeT; omega

theorem addInstancesFrom_instances (l : List (Resource × XMMATRIX)) (i : Nat)
    (g : TopLevelASGenerator) :
    (addInstancesFrom l i g).instances =
      g.instances ++ (l.enumFrom i).map
        (fun p => ⟨p.2.1, p.1, toUINT p.1, toUINT (toSizeT (2 * p.1))⟩) := by
  induction l generalizing i g with
  | nil => simp [addInstancesFrom]
  | cons a l ih =>
    simp [addInstancesFrom, ih, TopLevelASGenerator.AddInstance, List.enumFrom]

theorem CreateTopLevelAS_full_generator (q : DeviceQueries) (s : App) :
    (CreateTopLevelAS q s false).m_topLevelASGenerator =
      addInstancesFrom s.m_instances 0 s.m_topLevelASGenerator := rfl

theorem CreateTopLevelAS_refit_generator (q : DeviceQueries) (s : App) :
    (CreateTopLevelAS q s true).m_topLevelASGenerator = s.m_topLevelASGenerator := rfl

/-- Instance `i` held by the generator after a full build that started from an
empty generator. -/
theorem fullBuild_instance (q : DeviceQueries) (s : App)
    (hempty : s.m_topLevelASGenerator.instances = []) (i : Nat) :
    (CreateTopLevelAS q s false).m_topLevelASGenerator.instances.get? i =
      (s.m_instances.get? i).map
        (fun a => ⟨a.1, i, i % 4294967296, (2 * i) % 4294967296⟩) := by
  rw [CreateTopLevelAS_full_generator, addInstancesFrom_instances, hempty]
  simp only [List.nil_append, List.get?_eq_getElem?, List.getElem?_map, List.getElem?_enumFrom,
    Option.map_map]
  congr 1
  funext a
  simp only [Function.comp, Nat.zero_add, toUINT_toSizeT]
  simp only [toUINT]

/-- Indices and offsets after a full build that started from an empty generator:
the `UINT` images of `i` and `2 * i`. -/
theorem fullBuild_ids (q : DeviceQueries) (s : App)
    (hempty : s.m_topLevelASGenerator.instances = []) :
    (CreateTopLevelAS q s false).m_topLevelASGenerator.instances.map
        (fun t => (t.instanceID, t.hitGroupIndex)) =
      (List.range s.m_instances.length).map
        (fun i => (i % 4294967296, (2 * i) % 4294967296)) := by
  apply List.ext_getElem?
  intro i
  have h := fullBuild_instance q s hempty i
  rw [List.get?_eq_getElem?, List.get?_eq_getElem?] at h
  rw [List.getElem?_map, h, List.getElem?_map]
  by_cases hi : i < s.m_instances.length
  · rw [List.getElem?_range hi, List.getElem?_eq_getElem hi]; rfl
  · rw [List.getElem?_eq_none (by simpa using hi), List.getElem?_eq_none (by simpa using hi)]; rfl

/-- The generator after `CreateAccelerationStructures`: the cube's and the plane's
instance are appended, referring to the second and fourth buffer allocated. -/
theorem CreateAccelerationStructures_generator (q : DeviceQueries) (s s1 : App)
    (h : CreateAccelerationStructures q s = .ok s1) :
    s1.m_topLevelASGenerator.instances =
      s.m_topLevelASGenerator.instances ++
        [⟨s.m_device.resources.length + 2, 0, 0, 0⟩,
         ⟨s.m_device.resources.length + 4, 1, 1, 2⟩] := by
  unfold CreateAccelerationStructures at h
  simp only [] at h
  split at h
  · cases h
  · cases h
    simp [CreateTopLevelAS, addInstancesFrom, TopLevelASGenerator.AddInstance, CreateBottomLevelAS,
      CreateBuffer, Device.allocate, toUINT, toSizeT]

/-! ## C1: instance index and hit-group offset -/

/-- C1, as stated, fails: with `2^31 + 1` instances, the instance added at position
`2^31` gets the hit-group offset `static_cast<UINT>(2 * 2^31) = 0`, not `2^32`. -/
theorem C1_offset_wraps_at_2pow31 :
    bigApp.m_topLevelASGenerator.instances = [] ∧
    2147483648 < bigApp.m_instances.length ∧
    ((CreateTopLevelAS exampleQueries bigApp false).m_topLevelASGenerator.instances.get?
        2147483648).map TLASInstance.hitGroupIndex = some 0 ∧
    (0 : Nat) ≠ 2 * 2147483648 := by
  refine ⟨rfl, ?_, ?_, by decide⟩
  · show 2147483648 < (List.replicate 2147483649 (1, XMMATRIX.translation000)).length
    rw [List.length_replicate]; decide
  · rw [fullBuild_instance _ _ rfl]
    show Option.map _ (Option.map _
      ((List.replicate 2147483649 (1, XMMATRIX.translation000)).get? 2147483648)) = _
    rw [List.get?_eq_getElem?, List.getElem?_replicate]
    simp

/-- C1 (amended): for every instance list of length `N ≤ 2^31` passed to
`CreateTopLevelAS` with `updateOnly = false` on a generator holding no instances, the
generator then holds exactly `N` instances, the `i`-th with instance index `i` and
hit-group offset `2 * i`; and the scene built by `CreateAccelerationStructures` has
the indices 0, 1 and the offsets 0, 2. -/
theorem CreateTopLevelAS_index_and_offset (q : DeviceQueries) (s : App)
    (hempty : s.m_topLevelASGenerator.instances = [])
    (hN : s.m_instances.length ≤ 2147483648) :
    (CreateTopLevelAS q s false).m_topLevelASGenerator.instances.map
        (fun t => (t.instanceID, t.hitGroupIndex)) =
      (List.range s.m_instances.length).map (fun i => (i, 2 * i)) ∧
    (∀ s1, CreateAccelerationStructures q s = .ok s1 →
      s1.m_topLevelASGenerator.instances.map (fun t => (t.instanceID, t.hitGroupIndex)) =
        [(0, 0), (1, 2)]) := by
  refine ⟨?_, ?_⟩
  · rw [fullBuild_ids q s hempty]
    apply List.map_congr_left
    intro i hi
    have : i < s.m_instances.length := List.mem_range.mp hi
    simp only [Prod.mk.injEq]
    omega
  · intro s1 h
    rw [CreateAccelerationStructures_generator q s s1 h, hempty]
    rfl

/-- Witness for C1 (amended): two instances get the offsets 0 and 2. -/
theorem CreateTopLevelAS_index_and_offset_witness :
    twoInstanceApp.m_topLevelASGenerator.instances = [] ∧
    twoInstanceApp.m_instances.length ≤ 2147483648 ∧
    (CreateTopLevelAS exampleQueries twoInstanceApp false).m_topLevelASGenerator.instances.map
        (fun t => (t.instanceID, t.hitGroupIndex)) = [(0, 0), (1, 2)] :=
  ⟨rfl, by decide, (CreateTopLevelAS_index_and_offset exampleQueries twoInstanceApp rfl
    (by decide)).1⟩

/-! ## Pipeline and shader-binding-table lemmas -/

/-- If `QueryInterface` succeeds, `CreateRaytracingPipeline` returns: four root
signatures are appended and the pipeline with the declarations is kept. -/
theorem CreateRaytracingPipeline_ok (q : DeviceQueries) (s : App)
    (hq : q.succeeded GpuCall.QueryInterface = true) :
    ∃ s1, CreateRaytracingPipeline q s = .ok s1 ∧
      s1.m_rtStateObject = some (declarePipeline (s.m_device.rootSignatures.length + 1)
        (s.m_device.rootSignatures.length + 2) (s.m_device.rootSignatures.length + 3)
        (s.m_device.rootSignatures.length + 4)) ∧
      s1.m_device.rootSignatures =
        s.m_device.rootSignatures ++ [rayGenSlots, [], hitSlots, hitSlots] := by
  unfold CreateRaytracingPipeline ThrowIfFailed
  simp only [hq, if_true]
  refine ⟨_, rfl, ?_, ?_⟩
  · simp [CreateRayGenSignature, CreateHitSignature, CreateMissSignature,
      RootSignatureGenerator.Generate]
  · simp [CreateRayGenSignature, CreateHitSignature, CreateMissSignature,
      RootSignatureGenerator.Generate, RootSignatureGenerator.AddRootParameter,
      RootSignatureGenerator.AddHeapRangesParameter, rayGenSlots, hitSlots]

/-- Lookup of a root signature appended to the device's list. -/
theorem rootSignature_appended (d : Device) (old : List (List RootParameter))
    (new : List (List RootParameter)) (h : d.rootSignatures = old ++ new) (k : Nat) :
    d.rootSignature (old.length + (k + 1)) = new.get? k := by
  unfold Device.rootSignature
  have hne : ¬ old.length + (k + 1) = 0 := by omega
  rw [if_neg hne, h]
  rw [List.get?_eq_getElem?, List.get?_eq_getElem?, List.getElem?_append_right (by omega)]
  congr 1
  omega

/-- The binding layout of every program after `CreateRaytracingPipeline`. -/
theorem bindingLayoutOf_declared (t : App) (old : List (List RootParameter))
    (hp : t.m_rtStateObject = some (declarePipeline (old.length + 1) (old.length + 2)
      (old.length + 3) (old.length + 4)))
    (hd : t.m_device.rootSignatures = old ++ [rayGenSlots, [], hitSlots, hitSlots]) :
    t.bindingLayoutOf "RayGen" = some rayGenSlots ∧
    t.bindingLayoutOf "Miss" = some [] ∧
    t.bindingLayoutOf "ShadowMiss" = some [] ∧
    t.bindingLayoutOf "CubeHitGroup" = some hitSlots ∧
    t.bindingLayoutOf "PlaneHitGroup" = some hitSlots ∧
    t.bindingLayoutOf "HitGroup" = some hitSlots ∧
    t.bindingLayoutOf "ShadowHitGroup" = some hitSlots := by
  have e1 := rootSignature_appended t.m_device old _ hd 0
  have e2 := rootSignature_appended t.m_device old _ hd 1
  have e3 := rootSignature_appended t.m_device old _ hd 2
  have e4 := rootSignature_appended t.m_device old _ hd 3
  simp only [App.bindingLayoutOf, hp, declarePipeline, RayTracingPipelineGenerator.signaturesOf,
    RayTracingPipelineGenerator.AddLibrary, RayTracingPipelineGenerator.AddHitGroup,
    RayTracingPipelineGenerator.AddRootSignatureAssociation, List.nil_append, List.cons_append]
  refine ⟨?_, ?_, ?_, ?_, ?_, ?_, ?_⟩
  · exact e1
  · exact e2
  · exact e2
  · exact e3
  · exact e3
  · exact e3
  · exact e4

/-- The function `CreateShaderBindingTable` always returns, and leaves the six
declared records in the helper. -/
theorem CreateShaderBindingTable_ok (q : DeviceQueries) (s : App) :
    ∃ s2, CreateShaderBindingTable q s = .ok s2 ∧
      s2.m_sbtHelper.m_rayGen =
        [⟨"RayGen", [RootArgument.descriptorTableHandle (q.gpuHandleForHeapStart s.m_srvUavHeap)]⟩] ∧
      s2.m_sbtHelper.m_miss = [⟨"Miss", []⟩, ⟨"ShadowMiss", []⟩] ∧
      s2.m_sbtHelper.m_hitGroup =
        [⟨"CubeHitGroup", []⟩, ⟨"ShadowHitGroup", []⟩,
         ⟨"PlaneHitGroup", [RootArgument.descriptorTableHandle (q.gpuHandleForHeapStart s.m_srvUavHeap)]⟩] ∧
      s2.m_device.rootSignatures = s.m_device.rootSignatures ∧
      s2.m_rtStateObject = s.m_rtStateObject := by
  unfold CreateShaderBindingTable
  simp only []
  rw [if_neg (by simp [CreateBuffer, Device.allocate])]
  exact ⟨_, rfl, rfl, rfl, rfl, rfl, rfl⟩

/-- What `CreateAccelerationStructures` leaves behind when it returns. -/
theorem CreateAccelerationStructures_scene (q : DeviceQueries) (s s1 : App)
    (h : CreateAccelerationStructures q s = .ok s1) :
    s1.m_instances = [(s.m_device.resources.length + 2, XMMATRIX.translation000),
                      (s.m_device.resources.length + 4, XMMATRIX.translation000)] ∧
    s1.m_bottomLevelAS = s.m_device.resources.length + 2 ∧
    s1.m_commandQueue = s.m_commandQueue ++
      [QueueOp.ExecuteCommandLists (s.m_commandList ++
        [Cmd.buildBLAS [.nonIndexed s.m_CubeBuffer 0 36 sizeofVertex 0 0]
           (s.m_device.resources.length + 1) (s.m_device.resources.length + 2) false 0,
         Cmd.uavBarrier (s.m_device.resources.length + 2),
         Cmd.buildBLAS [.nonIndexed s.m_planeBuffer 0 6 sizeofVertex 0 0]
           (s.m_device.resources.length + 3) (s.m_device.resources.length + 4) false 0,
         Cmd.uavBarrier (s.m_device.resources.length + 4),
         Cmd.buildTLAS (s.m_device.resources.length + 5) (s.m_device.resources.length + 6)
           (s.m_device.resources.length + 7) (s.m_topLevelASGenerator.instances.length + 2) false
           (s.m_device.resources.length + 6),
         Cmd.uavBarrier (s.m_device.resources.length + 6)]),
       QueueOp.Signal (toSizeT (s.m_fenceValue + 1)),
       QueueOp.SetEventOnCompletion (toSizeT (s.m_fenceValue + 1)),
       QueueOp.WaitForSingleObject] ∧
    s1.m_commandList = [] := by
  unfold CreateAccelerationStructures at h
  simp only [] at h
  split at h
  · cases h
  · cases h
    simp [CreateTopLevelAS, addInstancesFrom, TopLevelASGenerator.AddInstance, CreateBottomLevelAS,
      CreateBuffer, Device.allocate, addVertexBuffersFrom, BottomLevelASGenerator.AddVertexBuffer,
      BottomLevelASGenerator.Generate, TopLevelASGenerator.Generate,
      BottomLevelASGenerator.ComputeASBufferSizes, TopLevelASGenerator.ComputeASBufferSizes]

/-! ## C2: the primary hit group of every instance sits at the instance's offset -/

/-- C2: in the scene built by `CreateAccelerationStructures`, instance 0 refers to
the bottom-level structure built from the cube buffer and instance 1 to the one
built from the plane buffer, with hit-group offsets `2 * 0` and `2 * 1`; in the
hit-group section declared by `CreateShaderBindingTable`, counted in call order,
the record at position `2 * 0` is `CubeHitGroup` and the record at position `2 * 1`
is `PlaneHitGroup`, so the record at every instance's offset is that instance's
primary hit group. -/
theorem scene_primary_hit_groups_at_offsets (q : DeviceQueries) (s s1 t s2 : App)
    (hempty : s.m_topLevelASGenerator.instances = [])
    (h1 : CreateAccelerationStructures q s = .ok s1)
    (h2 : CreateShaderBindingTable q t = .ok s2) :
    s1.m_topLevelASGenerator.instances.map
        (fun inst => (inst.instanceID, inst.bottomLevelAS, inst.hitGroupIndex)) =
      [(0, s1.m_bottomLevelAS, 2 * 0), (1, s.m_device.resources.length + 4, 2 * 1)] ∧
    (∃ executed scratch0 scratch1,
      QueueOp.ExecuteCommandLists executed ∈ s1.m_commandQueue ∧
      Cmd.buildBLAS [.nonIndexed s.m_CubeBuffer 0 36 sizeofVertex 0 0] scratch0
        s1.m_bottomLevelAS false 0 ∈ executed ∧
      Cmd.buildBLAS [.nonIndexed s.m_planeBuffer 0 6 sizeofVertex 0 0] scratch1
        (s.m_device.resources.length + 4) false 0 ∈ executed) ∧
    (s2.m_sbtHelper.m_hitGroup.get? (2 * 0)).map SBTEntry.m_entryPoint = some "CubeHitGroup" ∧
    (s2.m_sbtHelper.m_hitGroup.get? (2 * 1)).map SBTEntry.m_entryPoint = some "PlaneHitGroup" ∧
    s1.m_topLevelASGenerator.instances.map
        (fun inst => (s2.m_sbtHelper.m_hitGroup.get? inst.hitGroupIndex).map SBTEntry.m_entryPoint) =
      [some "CubeHitGroup", some "PlaneHitGroup"] := by
  obtain ⟨s2', h2', -, -, hh, -, -⟩ := CreateShaderBindingTable_ok q t
  rw [h2] at h2'
  cases h2'
  obtain ⟨-, hb, hq, -⟩ := CreateAccelerationStructures_scene q s s1 h1
  have hg := CreateAccelerationStructures_generator q s s1 h1
  rw [hempty] at hg
  refine ⟨?_, ?_, ?_, ?_, ?_⟩
  · rw [hg, hb]; rfl
  · rw [hq, hb]
    exact ⟨_, s.m_device.resources.length + 1, s.m_device.resources.length + 3,
      List.mem_append_right _ (List.mem_cons_self _ _),
      List.mem_append_right _ (List.mem_cons_self _ _),
      List.mem_append_right _ (List.mem_cons_of_mem _ (List.mem_cons_of_mem _
        (List.mem_cons_self _ _)))⟩
  · rw [hh]; rfl
  · rw [hh]; rfl
  · rw [hg, hh]; rfl

/-- Witness for C2: the example scene and its shader binding table. -/
theorem scene_primary_hit_groups_at_offsets_witness :
    loadedApp.m_topLevelASGenerator.instances = [] ∧
    CreateAccelerationStructures exampleQueries loadedApp = .ok exampleScene ∧
    CreateShaderBindingTable exampleQueries exampleHeap = .ok exampleInit ∧
    exampleScene.m_topLevelASGenerator.instances.map
        (fun inst =>
          (exampleInit.m_sbtHelper.m_hitGroup.get? inst.hitGroupIndex).map SBTEntry.m_entryPoint) =
      [some "CubeHitGroup", some "PlaneHitGroup"] :=
  ⟨rfl, rfl, rfl, (scene_primary_hit_groups_at_offsets exampleQueries loadedApp exampleScene
    exampleHeap exampleInit rfl rfl rfl).2.2.2.2⟩

/-! ## C3: two hit-group slots per instance -/

/-- C3 fails on the code: the scene has 2 instances, so 2 * 2 slots are reserved,
but `CreateShaderBindingTable` declares 3 hit-group records (`CubeHitGroup`,
`ShadowHitGroup`, `PlaneHitGroup`); the shadow slot `2 * 1 + 1` of the plane holds
no record. -/
theorem plane_shadow_slot_has_no_record (q : DeviceQueries) (s t : App) :
    (match CreateAccelerationStructures q s with
     | .ok s1 => s1.m_instances.length = 2
     | .error _ => q.succeeded GpuCall.CommandListReset = false) ∧
    (match CreateShaderBindingTable q t with
     | .ok s2 =>
       s2.m_sbtHelper.m_hitGroup.map SBTEntry.m_entryPoint =
         ["CubeHitGroup", "ShadowHitGroup", "PlaneHitGroup"] ∧
       s2.m_sbtHelper.m_hitGroup.length < 2 * 2 ∧
       s2.m_sbtHelper.m_hitGroup.get? (2 * 1 + 1) = none
     | .error _ => False) := by
  constructor
  · cases h : CreateAccelerationStructures q s with
    | ok s1 =>
      simp only []
      rw [(CreateAccelerationStructures_scene q s s1 h).1]; rfl
    | error e =>
      simp only []
      unfold CreateAccelerationStructures ThrowIfFailed at h
      simp only [] at h
      by_cases hq : q.succeeded GpuCall.CommandListReset = true
      · simp [hq] at h
      · simpa using hq
  · obtain ⟨s2, h2, -, -, hh, -, -⟩ := CreateShaderBindingTable_ok q t
    rw [h2]
    simp only []
    rw [hh]
    exact ⟨rfl, by simp, rfl⟩

/-! ## C4: root arguments against the binding layout -/

/-- C4 fails on the code: after `CreateRaytracingPipeline` and
`CreateShaderBindingTable`, the records of `RayGen` (1 slot, 1 argument), `Miss` and
`ShadowMiss` (no slot, no argument) match their layout, but the three hit-group
records do not: their layout has 3 slots, and `CubeHitGroup` and `ShadowHitGroup`
carry no argument, `PlaneHitGroup` carries one. Each entry of the list is
(program, (slots of its layout, whether the arguments match), arguments). -/
theorem hit_group_records_do_not_match_layout (q : DeviceQueries) (s : App) :
    match CreateRaytracingPipeline q s with
    | .error _ => q.succeeded GpuCall.QueryInterface = false
    | .ok s1 =>
      match CreateShaderBindingTable q s1 with
      | .error _ => False
      | .ok s2 =>
        s2.m_sbtHelper.records.map (fun e => (e.m_entryPoint,
          (s2.bindingLayoutOf e.m_entryPoint).map (fun l => (l.length, matchesLayout e.m_inputData l)),
          e.m_inputData.length)) =
        [("RayGen", some (1, true), 1), ("Miss", some (0, true), 0), ("ShadowMiss", some (0, true), 0),
         ("CubeHitGroup", some (3, false), 0), ("ShadowHitGroup", some (3, false), 0),
         ("PlaneHitGroup", some (3, false), 1)] := by
  by_cases hq : q.succeeded GpuCall.QueryInterface = true
  · obtain ⟨s1, h1, hp, hd⟩ := CreateRaytracingPipeline_ok q s hq
    obtain ⟨s2, h2, hr, hm, hh, hd2, hp2⟩ := CreateShaderBindingTable_ok q s1
    rw [h1]
    simp only []
    rw [h2]
    simp only []
    obtain ⟨b1, b2, b3, b4, b5, -, b7⟩ :=
      bindingLayoutOf_declared s2 s.m_device.rootSignatures (hp2.trans hp) (hd2.trans hd)
    simp only [ShaderBindingTableGenerator.records, hr, hm, hh, List.map, List.cons_append,
      List.nil_append, b1, b2, b3, b4, b5, b7, Option.map]
    rfl
  · have hq2 : q.succeeded GpuCall.QueryInterface = false := by simpa using hq
    unfold CreateRaytracingPipeline ThrowIfFailed
    simp only [hq2]
    simp

/-! ## Device lemmas -/

/-- Lookup of a resource appended to the device's list. -/
theorem descOf_appended (d : Device) (old new : List ResourceDesc)
    (h : d.resources = old ++ new) (k : Nat) :
    d.descOf (old.length + (k + 1)) = new.get? k := by
  unfold Device.descOf
  have hne : ¬ old.length + (k + 1) = 0 := by omega
  rw [if_neg hne, h]
  rw [List.get?_eq_getElem?, List.get?_eq_getElem?, List.getElem?_append_right (by omega)]
  congr 1
  omega

/-- The root signature `CreateRayGenSignature` creates. -/
theorem CreateRayGenSignature_slots (d : Device) :
    (CreateRayGenSignature d).1.rootSignature (CreateRayGenSignature d).2 = some rayGenSlots :=
  rootSignature_appended (CreateRayGenSignature d).1 d.rootSignatures [rayGenSlots] rfl 0

/-- Lookup of the three newest descriptor writes, at pairwise distinct handles. -/
theorem descriptorAt_three (d : Device) (k0 k1 k2 : Nat) (v0 v1 v2 : Descriptor)
    (rest : List (Nat × Descriptor))
    (h : d.descriptorWrites = (k2, v2) :: (k1, v1) :: (k0, v0) :: rest)
    (h01 : k0 ≠ k1) (h02 : k0 ≠ k2) (h12 : k1 ≠ k2) :
    d.descriptorAt k0 = some v0 ∧ d.descriptorAt k1 = some v1 ∧ d.descriptorAt k2 = some v2 := by
  unfold Device.descriptorAt
  rw [h]
  have a1 : (k2 == k0) = false := by simpa using Ne.symm h02
  have a2 : (k1 == k0) = false := by simpa using Ne.symm h01
  have a3 : (k2 == k1) = false := by simpa using Ne.symm h12
  simp [List.find?, a1, a2, a3]

/-- The heap and the three writes of `CreateShaderResourceHeap`. -/
theorem CreateShaderResourceHeap_writes (q : DeviceQueries) (s : App) :
    (CreateShaderResourceHeap q s).m_srvUavHeap = s.m_device.resources.length + 1 ∧
    (CreateShaderResourceHeap q s).m_device.resources =
      s.m_device.resources ++ [.descriptorHeap 3 true] ∧
    (CreateShaderResourceHeap q s).m_device.descriptorWrites =
      (toSizeT (toSizeT (q.cpuHandleForHeapStart (s.m_device.resources.length + 1) +
          q.descriptorIncrement) + q.descriptorIncrement),
        Descriptor.constantBufferView (q.gpuVA s.m_cameraBuffer) s.m_cameraBufferSize) ::
      (toSizeT (q.cpuHandleForHeapStart (s.m_device.resources.length + 1) + q.descriptorIncrement),
        Descriptor.accelerationStructureView (q.gpuVA s.m_topLevelASBuffers.pResult)) ::
      (q.cpuHandleForHeapStart (s.m_device.resources.length + 1),
        Descriptor.unorderedAccessView s.m_outputResource) :: s.m_device.descriptorWrites :=
  ⟨rfl, rfl, rfl⟩

/-- The handles the code reaches by advancing twice are the handles of the slots
0, 1, 2, and they are pairwise distinct. -/
theorem slotHandle_values (start inc : Nat) (hinc : 0 < inc) (hinc32 : inc < 4294967296)
    (hstart : start < 18446744073709551616) :
    toSizeT (start + 0 * inc) = start ∧
    toSizeT (start + 1 * inc) = toSizeT (start + inc) ∧
    toSizeT (start + 2 * inc) = toSizeT (toSizeT (start + inc) + inc) ∧
    start ≠ toSizeT (start + inc) ∧
    start ≠ toSizeT (toSizeT (start + inc) + inc) ∧
    toSizeT (start + inc) ≠ toSizeT (toSizeT (start + inc) + inc) := by
  unfold toSizeT
  refine ⟨?_, ?_, ?_, ?_, ?_, ?_⟩ <;> omega

/-- The CPU handles of the example device are `SIZE_T` values. -/
theorem exampleQueries_cpuHandle_bound (h : Resource) :
    exampleQueries.cpuHandleForHeapStart h < 18446744073709551616 := by
  have hb : (h : Nat) % 1048576 < 1048576 := Nat.mod_lt _ (by decide)
  have e : exampleQueries.cpuHandleForHeapStart h = 4096 * ((h : Nat) % 1048576) := rfl
  rw [e]
  omega

/-! ## C5: the descriptor heap of the ray-generation program -/

/-- C5: `CreateShaderResourceHeap` allocates a descriptor heap of capacity 3 and
writes slot 0 = view of the output image (UAV), slot 1 = reference to the top-level
result buffer, slot 2 = view of the camera constant buffer; for every `k` in
0, 1, 2 the kind of the descriptor in slot `k` is the kind of the range that
`CreateRayGenSignature` declares at heap offset `k` (UAV, SRV, CBV). The device's
handle increment is a nonzero `UINT` and its CPU handles are `SIZE_T` values. -/
theorem CreateShaderResourceHeap_slots (q : DeviceQueries) (s : App) (d : Device)
    (hinc : 0 < q.descriptorIncrement) (hinc32 : q.descriptorIncrement < 4294967296)
    (hstart : ∀ h, q.cpuHandleForHeapStart h < 18446744073709551616) :
    (CreateShaderResourceHeap q s).m_device.descOf (CreateShaderResourceHeap q s).m_srvUavHeap =
      some (.descriptorHeap 3 true) ∧
    (CreateShaderResourceHeap q s).srvUavSlot q 0 =
      some (.unorderedAccessView s.m_outputResource) ∧
    (CreateShaderResourceHeap q s).srvUavSlot q 1 =
      some (.accelerationStructureView (q.gpuVA s.m_topLevelASBuffers.pResult)) ∧
    (CreateShaderResourceHeap q s).srvUavSlot q 2 =
      some (.constantBufferView (q.gpuVA s.m_cameraBuffer) s.m_cameraBufferSize) ∧
    (CreateRayGenSignature d).1.rootSignature (CreateRayGenSignature d).2 = some rayGenSlots ∧
    (List.range 3).map (fun k =>
        ((CreateShaderResourceHeap q s).srvUavSlot q k).map Descriptor.kind) =
      (List.range 3).map (fun k => heapRangeKindAt rayGenSlots k) ∧
    (List.range 3).map (fun k => heapRangeKindAt rayGenSlots k) =
      [some .UAV, some .SRV, some .CBV] := by
  obtain ⟨hh, hr, hw⟩ := CreateShaderResourceHeap_writes q s
  obtain ⟨v0, v1, v2, n01, n02, n12⟩ :=
    slotHandle_values (q.cpuHandleForHeapStart (s.m_device.resources.length + 1))
      q.descriptorIncrement hinc hinc32 (hstart _)
  obtain ⟨e0, e1, e2⟩ := descriptorAt_three _ _ _ _ _ _ _ _ hw n01 n02 n12
  have s0 : (CreateShaderResourceHeap q s).srvUavSlot q 0 =
      some (.unorderedAccessView s.m_outputResource) := by
    unfold App.srvUavSlot slotHandle; rw [hh, v0]; exact e0
  have s1 : (CreateShaderResourceHeap q s).srvUavSlot q 1 =
      some (.accelerationStructureView (q.gpuVA s.m_topLevelASBuffers.pResult)) := by
    unfold App.srvUavSlot slotHandle; rw [hh, v1]; exact e1
  have s2 : (CreateShaderResourceHeap q s).srvUavSlot q 2 =
      some (.constantBufferView (q.gpuVA s.m_cameraBuffer) s.m_cameraBufferSize) := by
    unfold App.srvUavSlot slotHandle; rw [hh, v2]; exact e2
  refine ⟨?_, s0, s1, s2, CreateRayGenSignature_slots d, ?_, rfl⟩
  · unfold Device.descOf
    rw [hh, hr]
    simp
  · simp only [List.range, List.range.loop, List.map, s0, s1, s2]
    rfl

/-- Witness for C5: the example device and the loaded application. -/
theorem CreateShaderResourceHeap_slots_witness :
    0 < exampleQueries.descriptorIncrement ∧
    exampleQueries.descriptorIncrement < 4294967296 ∧
    (∀ h, exampleQueries.cpuHandleForHeapStart h < 18446744073709551616) ∧
    (List.range 3).map (fun k =>
        ((CreateShaderResourceHeap exampleQueries loadedApp).srvUavSlot exampleQueries k).map
          Descriptor.kind) =
      (List.range 3).map (fun k => heapRangeKindAt rayGenSlots k) :=
  ⟨by decide, by decide, exampleQueries_cpuHandle_bound,
   (CreateShaderResourceHeap_slots exampleQueries loadedApp loadedApp.m_device (by decide)
      (by decide) exampleQueries_cpuHandle_bound).2.2.2.2.2.1⟩

/-! ## C6: a refit reuses the buffers of the full build -/

/-- What a refit changes: nothing but the recorded commands and the descriptors
written. -/
theorem refit_effect (q : DeviceQueries) (s : App) :
    (CreateTopLevelAS q s true).m_device.resources = s.m_device.resources ∧
    (CreateTopLevelAS q s true).m_topLevelASBuffers = s.m_topLevelASBuffers ∧
    (CreateTopLevelAS q s true).m_instances = s.m_instances ∧
    (CreateTopLevelAS q s true).m_commandList = s.m_commandList ++
      [Cmd.buildTLAS s.m_topLevelASBuffers.pScratch s.m_topLevelASBuffers.pResult
         s.m_topLevelASBuffers.pInstanceDesc s.m_topLevelASGenerator.instances.length true
         s.m_topLevelASBuffers.pResult,
       Cmd.uavBarrier s.m_topLevelASBuffers.pResult] :=
  ⟨rfl, rfl, rfl, rfl⟩

/-- What a full build allocates. -/
theorem fullBuild_effect (q : DeviceQueries) (s : App) :
    (CreateTopLevelAS q s false).m_topLevelASBuffers =
      ⟨s.m_device.resources.length + 1, s.m_device.resources.length + 2,
       s.m_device.resources.length + 3⟩ ∧
    (CreateTopLevelAS q s false).m_device.resources = s.m_device.resources ++
      [.buffer ⟨(q.tlasSizes (addInstancesFrom s.m_instances 0
          s.m_topLevelASGenerator).instances.length true).1,
        .ALLOW_UNORDERED_ACCESS, .UNORDERED_ACCESS, .kDefaultHeapProps⟩,
       .buffer ⟨(q.tlasSizes (addInstancesFrom s.m_instances 0
          s.m_topLevelASGenerator).instances.length true).2.1,
        .ALLOW_UNORDERED_ACCESS, .RAYTRACING_ACCELERATION_STRUCTURE, .kDefaultHeapProps⟩,
       .buffer ⟨(q.tlasSizes (addInstancesFrom s.m_instances 0
          s.m_topLevelASGenerator).instances.length true).2.2,
        .NONE, .GENERIC_READ, .kUploadHeapProps⟩] ∧
    (CreateTopLevelAS q s false).m_instances = s.m_instances := by
  refine ⟨?_, ?_, rfl⟩
  · simp [CreateTopLevelAS, CreateBuffer, Device.allocate]
  · simp [CreateTopLevelAS, CreateBuffer, Device.allocate, TopLevelASGenerator.ComputeASBufferSizes]

/-- Any number of refits keeps the allocations and the three buffers. -/
theorem iterate_refit (q : DeviceQueries) (k : Nat) (s : App) :
    (Nat.iterate (fun t => CreateTopLevelAS q t true) k s).m_device.resources =
      s.m_device.resources ∧
    (Nat.iterate (fun t => CreateTopLevelAS q t true) k s).m_topLevelASBuffers =
      s.m_topLevelASBuffers := by
  induction k generalizing s with
  | zero => exact ⟨rfl, rfl⟩
  | succ k ih =>
    rw [Function.iterate_succ_apply]
    obtain ⟨h1, h2⟩ := ih (CreateTopLevelAS q s true)
    exact ⟨h1, h2⟩

/-- C6: `CreateTopLevelAS` with `updateOnly = true` allocates nothing and leaves the
scratch, result and instance-descriptor buffers (handles and sizes) as they were;
the build it records names the result buffer as destination and as previous
result. After a full build and any number `k` of refits the three buffers are those
of the full build, and the result buffer has the size the full build queried. -/
theorem refit_reuses_buffers (q : DeviceQueries) (s : App) (k : Nat) :
    (CreateTopLevelAS q s true).m_device.resources = s.m_device.resources ∧
    (CreateTopLevelAS q s true).m_topLevelASBuffers = s.m_topLevelASBuffers ∧
    (∀ h, (CreateTopLevelAS q s true).m_device.sizeOf h = s.m_device.sizeOf h) ∧
    (CreateTopLevelAS q s true).m_commandList = s.m_commandList ++
      [Cmd.buildTLAS s.m_topLevelASBuffers.pScratch s.m_topLevelASBuffers.pResult
         s.m_topLevelASBuffers.pInstanceDesc s.m_topLevelASGenerator.instances.length true
         s.m_topLevelASBuffers.pResult,
       Cmd.uavBarrier s.m_topLevelASBuffers.pResult] ∧
    (Nat.iterate (fun t => CreateTopLevelAS q t true) k (CreateTopLevelAS q s false)).m_topLevelASBuffers
      = (CreateTopLevelAS q s false).m_topLevelASBuffers ∧
    (Nat.iterate (fun t => CreateTopLevelAS q t true) k (CreateTopLevelAS q s false)).m_device.sizeOf
        (Nat.iterate (fun t => CreateTopLevelAS q t true) k
          (CreateTopLevelAS q s false)).m_topLevelASBuffers.pResult =
      (CreateTopLevelAS q s false).m_device.sizeOf (CreateTopLevelAS q s false).m_topLevelASBuffers.pResult ∧
    (CreateTopLevelAS q s false).m_device.sizeOf (CreateTopLevelAS q s false).m_topLevelASBuffers.pResult =
      some (q.tlasSizes (CreateTopLevelAS q s false).m_topLevelASGenerator.instances.length true).2.1 := by
  obtain ⟨i1, i2⟩ := iterate_refit q k (CreateTopLevelAS q s false)
  refine ⟨rfl, rfl, fun _ => rfl, rfl, i2, ?_, ?_⟩
  · unfold Device.sizeOf Device.descOf
    rw [i1, i2]
  · obtain ⟨hb, hr, -⟩ := fullBuild_effect q s
    unfold Device.sizeOf
    rw [hb]
    rw [descOf_appended _ _ _ hr 1]
    rfl

/-! ## C7: a refit writes the updated transforms -/

/-- The descriptors written from a generator that one full build filled, the
transforms being read from `mem`. -/
theorem fullBuild_descs (q : DeviceQueries) (s : App)
    (hempty : s.m_topLevelASGenerator.instances = []) (mem : List (Resource × XMMATRIX)) :
    (CreateTopLevelAS q s false).m_topLevelASGenerator.instances.map (TLASInstance.toDesc q mem) =
      (s.m_instances.enumFrom 0).map (fun p =>
        ⟨(mem.get? p.1).map Prod.snd, p.1 % 4294967296, (2 * p.1) % 4294967296, q.gpuVA p.2.1⟩) := by
  rw [CreateTopLevelAS_full_generator, addInstancesFrom_instances, hempty]
  simp only [List.nil_append, List.map_map]
  apply List.map_congr_left
  intro p _
  simp only [Function.comp, TLASInstance.toDesc, toUINT_toSizeT]
  simp only [toUINT]

/-- The transforms of such descriptors are the transforms of `mem`, in order. -/
theorem enumFrom_map_transform (l mem : List (Resource × XMMATRIX)) (hlen : mem.length = l.length)
    (f : Nat × (Resource × XMMATRIX) → Nat × Nat × Nat) :
    ((l.enumFrom 0).map (fun p => (⟨(mem.get? p.1).map Prod.snd, (f p).1, (f p).2.1, (f p).2.2⟩
        : InstanceDesc))).map InstanceDesc.transform = mem.map (fun a => some a.2) := by
  apply List.ext_getElem?
  intro i
  simp only [List.getElem?_map, List.getElem?_enumFrom, Option.map_map, List.get?_eq_getElem?]
  by_cases hi : i < l.length
  · rw [List.getElem?_eq_getElem hi, List.getElem?_eq_getElem (by omega)]
    simp [List.getElem?_eq_getElem (show i < mem.length by omega)]
  · rw [List.getElem?_eq_none (by omega), List.getElem?_eq_none (by omega)]
    rfl

/-- The newest write to a staging buffer is what the buffer holds. -/
theorem instanceDescs_head (d : Device) (r : Resource) (descs : List InstanceDesc)
    (rest : List (Resource × List InstanceDesc)) (h : d.instanceDescWrites = (r, descs) :: rest) :
    d.instanceDescs r = some descs := by
  unfold Device.instanceDescs
  rw [h]
  simp [List.find?]

/-- What `PopulateCommandList` does to the top-level structure in ray-tracing mode:
one refit. -/
theorem PopulateCommandList_raytrace (q : DeviceQueries) (u p : App) (hr : u.m_raster = false)
    (hp : PopulateCommandList q u = .ok p) :
    p.m_topLevelASGenerator = u.m_topLevelASGenerator ∧
    p.m_topLevelASBuffers = u.m_topLevelASBuffers ∧
    p.m_instances = u.m_instances ∧
    p.m_device.resources = u.m_device.resources ∧
    p.m_device.instanceDescWrites =
      (u.m_topLevelASBuffers.pInstanceDesc,
        u.m_topLevelASGenerator.instances.map (TLASInstance.toDesc q u.m_instances)) ::
        u.m_device.instanceDescWrites := by
  unfold PopulateCommandList at hp
  split at hp
  · cases hp
  · split at hp
    · cases hp
    · simp only [hr] at hp
      split at hp
      · cases hp
      · cases hp
        exact ⟨rfl, rfl, rfl, rfl, rfl⟩

/-- What `OnUpdate` changes when it returns. -/
theorem OnUpdate_ok (q : DeviceQueries) (s u : App) (h : OnUpdate q s = .ok u) :
    (∃ inst rest, s.m_instances = inst :: rest ∧
      u.m_instances = (inst.1, XMMATRIX.rotationAt (toUINT (s.m_time + 1))) :: rest) ∧
    u.m_time = toUINT (s.m_time + 1) ∧
    u.m_topLevelASGenerator = s.m_topLevelASGenerator ∧
    u.m_topLevelASBuffers = s.m_topLevelASBuffers ∧
    u.m_raster = s.m_raster ∧
    u.m_device = s.m_device := by
  unfold OnUpdate at h
  simp only [] at h
  split at h
  · cases h
  · rename_i inst rest hi
    split at h
    · cases h
    · cases h
      exact ⟨⟨inst, rest, hi, rfl⟩, rfl, rfl, rfl, rfl, rfl⟩

/-- C7: let `b` be a state whose generator and top-level buffers are those of the
last full build (made from `s0` on an empty generator) and whose instance vector
still has the length it had then, in ray-tracing mode. After `OnUpdate` replaces the
transform of instance 0, the refit issued by `PopulateCommandList` writes, into the
same instance-descriptor buffer, descriptors that carry the current transform of
every instance (the new one for instance 0), while their count, instance indices,
hit-group offsets and bottom-level references are those the full build wrote. -/
theorem refit_writes_updated_transforms (q : DeviceQueries) (s0 b u p : App)
    (hempty : s0.m_topLevelASGenerator.instances = [])
    (hgen : b.m_topLevelASGenerator = (CreateTopLevelAS q s0 false).m_topLevelASGenerator)
    (hbuf : b.m_topLevelASBuffers = (CreateTopLevelAS q s0 false).m_topLevelASBuffers)
    (hlen : b.m_instances.length = s0.m_instances.length)
    (hraster : b.m_raster = false)
    (hu : OnUpdate q b = .ok u)
    (hp : PopulateCommandList q u = .ok p) :
    (∃ inst rest, b.m_instances = inst :: rest ∧
      u.m_instances = (inst.1, XMMATRIX.rotationAt (toUINT (b.m_time + 1))) :: rest) ∧
    p.m_topLevelASBuffers = (CreateTopLevelAS q s0 false).m_topLevelASBuffers ∧
    (p.m_device.instanceDescs p.m_topLevelASBuffers.pInstanceDesc).map
        (List.map InstanceDesc.transform) = some (u.m_instances.map (fun a => some a.2)) ∧
    (p.m_device.instanceDescs p.m_topLevelASBuffers.pInstanceDesc).map
        (List.map (fun d => (d.instanceID, d.hitGroupIndex, d.accelerationStructure))) =
      ((CreateTopLevelAS q s0 false).m_device.instanceDescs
          (CreateTopLevelAS q s0 false).m_topLevelASBuffers.pInstanceDesc).map
        (List.map (fun d => (d.instanceID, d.hitGroupIndex, d.accelerationStructure))) ∧
    (p.m_device.instanceDescs p.m_topLevelASBuffers.pInstanceDesc).map List.length =
      some s0.m_instances.length := by
  obtain ⟨⟨inst, rest, hi, hui⟩, -, hug, hub, hur, -⟩ := OnUpdate_ok q b u hu
  obtain ⟨-, pb, -, -, pw⟩ := PopulateCommandList_raytrace q u p (hur.trans hraster) hp
  have hP := instanceDescs_head p.m_device _ _ _ pw
  have hB : (CreateTopLevelAS q s0 false).m_device.instanceDescs
      (CreateTopLevelAS q s0 false).m_topLevelASBuffers.pInstanceDesc =
      some ((CreateTopLevelAS q s0 false).m_topLevelASGenerator.instances.map
        (TLASInstance.toDesc q s0.m_instances)) :=
    instanceDescs_head _ _ _ _ rfl
  have hulen : u.m_instances.length = s0.m_instances.length := by
    rw [hui, ← hlen, hi]; rfl
  rw [pb, hP, hug, hgen, fullBuild_descs q s0 hempty, hub, hbuf]
  refine ⟨⟨inst, rest, hi, hui⟩, rfl, ?_, ?_, ?_⟩
  · simp only [Option.map_some']
    congr 1
    exact enumFrom_map_transform s0.m_instances _ hulen
      (fun p => (p.1 % 4294967296, (2 * p.1) % 4294967296, q.gpuVA p.2.1))
  · rw [hB, fullBuild_descs q s0 hempty]
    simp only [Option.map_some', List.map_map]
    rfl
  · simp

/-- Witness for C7: the example scene, switched to ray tracing, one frame. -/
theorem refit_writes_updated_transforms_witness :
    exampleBeforeTLAS.m_topLevelASGenerator.instances = [] ∧
    exampleFrame.m_topLevelASGenerator =
      (CreateTopLevelAS exampleQueries exampleBeforeTLAS false).m_topLevelASGenerator ∧
    exampleFrame.m_topLevelASBuffers =
      (CreateTopLevelAS exampleQueries exampleBeforeTLAS false).m_topLevelASBuffers ∧
    exampleFrame.m_instances.length = exampleBeforeTLAS.m_instances.length ∧
    exampleFrame.m_raster = false ∧
    OnUpdate exampleQueries exampleFrame = .ok exampleUpdated ∧
    PopulateCommandList exampleQueries exampleUpdated = .ok exampleRefit ∧
    (exampleRefit.m_device.instanceDescs exampleRefit.m_topLevelASBuffers.pInstanceDesc).map
        (List.map InstanceDesc.transform) =
      some (exampleUpdated.m_instances.map (fun a => some a.2)) :=
  ⟨rfl, rfl, rfl, rfl, rfl, rfl, rfl,
   (refit_writes_updated_transforms exampleQueries exampleBeforeTLAS exampleFrame exampleUpdated
      exampleRefit rfl rfl rfl rfl rfl rfl rfl).2.2.1⟩

/-! ## C8: instance indices over sequences of builds -/

/-- The generator after a sequence of builds: every full build appends the
instances of the whole list again; the generator is never emptied. -/
theorem runBuilds_generator (q : DeviceQueries) (flags : List Bool) (s : App) :
    (runBuilds q s flags).m_instances = s.m_instances ∧
    (runBuilds q s flags).m_topLevelASGenerator.instances =
      s.m_topLevelASGenerator.instances ++
        (List.replicate (flags.count false)
          ((s.m_instances.enumFrom 0).map
            (fun p => (⟨p.2.1, p.1, toUINT p.1, toUINT (toSizeT (2 * p.1))⟩ : TLASInstance)))).flatten := by
  induction flags generalizing s with
  | nil => simp [runBuilds]
  | cons u rest ih =>
    have hstep : runBuilds q s (u :: rest) = runBuilds q (CreateTopLevelAS q s u) rest := rfl
    rw [hstep]
    obtain ⟨h1, h2⟩ := ih (CreateTopLevelAS q s u)
    cases u with
    | true =>
      rw [h1, h2]
      refine ⟨rfl, ?_⟩
      rw [CreateTopLevelAS_refit_generator]
      have : (CreateTopLevelAS q s true).m_instances = s.m_instances := rfl
      rw [this]
      simp
    | false =>
      rw [h1, h2]
      refine ⟨rfl, ?_⟩
      rw [CreateTopLevelAS_full_generator, addInstancesFrom_instances]
      have : (CreateTopLevelAS q s false).m_instances = s.m_instances := rfl
      rw [this]
      simp [List.replicate_succ]

/-- C8, as stated, fails: two full builds with a one-instance list leave the
generator with the instance indices 0, 0, which are not pairwise distinct. -/
theorem second_full_build_repeats_indices :
    (runBuilds exampleQueries oneInstanceApp [false, false]).m_topLevelASGenerator.instances.map
        TLASInstance.instanceID = [0, 0] ∧
    oneInstanceApp.m_instances.length = 1 ∧
    ¬ ((runBuilds exampleQueries oneInstanceApp [false, false]).m_topLevelASGenerator.instances.map
        TLASInstance.instanceID).Nodup := by
  refine ⟨rfl, rfl, ?_⟩
  have h : (runBuilds exampleQueries oneInstanceApp [false, false]).m_topLevelASGenerator.instances.map
        TLASInstance.instanceID = [0, 0] := rfl
  rw [h]
  decide

/-- Why the amended C8 speaks of the calls from the full build on: a refit made before
any full build adds nothing, so the generator holds no instance although the list has
two. -/
theorem refit_before_full_build_leaves_no_index :
    twoInstanceApp.m_topLevelASGenerator.instances = [] ∧
    twoInstanceApp.m_instances.length = 2 ∧
    (runBuilds exampleQueries twoInstanceApp [true]).m_topLevelASGenerator.instances = [] :=
  ⟨rfl, rfl, rfl⟩

/-- Why the amended C8 bounds the list by `2^32`: the instance index is
`static_cast<UINT>(i)`, so with `2^32 + 1` instances the instance at position `2^32`
gets the index 0, which the instance at position 0 already has. -/
theorem instance_index_wraps_at_2pow32 :
    hugeApp.m_topLevelASGenerator.instances = [] ∧
    4294967296 < hugeApp.m_instances.length ∧
    ((CreateTopLevelAS exampleQueries hugeApp false).m_topLevelASGenerator.instances.get?
        0).map TLASInstance.instanceID = some 0 ∧
    ((CreateTopLevelAS exampleQueries hugeApp false).m_topLevelASGenerator.instances.get?
        4294967296).map TLASInstance.instanceID = some 0 := by
  refine ⟨rfl, ?_, ?_, ?_⟩
  · show 4294967296 < (List.replicate 4294967297 (1, XMMATRIX.translation000)).length
    rw [List.length_replicate]; decide
  · rw [fullBuild_instance _ _ rfl]
    show Option.map _ (Option.map _
      ((List.replicate 4294967297 (1, XMMATRIX.translation000)).get? 0)) = _
    rw [List.get?_eq_getElem?, List.getElem?_replicate]
    simp
  · rw [fullBuild_instance _ _ rfl]
    show Option.map _ (Option.map _
      ((List.replicate 4294967297 (1, XMMATRIX.translation000)).get? 4294967296)) = _
    rw [List.get?_eq_getElem?, List.getElem?_replicate]
    simp

/-- The instance indices one full build adds, for a list of at most `2^32` instances. -/
theorem fullBuild_added_ids (l : List (Resource × XMMATRIX)) (hN : l.length ≤ 4294967296) :
    ((l.enumFrom 0).map
      (fun p => (⟨p.2.1, p.1, toUINT p.1, toUINT (toSizeT (2 * p.1))⟩ : TLASInstance))).map
        TLASInstance.instanceID = List.range l.length := by
  simp only [List.map_map]
  apply List.ext_getElem?
  intro i
  simp only [List.getElem?_map, List.getElem?_enumFrom, Option.map_map]
  by_cases hi : i < l.length
  · rw [List.getElem?_eq_getElem hi, List.getElem?_range hi]
    simp only [Option.map_some', Function.comp, toUINT, Nat.zero_add]
    congr 1
    omega
  · rw [List.getElem?_eq_none (by omega), List.getElem?_eq_none (by simpa using hi)]
    rfl

/-- C8 (amended): take any sequence `flags` of `CreateTopLevelAS` calls (`true` is a
refit) that starts on a generator holding no instances, with an instance list of length
`N ≤ 2^32`, and look at the generator after the `k`-th call, for every `k`. If `c` full
builds were made so far, the instance indices held are `0 .. N-1` repeated `c` times.
So while only refits were made the generator holds no instance, and from the first full
build until a second one, that is after the full build and after every refit that
follows it, the indices are exactly `0 .. N-1`, pairwise distinct. -/
theorem indices_dense_after_one_full_build (q : DeviceQueries) (s : App) (flags : List Bool)
    (k : Nat)
    (hempty : s.m_topLevelASGenerator.instances = [])
    (hN : s.m_instances.length ≤ 4294967296) :
    (runBuilds q s (flags.take k)).m_topLevelASGenerator.instances.map TLASInstance.instanceID =
      (List.replicate ((flags.take k).count false) (List.range s.m_instances.length)).flatten ∧
    ((flags.take k).count false = 0 →
      (runBuilds q s (flags.take k)).m_topLevelASGenerator.instances = []) ∧
    ((flags.take k).count false = 1 →
      (runBuilds q s (flags.take k)).m_topLevelASGenerator.instances.map
          TLASInstance.instanceID = List.range s.m_instances.length ∧
      ((runBuilds q s (flags.take k)).m_topLevelASGenerator.instances.map
          TLASInstance.instanceID).Nodup) := by
  have hg := (runBuilds_generator q (flags.take k) s).2
  rw [hempty, List.nil_append] at hg
  have hids : (runBuilds q s (flags.take k)).m_topLevelASGenerator.instances.map
      TLASInstance.instanceID =
      (List.replicate ((flags.take k).count false)
        (List.range s.m_instances.length)).flatten := by
    rw [hg, List.map_flatten, List.map_replicate, fullBuild_added_ids _ hN]
  refine ⟨hids, ?_, ?_⟩
  · intro h0
    rw [hg, h0]
    rfl
  · intro h1
    have h : (runBuilds q s (flags.take k)).m_topLevelASGenerator.instances.map
        TLASInstance.instanceID = List.range s.m_instances.length := by
      rw [hids, h1]
      simp
    exact ⟨h, h ▸ List.nodup_range _⟩

/-- Witness for C8 (amended): a refit, the full build, two refits; after the first call
the generator holds no instance, after the third the indices 0, 1, and after the last
still 0, 1. -/
theorem indices_dense_after_one_full_build_witness :
    twoInstanceApp.m_topLevelASGenerator.instances = [] ∧
    twoInstanceApp.m_instances.length ≤ 4294967296 ∧
    ([true, false, true, true].take 1).count false = 0 ∧
    ([true, false, true, true].take 3).count false = 1 ∧
    ([true, false, true, true].take 4).count false = 1 ∧
    (runBuilds exampleQueries twoInstanceApp
        ([true, false, true, true].take 1)).m_topLevelASGenerator.instances = [] ∧
    (runBuilds exampleQueries twoInstanceApp
        ([true, false, true, true].take 3)).m_topLevelASGenerator.instances.map
          TLASInstance.instanceID = [0, 1] ∧
    (runBuilds exampleQueries twoInstanceApp
        ([true, false, true, true].take 4)).m_topLevelASGenerator.instances.map
          TLASInstance.instanceID = [0, 1] :=
  ⟨rfl, by decide, by decide, by decide, by decide,
   (indices_dense_after_one_full_build exampleQueries twoInstanceApp [true, false, true, true] 1
     rfl (by decide)).2.1 (by decide),
   ((indices_dense_after_one_full_build exampleQueries twoInstanceApp [true, false, true, true] 3
     rfl (by decide)).2.2 (by decide)).1,
   ((indices_dense_after_one_full_build exampleQueries twoInstanceApp [true, false, true, true] 4
     rfl (by decide)).2.2 (by decide)).1⟩

/-! ## C9 and C10: the bottom-level build -/

/-- The geometries the loop of `CreateBottomLevelAS` adds. -/
theorem addVertexBuffersFrom_vertexBuffers (vI : List (Resource × Nat))
    (vV : List (Resource × Nat)) (i : Nat) (g : BottomLevelASGenerator) :
    (addVertexBuffersFrom vI vV i g).vertexBuffers =
      g.vertexBuffers ++ (vV.enumFrom i).map (fun p => geometryAt vI p.1 p.2) := by
  induction vV generalizing i g with
  | nil => simp [addVertexBuffersFrom]
  | cons vb rest ih =>
    unfold addVertexBuffersFrom
    split
    · rename_i h
      rw [ih]
      simp only [BottomLevelASGenerator.AddVertexBuffer, List.enumFrom, List.map_cons,
        List.append_assoc, List.singleton_append, geometryAt, if_pos h]
    · rename_i h
      rw [ih]
      simp only [BottomLevelASGenerator.AddVertexBuffer, List.enumFrom, List.map_cons,
        List.append_assoc, List.singleton_append, geometryAt, if_neg h]

/-- What `CreateBottomLevelAS` returns, allocates and records. -/
theorem CreateBottomLevelAS_effect (q : DeviceQueries) (s : App) (vV vI : List (Resource × Nat)) :
    (CreateBottomLevelAS q s vV vI).2 =
      ⟨s.m_device.resources.length + 1, s.m_device.resources.length + 2, 0⟩ ∧
    (CreateBottomLevelAS q s vV vI).1.m_device.resources = s.m_device.resources ++
      [.buffer ⟨(q.blasSizes (addVertexBuffersFrom vI vV 0 ⟨[]⟩).vertexBuffers false).1,
          .ALLOW_UNORDERED_ACCESS, .COMMON, .kDefaultHeapProps⟩,
       .buffer ⟨(q.blasSizes (addVertexBuffersFrom vI vV 0 ⟨[]⟩).vertexBuffers false).2,
          .ALLOW_UNORDERED_ACCESS, .RAYTRACING_ACCELERATION_STRUCTURE, .kDefaultHeapProps⟩] ∧
    (CreateBottomLevelAS q s vV vI).1.m_commandList = s.m_commandList ++
      [Cmd.buildBLAS (addVertexBuffersFrom vI vV 0 ⟨[]⟩).vertexBuffers
         (s.m_device.resources.length + 1) (s.m_device.resources.length + 2) false 0,
       Cmd.uavBarrier (s.m_device.resources.length + 2)] := by
  refine ⟨?_, ?_, ?_⟩
  · simp [CreateBottomLevelAS, CreateBuffer, Device.allocate]
  · simp [CreateBottomLevelAS, CreateBuffer, Device.allocate,
      BottomLevelASGenerator.ComputeASBufferSizes]
  · simp [CreateBottomLevelAS, CreateBuffer, Device.allocate, BottomLevelASGenerator.Generate]

/-- C9: for every vertex-buffer list (non-empty or not), `CreateBottomLevelAS` makes
its size query on the geometries it added (one per vertex buffer), allocates exactly
two buffers, the scratch buffer with exactly the scratch size and the result buffer
with exactly the result size of that query, and records one build that is handed
those two buffers. -/
theorem CreateBottomLevelAS_allocates_queried_sizes (q : DeviceQueries) (s : App) (vV vI : List (Resource × Nat)) :
    ∃ geometries,
      geometries.length = vV.length ∧
      (CreateBottomLevelAS q s vV vI).1.m_device.descOf (CreateBottomLevelAS q s vV vI).2.pScratch =
        some (.buffer ⟨(q.blasSizes geometries false).1, .ALLOW_UNORDERED_ACCESS, .COMMON,
          .kDefaultHeapProps⟩) ∧
      (CreateBottomLevelAS q s vV vI).1.m_device.descOf (CreateBottomLevelAS q s vV vI).2.pResult =
        some (.buffer ⟨(q.blasSizes geometries false).2, .ALLOW_UNORDERED_ACCESS,
          .RAYTRACING_ACCELERATION_STRUCTURE, .kDefaultHeapProps⟩) ∧
      (CreateBottomLevelAS q s vV vI).1.m_commandList = s.m_commandList ++
        [Cmd.buildBLAS geometries (CreateBottomLevelAS q s vV vI).2.pScratch
           (CreateBottomLevelAS q s vV vI).2.pResult false 0,
         Cmd.uavBarrier (CreateBottomLevelAS q s vV vI).2.pResult] ∧
      (CreateBottomLevelAS q s vV vI).1.m_device.resources.length =
        s.m_device.resources.length + 2 := by
  obtain ⟨hb, hr, hc⟩ := CreateBottomLevelAS_effect q s vV vI
  refine ⟨(addVertexBuffersFrom vI vV 0 ⟨[]⟩).vertexBuffers, ?_, ?_, ?_, ?_, ?_⟩
  · rw [addVertexBuffersFrom_vertexBuffers]; simp
  · rw [hb]; exact descOf_appended _ _ _ hr 0
  · rw [hb]; exact descOf_appended _ _ _ hr 1
  · rw [hb]; exact hc
  · rw [hr]; simp

/-- C10: for every vertex-buffer list `V` and index-buffer list `I`,
`CreateBottomLevelAS` hands the build exactly `|V|` geometries in the order of `V`;
geometry `i` is added with the non-indexed overload if and only if `I` has no entry
`i` or entry `i` has index count 0, and otherwise with the indexed overload, with
that entry's buffer and count. -/
theorem CreateBottomLevelAS_geometries (q : DeviceQueries) (s : App) (vV vI : List (Resource × Nat)) :
    ∃ geometries,
      (CreateBottomLevelAS q s vV vI).1.m_commandList = s.m_commandList ++
        [Cmd.buildBLAS geometries (CreateBottomLevelAS q s vV vI).2.pScratch
           (CreateBottomLevelAS q s vV vI).2.pResult false 0,
         Cmd.uavBarrier (CreateBottomLevelAS q s vV vI).2.pResult] ∧
      geometries.length = vV.length ∧
      ∀ i vb, vV.get? i = some vb →
        ((geometries.get? i).map Geometry.isIndexed = some false ↔
          (vI.get? i = none ∨ ∃ ib, vI.get? i = some ib ∧ ib.2 = 0)) ∧
        ((vI.get? i = none ∨ ∃ ib, vI.get? i = some ib ∧ ib.2 = 0) →
          geometries.get? i = some (.nonIndexed vb.1 0 vb.2 sizeofVertex 0 0)) ∧
        (∀ ib, vI.get? i = some ib → ib.2 ≠ 0 →
          geometries.get? i = some (.indexed vb.1 0 vb.2 sizeofVertex ib.1 0 ib.2 0 0 true)) := by
  obtain ⟨hb, -, hc⟩ := CreateBottomLevelAS_effect q s vV vI
  refine ⟨(addVertexBuffersFrom vI vV 0 ⟨[]⟩).vertexBuffers, ?_, ?_, ?_⟩
  · rw [hb]; exact hc
  · rw [addVertexBuffersFrom_vertexBuffers]; simp
  · intro i vb hvb
    have hg : (addVertexBuffersFrom vI vV 0 ⟨[]⟩).vertexBuffers.get? i =
        some (geometryAt vI i vb) := by
      rw [addVertexBuffersFrom_vertexBuffers]
      rw [List.get?_eq_getElem?] at hvb
      simp [List.getElem?_enumFrom, hvb]
    rw [hg]
    by_cases hi : i < vI.length
    · have hget : vI.get? i = some (vI.getD i (0, 0)) := by
        rw [List.get?_eq_getElem?, List.getElem?_eq_getElem hi, List.getD_eq_getElem _ _ hi]
      by_cases hz : (vI.getD i (0, 0)).2 = 0
      · have hgeo : geometryAt vI i vb = .nonIndexed vb.1 0 vb.2 sizeofVertex 0 0 := by
          unfold geometryAt
          generalize vI.getD i (0, 0) = x at hz
          simp [hz]
        rw [hgeo, hget]
        refine ⟨⟨fun _ => Or.inr ⟨_, rfl, hz⟩, fun _ => rfl⟩, fun _ => rfl, ?_⟩
        intro ib hib hne
        cases hib
        exact absurd hz hne
      · have hgeo : geometryAt vI i vb = .indexed vb.1 0 vb.2 sizeofVertex (vI.getD i (0, 0)).1 0
            (vI.getD i (0, 0)).2 0 0 true := by
          unfold geometryAt
          generalize vI.getD i (0, 0) = x at hz
          simp [hi, Nat.pos_of_ne_zero hz]
        rw [hgeo, hget]
        refine ⟨⟨fun h => ?_, fun h => ?_⟩, fun h => ?_, ?_⟩
        · simp [Geometry.isIndexed] at h
        · rcases h with h | ⟨ib, hib, hib0⟩
          · cases h
          · cases hib; exact absurd hib0 hz
        · rcases h with h | ⟨ib, hib, hib0⟩
          · cases h
          · cases hib; exact absurd hib0 hz
        · intro ib hib _
          cases hib
          rfl
    · have hget : vI.get? i = none := by
        rw [List.get?_eq_getElem?, List.getElem?_eq_none (by omega)]
      have hgeo : geometryAt vI i vb = .nonIndexed vb.1 0 vb.2 sizeofVertex 0 0 := by
        unfold geometryAt
        generalize vI.getD i (0, 0) = x
        simp [hi]
      rw [hgeo, hget]
      refine ⟨⟨fun _ => Or.inl rfl, fun _ => rfl⟩, fun _ => rfl, ?_⟩
      intro ib hib
      cases hib


/-! ## C11: the records of the shader binding table -/

/-- C11: `CreateShaderBindingTable` always returns, and the builder `m_sbtHelper` then
holds exactly one ray-generation record (RayGen), two miss records in the order Miss,
ShadowMiss, and three hit-group records in the order CubeHitGroup, ShadowHitGroup,
PlaneHitGroup. -/
theorem CreateShaderBindingTable_records (q : DeviceQueries) (s : App) :
    match CreateShaderBindingTable q s with
    | .ok s2 =>
      s2.m_sbtHelper.m_rayGen.map SBTEntry.m_entryPoint = ["RayGen"] ∧
      s2.m_sbtHelper.m_miss.map SBTEntry.m_entryPoint = ["Miss", "ShadowMiss"] ∧
      s2.m_sbtHelper.m_hitGroup.map SBTEntry.m_entryPoint =
        ["CubeHitGroup", "ShadowHitGroup", "PlaneHitGroup"] ∧
      s2.m_sbtHelper.m_rayGen.length = 1 ∧
      s2.m_sbtHelper.m_miss.length = 2 ∧
      s2.m_sbtHelper.m_hitGroup.length = 3
    | .error _ => False := by
  obtain ⟨s2, h2, hr, hm, hh, -, -⟩ := CreateShaderBindingTable_ok q s
  rw [h2]
  simp only []
  rw [hr, hm, hh]
  exact ⟨rfl, rfl, rfl, rfl, rfl, rfl⟩

/-! ## C12: the sections in the dispatch descriptor -/

/-- The command list `PopulateCommandList` records in ray-tracing mode. -/
theorem PopulateCommandList_raytrace_commands (q : DeviceQueries) (s p : App)
    (hr : s.m_raster = false) (hp : PopulateCommandList q s = .ok p) :
    p.m_commandList =
      [Cmd.SetGraphicsRootSignature, Cmd.RSSetViewports, Cmd.RSSetScissorRects,
       Cmd.transition (s.m_renderTargets.getD s.m_frameIndex 0) ResourceState.PRESENT
         ResourceState.RENDER_TARGET,
       Cmd.OMSetRenderTargets s.m_frameIndex,
       Cmd.buildTLAS s.m_topLevelASBuffers.pScratch s.m_topLevelASBuffers.pResult
         s.m_topLevelASBuffers.pInstanceDesc s.m_topLevelASGenerator.instances.length true
         s.m_topLevelASBuffers.pResult,
       Cmd.uavBarrier s.m_topLevelASBuffers.pResult,
       Cmd.SetDescriptorHeaps s.m_srvUavHeap,
       Cmd.transition s.m_outputResource ResourceState.COPY_SOURCE ResourceState.UNORDERED_ACCESS,
       Cmd.SetPipelineState1,
       Cmd.DispatchRays (dispatchDesc q s),
       Cmd.transition s.m_outputResource ResourceState.UNORDERED_ACCESS ResourceState.COPY_SOURCE,
       Cmd.transition (s.m_renderTargets.getD s.m_frameIndex 0) ResourceState.RENDER_TARGET
         ResourceState.COPY_DEST,
       Cmd.CopyResource (s.m_renderTargets.getD s.m_frameIndex 0) s.m_outputResource,
       Cmd.transition (s.m_renderTargets.getD s.m_frameIndex 0) ResourceState.COPY_DEST
         ResourceState.RENDER_TARGET,
       Cmd.transition (s.m_renderTargets.getD s.m_frameIndex 0) ResourceState.RENDER_TARGET
         ResourceState.PRESENT] := by
  unfold PopulateCommandList at hp
  split at hp
  · cases hp
  · split at hp
    · cases hp
    · simp only [hr] at hp
      split at hp
      · cases hp
      · cases hp
        rfl

/-- C12: in ray-tracing mode `PopulateCommandList` records exactly one dispatch, and
its descriptor places the ray-generation record at the base of the SBT buffer, the
miss table at base + ray-gen section size and the hit-group table at base + ray-gen
section size + miss section size, each with the size and the stride the builder
reports for that section; every section starts where the one before it ends. The
sizes are passed as `uint32_t` and the addresses are 64-bit: the section sizes are
taken to be `UINT` values and the table to lie inside the address space. -/
theorem dispatch_sections_contiguous (q : DeviceQueries) (s p : App)
    (hr : s.m_raster = false) (hp : PopulateCommandList q s = .ok p)
    (hrg : s.m_sbtHelper.GetRayGenSectionSize < 4294967296)
    (hmiss : s.m_sbtHelper.GetMissSectionSize < 4294967296)
    (hhit : s.m_sbtHelper.GetHitGroupSectionSize < 4294967296)
    (haddr : q.gpuVA s.m_sbtStorage + s.m_sbtHelper.GetRayGenSectionSize +
      s.m_sbtHelper.GetMissSectionSize < 18446744073709551616) :
    ∃ desc, p.m_commandList.filterMap
        (fun c => match c with
          | .DispatchRays d => some d
          | _ => none) = [desc] ∧
      desc.RayGenerationShaderRecord.StartAddress = q.gpuVA s.m_sbtStorage ∧
      desc.RayGenerationShaderRecord.SizeInBytes = s.m_sbtHelper.GetRayGenSectionSize ∧
      desc.MissShaderTable.StartAddress =
        q.gpuVA s.m_sbtStorage + s.m_sbtHelper.GetRayGenSectionSize ∧
      desc.MissShaderTable.SizeInBytes = s.m_sbtHelper.GetMissSectionSize ∧
      desc.MissShaderTable.StrideInBytes = s.m_sbtHelper.GetMissEntrySize ∧
      desc.HitGroupTable.StartAddress =
        q.gpuVA s.m_sbtStorage + s.m_sbtHelper.GetRayGenSectionSize +
          s.m_sbtHelper.GetMissSectionSize ∧
      desc.HitGroupTable.SizeInBytes = s.m_sbtHelper.GetHitGroupSectionSize ∧
      desc.HitGroupTable.StrideInBytes = s.m_sbtHelper.GetHitGroupEntrySize ∧
      desc.MissShaderTable.StartAddress =
        desc.RayGenerationShaderRecord.StartAddress + desc.RayGenerationShaderRecord.SizeInBytes ∧
      desc.HitGroupTable.StartAddress =
        desc.MissShaderTable.StartAddress + desc.MissShaderTable.SizeInBytes := by
  have hc := PopulateCommandList_raytrace_commands q s p hr hp
  have e1 : toUINT s.m_sbtHelper.GetRayGenSectionSize = s.m_sbtHelper.GetRayGenSectionSize :=
    Nat.mod_eq_of_lt hrg
  have e2 : toUINT s.m_sbtHelper.GetMissSectionSize = s.m_sbtHelper.GetMissSectionSize :=
    Nat.mod_eq_of_lt hmiss
  have e3 : toUINT s.m_sbtHelper.GetHitGroupSectionSize = s.m_sbtHelper.GetHitGroupSectionSize :=
    Nat.mod_eq_of_lt hhit
  have e4 : toUINT64 (q.gpuVA s.m_sbtStorage + s.m_sbtHelper.GetRayGenSectionSize) =
      q.gpuVA s.m_sbtStorage + s.m_sbtHelper.GetRayGenSectionSize :=
    Nat.mod_eq_of_lt (by omega)
  have e5 : toUINT64 (q.gpuVA s.m_sbtStorage + s.m_sbtHelper.GetRayGenSectionSize +
      s.m_sbtHelper.GetMissSectionSize) =
      q.gpuVA s.m_sbtStorage + s.m_sbtHelper.GetRayGenSectionSize +
        s.m_sbtHelper.GetMissSectionSize :=
    Nat.mod_eq_of_lt haddr
  refine ⟨dispatchDesc q s, ?_, ?_⟩
  · rw [hc]; rfl
  · simp only [dispatchDesc, e1, e2, e3, e4, e5, and_self]

/-- Witness for C12: the example frame in ray-tracing mode; the three sections are
64, 64 and 192 bytes and the strides 32 and 64. -/
theorem dispatch_sections_contiguous_witness :
    exampleUpdated.m_raster = false ∧
    PopulateCommandList exampleQueries exampleUpdated = .ok exampleRefit ∧
    exampleUpdated.m_sbtHelper.GetRayGenSectionSize = 64 ∧
    exampleUpdated.m_sbtHelper.GetMissSectionSize = 64 ∧
    exampleUpdated.m_sbtHelper.GetHitGroupSectionSize = 192 ∧
    ∃ desc, exampleRefit.m_commandList.filterMap
        (fun c => match c with
          | .DispatchRays d => some d
          | _ => none) = [desc] ∧
      desc.MissShaderTable.StartAddress =
        desc.RayGenerationShaderRecord.StartAddress + desc.RayGenerationShaderRecord.SizeInBytes ∧
      desc.HitGroupTable.StartAddress =
        desc.MissShaderTable.StartAddress + desc.MissShaderTable.SizeInBytes := by
  obtain ⟨desc, h1, -, -, -, -, -, -, -, -, h2, h3⟩ :=
    dispatch_sections_contiguous exampleQueries exampleUpdated exampleRefit rfl rfl
      (by decide) (by decide) (by decide) (by decide)
  exact ⟨rfl, rfl, by decide, by decide, by decide, desc, h1, h2, h3⟩

/-! ## C13: alignment of the section starts -/

/-- C13, counterexample: a table that holds one ray-generation record without root
argument (32-byte identifier, 32-byte record alignment) has a ray-generation section
of 32 bytes, so with the SBT buffer at a 64-byte aligned address the miss section
that `PopulateCommandList` addresses starts at an address that is 32 modulo the table
alignment 64. -/
theorem miss_section_misaligned_after_bare_raygen :
    exampleQueries.tableAlignment = 64 ∧
    exampleQueries.gpuVA minimalTableApp.m_sbtStorage % 64 = 0 ∧
    minimalTableApp.m_sbtHelper.m_rayGen.map SBTEntry.m_inputData = [[]] ∧
    toUINT minimalTableApp.m_sbtHelper.GetRayGenSectionSize = 32 ∧
    (dispatchDesc exampleQueries minimalTableApp).MissShaderTable.StartAddress % 64 = 32 := by
  refine ⟨rfl, ?_, rfl, ?_, ?_⟩ <;> decide

/-- A rounded-up value is a multiple of the alignment. -/
theorem roundUp_mod (v a : Nat) : roundUp v a % a = 0 := by
  unfold roundUp
  exact Nat.mul_mod_left _ _

/-- Reducing a 64-bit wrap modulo a divisor of 2^64 changes nothing. -/
theorem toUINT64_mod (n a : Nat) (ha : 18446744073709551616 % a = 0) :
    toUINT64 n % a = n % a := by
  unfold toUINT64
  exact Nat.mod_mod_of_dvd n (Nat.dvd_of_mod_eq_zero ha)

/-- The strides `CreateShaderBindingTable` leaves in the builder. -/
theorem CreateShaderBindingTable_sizes (q : DeviceQueries) (s s2 : App)
    (h2 : CreateShaderBindingTable q s = .ok s2) :
    s2.m_sbtHelper.m_rayGenEntrySize = roundUp (q.shaderIdentifierSize + 8) q.recordAlignment ∧
    s2.m_sbtHelper.m_missEntrySize = roundUp q.shaderIdentifierSize q.recordAlignment ∧
    s2.m_sbtHelper.m_hitGroupEntrySize = roundUp (q.shaderIdentifierSize + 8) q.recordAlignment := by
  unfold CreateShaderBindingTable at h2
  simp only [] at h2
  split at h2
  · cases h2
  · cases h2
    simp [declareShaderBindingTable, ShaderBindingTableGenerator.ComputeSBTSize,
      ShaderBindingTableGenerator.Reset, ShaderBindingTableGenerator.AddRayGenerationProgram,
      ShaderBindingTableGenerator.AddMissProgram, ShaderBindingTableGenerator.AddHitGroup,
      GetEntrySize, SBTEntry.recordSize]

/-- C13, amended: for the records `CreateShaderBindingTable` adds, on a device with
32-byte program identifiers, 32-byte record alignment and 64-byte table alignment,
the start offsets `PopulateCommandList` computes for the miss and the hit-group
section are 64 and 128, multiples of the table alignment, and with the SBT buffer
base so aligned both start addresses are aligned. For every set of records the
section sizes, hence the two offsets, are multiples of the record alignment. -/
theorem scene_section_offsets_aligned (q : DeviceQueries) (s s2 : App)
    (hid : q.shaderIdentifierSize = 32) (hra : q.recordAlignment = 32)
    (hta : q.tableAlignment = 64)
    (h2 : CreateShaderBindingTable q s = .ok s2)
    (hbase : q.gpuVA s2.m_sbtStorage % q.tableAlignment = 0) :
    toUINT s2.m_sbtHelper.GetRayGenSectionSize = 64 ∧
    toUINT s2.m_sbtHelper.GetRayGenSectionSize + toUINT s2.m_sbtHelper.GetMissSectionSize = 128 ∧
    toUINT s2.m_sbtHelper.GetRayGenSectionSize % q.tableAlignment = 0 ∧
    (toUINT s2.m_sbtHelper.GetRayGenSectionSize + toUINT s2.m_sbtHelper.GetMissSectionSize) %
      q.tableAlignment = 0 ∧
    (dispatchDesc q s2).MissShaderTable.StartAddress % q.tableAlignment = 0 ∧
    (dispatchDesc q s2).HitGroupTable.StartAddress % q.tableAlignment = 0 ∧
    (∀ g : ShaderBindingTableGenerator,
      (g.ComputeSBTSize q).1.GetRayGenSectionSize % q.recordAlignment = 0 ∧
      ((g.ComputeSBTSize q).1.GetRayGenSectionSize + (g.ComputeSBTSize q).1.GetMissSectionSize) %
        q.recordAlignment = 0) := by
  obtain ⟨s3, h3, hr, hm, hh, -, -⟩ := CreateShaderBindingTable_ok q s
  rw [h2] at h3
  cases h3
  obtain ⟨z1, z2, z3⟩ := CreateShaderBindingTable_sizes q s s2 h2
  have r1 : s2.m_sbtHelper.GetRayGenSectionSize = 64 := by
    unfold ShaderBindingTableGenerator.GetRayGenSectionSize
    rw [z1, hr, hid, hra]; rfl
  have r2 : s2.m_sbtHelper.GetMissSectionSize = 64 := by
    unfold ShaderBindingTableGenerator.GetMissSectionSize
    rw [z2, hm, hid, hra]; rfl
  have hgen : ∀ g : ShaderBindingTableGenerator,
      (g.ComputeSBTSize q).1.GetRayGenSectionSize % q.recordAlignment = 0 ∧
      ((g.ComputeSBTSize q).1.GetRayGenSectionSize + (g.ComputeSBTSize q).1.GetMissSectionSize) %
        q.recordAlignment = 0 := by
    intro g
    have d1 : (g.ComputeSBTSize q).1.GetRayGenSectionSize % q.recordAlignment = 0 := by
      simp only [ShaderBindingTableGenerator.ComputeSBTSize,
        ShaderBindingTableGenerator.GetRayGenSectionSize, GetEntrySize]
      rw [Nat.mul_mod, roundUp_mod]
      simp
    have d2 : (g.ComputeSBTSize q).1.GetMissSectionSize % q.recordAlignment = 0 := by
      simp only [ShaderBindingTableGenerator.ComputeSBTSize,
        ShaderBindingTableGenerator.GetMissSectionSize, GetEntrySize]
      rw [Nat.mul_mod, roundUp_mod]
      simp
    refine ⟨d1, ?_⟩
    rw [Nat.add_mod, d1, d2]
    simp
  rw [hta] at hbase ⊢
  have m1 : (dispatchDesc q s2).MissShaderTable.StartAddress =
      toUINT64 (q.gpuVA s2.m_sbtStorage + 64) := by
    simp only [dispatchDesc, r1]; rfl
  have m2 : (dispatchDesc q s2).HitGroupTable.StartAddress =
      toUINT64 (toUINT64 (q.gpuVA s2.m_sbtStorage + 64) + 64) := by
    simp only [dispatchDesc, r1, r2]; rfl
  rw [r1, r2, m1, m2]
  refine ⟨rfl, rfl, rfl, rfl, ?_, ?_, hgen⟩
  · rw [toUINT64_mod _ _ (by decide)]; omega
  · rw [toUINT64_mod _ _ (by decide)]
    have := toUINT64_mod (q.gpuVA s2.m_sbtStorage + 64) 64 (by decide)
    omega

/-- Witness for C13 (amended): the example's table. -/
theorem scene_section_offsets_aligned_witness :
    exampleQueries.shaderIdentifierSize = 32 ∧ exampleQueries.recordAlignment = 32 ∧
    exampleQueries.tableAlignment = 64 ∧
    CreateShaderBindingTable exampleQueries exampleHeap = .ok exampleInit ∧
    exampleQueries.gpuVA exampleInit.m_sbtStorage % exampleQueries.tableAlignment = 0 ∧
    (dispatchDesc exampleQueries exampleInit).MissShaderTable.StartAddress %
      exampleQueries.tableAlignment = 0 ∧
    (dispatchDesc exampleQueries exampleInit).HitGroupTable.StartAddress %
      exampleQueries.tableAlignment = 0 :=
  ⟨rfl, rfl, rfl, rfl, by decide,
   (scene_section_offsets_aligned exampleQueries exampleHeap exampleInit rfl rfl rfl rfl
      (by decide)).2.2.2.2.1,
   (scene_section_offsets_aligned exampleQueries exampleHeap exampleInit rfl rfl rfl rfl
      (by decide)).2.2.2.2.2.1⟩

/-! ## C14: the stride of a section -/

/-- A left fold with `max` is at least its start value and every element. -/
theorem foldl_max_ge (l : List Nat) (a : Nat) :
    a ≤ l.foldl max a ∧ ∀ x ∈ l, x ≤ l.foldl max a := by
  induction l generalizing a with
  | nil => simp
  | cons y l ih =>
    simp only [List.foldl_cons, List.mem_cons, forall_eq_or_imp]
    obtain ⟨h1, h2⟩ := ih (max a y)
    exact ⟨le_trans (le_max_left _ _) h1, le_trans (le_max_right _ _) h1, h2⟩

/-- A left fold with `max` returns its start value or an element. -/
theorem foldl_max_mem (l : List Nat) (a : Nat) : l.foldl max a = a ∨ l.foldl max a ∈ l := by
  induction l generalizing a with
  | nil => simp
  | cons y l ih =>
    simp only [List.foldl_cons, List.mem_cons]
    rcases ih (max a y) with h | h
    · rw [h]
      rcases max_choice a y with h2 | h2
      · left; exact h2
      · right; left; exact h2
    · right; right; exact h

/-- The fold of `GetEntrySize` finds the largest record of a non-empty section. -/
theorem isLargest_foldl (q : DeviceQueries) (entries : List SBTEntry) (hne : entries ≠ []) :
    IsLargestRecordSize q entries ((entries.map (SBTEntry.recordSize q)).foldl max 0) := by
  constructor
  · rcases foldl_max_mem (entries.map (SBTEntry.recordSize q)) 0 with h | h
    · cases entries with
      | nil => exact absurd rfl hne
      | cons e rest =>
        refine ⟨e, List.mem_cons_self _ _, ?_⟩
        have := (foldl_max_ge ((e :: rest).map (SBTEntry.recordSize q)) 0).2 (e.recordSize q)
          (by simp)
        omega
    · obtain ⟨e, he, hs⟩ := List.mem_map.mp h
      exact ⟨e, he, hs⟩
  · intro e he
    exact (foldl_max_ge (entries.map (SBTEntry.recordSize q)) 0).2 _ (List.mem_map_of_mem _ he)

/-- The function `roundUp` rounds up: its value is the least multiple of the alignment
that is not below the argument. -/
theorem isRoundedUp_roundUp (v a : Nat) (ha : 0 < a) : IsRoundedUp v a (roundUp v a) := by
  have hle : v ≤ roundUp v a := by
    unfold roundUp
    have h1 := Nat.div_add_mod (v + a - 1) a
    have h2 := Nat.mod_lt (v + a - 1) ha
    rw [Nat.mul_comm] at h1
    omega
  have hleast : ∀ r2, r2 % a = 0 → v ≤ r2 → roundUp v a ≤ r2 := by
    intro r2 hr2 hv
    unfold roundUp
    obtain ⟨k, rfl⟩ := Nat.dvd_of_mod_eq_zero hr2
    rw [Nat.mul_comm a k]
    apply Nat.mul_le_mul_right
    apply Nat.lt_succ_iff.mp
    rw [Nat.div_lt_iff_lt_mul ha, Nat.succ_mul]
    rw [Nat.mul_comm] at hv
    omega
  refine ⟨roundUp_mod v a, hle, ?_⟩
  intro r2 hlt hmod
  by_contra hge
  have := hleast r2 hmod (by omega)
  omega

/-- C14: after `ComputeSBTSize`, the stride of every (non-empty) section is the size of
that section's largest record, identifier plus 8 bytes per root argument, rounded up to
the record alignment; it depends on that section's records only (a builder with the same
records in the section and any records in the other two gets the same stride); and for
the hit-group section of `CreateShaderBindingTable`, whose records carry 0, 0 and 8
bytes of root arguments, the stride is the identifier plus 8 bytes rounded up and the
section is 3 strides long. -/
theorem section_stride_is_padded_largest_record (q : DeviceQueries)
    (g : ShaderBindingTableGenerator) (h0 : 0 < q.recordAlignment) :
    (g.m_rayGen ≠ [] → ∃ m, IsLargestRecordSize q g.m_rayGen m ∧
      IsRoundedUp m q.recordAlignment (g.ComputeSBTSize q).1.m_rayGenEntrySize) ∧
    (g.m_miss ≠ [] → ∃ m, IsLargestRecordSize q g.m_miss m ∧
      IsRoundedUp m q.recordAlignment (g.ComputeSBTSize q).1.GetMissEntrySize) ∧
    (g.m_hitGroup ≠ [] → ∃ m, IsLargestRecordSize q g.m_hitGroup m ∧
      IsRoundedUp m q.recordAlignment (g.ComputeSBTSize q).1.GetHitGroupEntrySize) ∧
    (∀ g2 : ShaderBindingTableGenerator,
      (g2.m_rayGen = g.m_rayGen →
        (g2.ComputeSBTSize q).1.m_rayGenEntrySize = (g.ComputeSBTSize q).1.m_rayGenEntrySize) ∧
      (g2.m_miss = g.m_miss →
        (g2.ComputeSBTSize q).1.GetMissEntrySize = (g.ComputeSBTSize q).1.GetMissEntrySize) ∧
      (g2.m_hitGroup = g.m_hitGroup →
        (g2.ComputeSBTSize q).1.GetHitGroupEntrySize =
          (g.ComputeSBTSize q).1.GetHitGroupEntrySize)) ∧
    (∀ s s2, CreateShaderBindingTable q s = .ok s2 →
      s2.m_sbtHelper.m_hitGroup.map (fun e => 8 * e.m_inputData.length) = [0, 0, 8] ∧
      IsRoundedUp (q.shaderIdentifierSize + 8) q.recordAlignment
        s2.m_sbtHelper.GetHitGroupEntrySize ∧
      s2.m_sbtHelper.GetHitGroupSectionSize = s2.m_sbtHelper.GetHitGroupEntrySize * 3) := by
  refine ⟨?_, ?_, ?_, ?_, ?_⟩
  · intro hne
    exact ⟨_, isLargest_foldl q g.m_rayGen hne, isRoundedUp_roundUp _ _ h0⟩
  · intro hne
    exact ⟨_, isLargest_foldl q g.m_miss hne, isRoundedUp_roundUp _ _ h0⟩
  · intro hne
    exact ⟨_, isLargest_foldl q g.m_hitGroup hne, isRoundedUp_roundUp _ _ h0⟩
  · intro g2
    refine ⟨?_, ?_, ?_⟩
    · intro h
      simp only [ShaderBindingTableGenerator.ComputeSBTSize, h]
    · intro h
      simp only [ShaderBindingTableGenerator.ComputeSBTSize,
        ShaderBindingTableGenerator.GetMissEntrySize, h]
    · intro h
      simp only [ShaderBindingTableGenerator.ComputeSBTSize,
        ShaderBindingTableGenerator.GetHitGroupEntrySize, h]
  · intro s s2 h2
    obtain ⟨s3, h3, -, -, hh, -, -⟩ := CreateShaderBindingTable_ok q s
    rw [h2] at h3
    cases h3
    obtain ⟨-, -, z3⟩ := CreateShaderBindingTable_sizes q s s2 h2
    refine ⟨?_, ?_, ?_⟩
    · rw [hh]; rfl
    · unfold ShaderBindingTableGenerator.GetHitGroupEntrySize
      rw [z3]
      exact isRoundedUp_roundUp _ _ h0
    · unfold ShaderBindingTableGenerator.GetHitGroupSectionSize
        ShaderBindingTableGenerator.GetHitGroupEntrySize
      rw [hh]; rfl

/-- Witness for C14: the example's table; the hit-group stride is 64 (40 rounded up
to 32-byte alignment) and the section 192 bytes. -/
theorem section_stride_is_padded_largest_record_witness :
    0 < exampleQueries.recordAlignment ∧
    exampleInit.m_sbtHelper.GetHitGroupEntrySize = 64 ∧
    IsRoundedUp (exampleQueries.shaderIdentifierSize + 8) exampleQueries.recordAlignment
      exampleInit.m_sbtHelper.GetHitGroupEntrySize ∧
    exampleInit.m_sbtHelper.GetHitGroupSectionSize =
      exampleInit.m_sbtHelper.GetHitGroupEntrySize * 3 :=
  ⟨by decide, by decide,
   ((section_stride_is_padded_largest_record exampleQueries exampleInit.m_sbtHelper
      (by decide)).2.2.2.2 exampleHeap exampleInit rfl).2⟩

/-! ## C15: `ComputeSBTSize` twice -/

/-- C15: for every state of the SBT builder (and every device), a second
`ComputeSBTSize` with no record added in between returns the same total size and
leaves the builder as the first call left it, so the section sizes and the strides
read afterwards are those read after the first call. -/
theorem ComputeSBTSize_idempotent (q : DeviceQueries) (g : ShaderBindingTableGenerator) :
    ((g.ComputeSBTSize q).1.ComputeSBTSize q).2 = (g.ComputeSBTSize q).2 ∧
    ((g.ComputeSBTSize q).1.ComputeSBTSize q).1 = (g.ComputeSBTSize q).1 ∧
    ((g.ComputeSBTSize q).1.ComputeSBTSize q).1.GetRayGenSectionSize =
      (g.ComputeSBTSize q).1.GetRayGenSectionSize ∧
    ((g.ComputeSBTSize q).1.ComputeSBTSize q).1.GetMissSectionSize =
      (g.ComputeSBTSize q).1.GetMissSectionSize ∧
    ((g.ComputeSBTSize q).1.ComputeSBTSize q).1.GetHitGroupSectionSize =
      (g.ComputeSBTSize q).1.GetHitGroupSectionSize ∧
    ((g.ComputeSBTSize q).1.ComputeSBTSize q).1.GetMissEntrySize =
      (g.ComputeSBTSize q).1.GetMissEntrySize ∧
    ((g.ComputeSBTSize q).1.ComputeSBTSize q).1.GetHitGroupEntrySize =
      (g.ComputeSBTSize q).1.GetHitGroupEntrySize :=
  ⟨rfl, rfl, rfl, rfl, rfl, rfl, rfl⟩

/-! ## C16: root-signature associations -/

/-- The associations `declarePipeline` declares: each program once, the two miss
programs with the miss signature. -/
theorem declarePipeline_counts (r m h sh : Resource) :
    sbtPrograms.map (declarePipeline r m h sh).associationCount = [1, 1, 1, 1, 1, 1, 1] ∧
    (declarePipeline r m h sh).signaturesOf "Miss" = [m] ∧
    (declarePipeline r m h sh).signaturesOf "ShadowMiss" = [m] :=
  ⟨rfl, rfl, rfl⟩

/-- C16: when `CreateRaytracingPipeline` returns (it throws only if the query for the
state-object properties fails), each of the programs RayGen, Miss, ShadowMiss,
HitGroup, CubeHitGroup, PlaneHitGroup, ShadowHitGroup is named in exactly one
root-signature association of the pipeline, and Miss and ShadowMiss are associated
with the same root signature, `m_missSignature`, hence with the same binding
layout. -/
theorem pipeline_programs_associated_once (q : DeviceQueries) (s : App) :
    match CreateRaytracingPipeline q s with
    | .ok s1 =>
      ∃ pipeline, s1.m_rtStateObject = some pipeline ∧
        (∀ program ∈ sbtPrograms, pipeline.associationCount program = 1) ∧
        pipeline.signaturesOf "Miss" = [s1.m_missSignature] ∧
        pipeline.signaturesOf "ShadowMiss" = [s1.m_missSignature] ∧
        s1.bindingLayoutOf "Miss" = s1.bindingLayoutOf "ShadowMiss" ∧
        (s1.bindingLayoutOf "Miss").isSome = true
    | .error _ => q.succeeded GpuCall.QueryInterface = false := by
  by_cases hq : q.succeeded GpuCall.QueryInterface = true
  · obtain ⟨s1, h1, hp, hd⟩ := CreateRaytracingPipeline_ok q s hq
    have hm : s1.m_missSignature = s.m_device.rootSignatures.length + 2 := by
      unfold CreateRaytracingPipeline ThrowIfFailed at h1
      simp only [hq, if_true] at h1
      cases h1
      simp [CreateRayGenSignature, CreateMissSignature, RootSignatureGenerator.Generate,
        RootSignatureGenerator.AddHeapRangesParameter]
    rw [h1]
    simp only []
    obtain ⟨-, b2, b3, -⟩ := bindingLayoutOf_declared s1 s.m_device.rootSignatures hp hd
    obtain ⟨c1, c2, c3⟩ := declarePipeline_counts (s.m_device.rootSignatures.length + 1)
      (s.m_device.rootSignatures.length + 2) (s.m_device.rootSignatures.length + 3)
      (s.m_device.rootSignatures.length + 4)
    refine ⟨_, hp, ?_, ?_, ?_, ?_, ?_⟩
    · intro program hprog
      obtain ⟨i, hi, rfl⟩ := List.getElem_of_mem hprog
      have hc := congrArg (fun l => l[i]?) c1
      simp only [List.getElem?_map] at hc
      rw [List.getElem?_eq_getElem hi] at hc
      have hi7 : i < 7 := hi
      have : ([1, 1, 1, 1, 1, 1, 1] : List Nat)[i]? = some 1 := by
        interval_cases i <;> rfl
      rw [this] at hc
      simpa using hc
    · rw [c2, hm]
    · rw [c3, hm]
    · rw [b2, b3]
    · rw [b2]; rfl
  · have hq2 : q.succeeded GpuCall.QueryInterface = false := by simpa using hq
    unfold CreateRaytracingPipeline ThrowIfFailed
    simp only [hq2]
    simp

/-! ## Start-up and frame-loop lemmas -/

/-- A run of steps that returns ran its first step and then the rest. -/
theorem runSteps_cons_ok (q : DeviceQueries) (step : InitStep) (rest : List InitStep) (s t : App)
    (h : runSteps q (step :: rest) s = .ok t) :
    ∃ m, step.run q s = .ok m ∧ runSteps q rest m = .ok t := by
  unfold runSteps at h
  split at h
  · cases h
  · rename_i m hm
    exact ⟨m, hm, h⟩

/-- A run of calls that returns ran its first call and then the rest. -/
theorem runActions_cons_ok (q : DeviceQueries) (a : Action) (rest : List Action) (s t : App)
    (h : runActions q (a :: rest) s = .ok t) :
    ∃ m, a.run q s = .ok m ∧ runActions q rest m = .ok t := by
  unfold runActions at h
  split at h
  · cases h
  · rename_i m hm
    exact ⟨m, hm, h⟩

/-- What `WaitForPreviousFrame` changes when it returns. -/
theorem WaitForPreviousFrame_ok (q : DeviceQueries) (s t : App)
    (h : WaitForPreviousFrame q s = .ok t) :
    (t.m_commandQueue = s.m_commandQueue ++ [QueueOp.Signal s.m_fenceValue] ∨
     t.m_commandQueue = s.m_commandQueue ++ [QueueOp.Signal s.m_fenceValue,
       QueueOp.SetEventOnCompletion s.m_fenceValue, QueueOp.WaitForSingleObject]) ∧
    t.m_fenceValue = toUINT64 (s.m_fenceValue + 1) ∧
    t.m_commandList = s.m_commandList ∧
    t.m_device = s.m_device ∧
    t.m_topLevelASBuffers = s.m_topLevelASBuffers ∧
    t.m_srvUavHeap = s.m_srvUavHeap ∧
    t.m_rtStateObject = s.m_rtStateObject := by
  unfold WaitForPreviousFrame at h
  simp only [] at h
  split at h
  · cases h
  · split at h
    · cases h
      exact ⟨Or.inl rfl, rfl, rfl, rfl, rfl, rfl, rfl⟩
    · split at h
      · cases h
      · cases h
        refine ⟨Or.inr ?_, rfl, rfl, rfl, rfl, rfl, rfl⟩
        simp

/-- After `LoadPipeline` nothing was submitted and no descriptor or table written. -/
theorem LoadPipeline_ok (q : DeviceQueries) (s t : App) (h : LoadPipeline q s = .ok t) :
    t.m_commandQueue = [] ∧ t.m_device.descriptorWrites = [] ∧ t.m_device.sbtWrites = [] := by
  unfold LoadPipeline at h
  split at h
  · cases h
  · cases h
    exact ⟨rfl, rfl, rfl⟩

/-- What `LoadAssets` changes when it returns. -/
theorem LoadAssets_ok (q : DeviceQueries) (s t : App) (h : LoadAssets q s = .ok t) :
    (t.m_commandQueue = s.m_commandQueue ++ [QueueOp.Signal 1] ∨
     t.m_commandQueue = s.m_commandQueue ++ [QueueOp.Signal 1,
       QueueOp.SetEventOnCompletion 1, QueueOp.WaitForSingleObject]) ∧
    t.m_fenceValue = 2 ∧
    t.m_commandList = [] ∧
    t.m_device.descriptorWrites = s.m_device.descriptorWrites ∧
    t.m_device.sbtWrites = s.m_device.sbtWrites := by
  unfold LoadAssets at h
  split at h
  · cases h
  · obtain ⟨hq, hf, hc, hd, -, -, -⟩ := WaitForPreviousFrame_ok q _ t h
    refine ⟨hq, hf, hc, ?_, ?_⟩
    · rw [hd]; rfl
    · rw [hd]; rfl

/-- `CheckRaytracingSupport` returns only on tier 1.0 or above, and changes nothing. -/
theorem CheckRaytracingSupport_ok (q : DeviceQueries) (s t : App)
    (h : CheckRaytracingSupport q s = .ok t) : t = s ∧ 10 ≤ q.raytracingTier := by
  unfold CheckRaytracingSupport at h
  split at h
  · cases h
  · split at h
    · cases h
    · cases h
      exact ⟨rfl, by omega⟩


/-- What `CreateAccelerationStructures` leaves unchanged, and the result buffer it allocates. -/
theorem CreateAccelerationStructures_frame (q : DeviceQueries) (s t : App)
    (h : CreateAccelerationStructures q s = .ok t) :
    t.m_device.descriptorWrites = s.m_device.descriptorWrites ∧
    t.m_device.sbtWrites = s.m_device.sbtWrites ∧
    t.m_topLevelASBuffers.pResult = s.m_device.resources.length + 6 ∧
    t.m_srvUavHeap = s.m_srvUavHeap ∧
    t.m_rtStateObject = s.m_rtStateObject := by
  unfold CreateAccelerationStructures at h
  simp only [] at h
  split at h
  · cases h
  · cases h
    refine ⟨rfl, rfl, ?_, rfl, rfl⟩
    simp [CreateTopLevelAS, CreateBottomLevelAS, CreateBuffer, Device.allocate]

/-- Closing the command list changes no member. -/
theorem CloseCommandList_ok (q : DeviceQueries) (s t : App)
    (h : InitStep.CloseCommandList.run q s = .ok t) : t = s := by
  have h1 : (match ThrowIfFailed q GpuCall.CommandListClose with
      | .error e => Except.error e
      | .ok _ => Except.ok s) = Except.ok t := h
  split at h1
  · cases h1
  · cases h1; rfl

/-- What `CreateRaytracingPipeline` leaves unchanged; the state object is set. -/
theorem CreateRaytracingPipeline_frame (q : DeviceQueries) (s t : App)
    (h : CreateRaytracingPipeline q s = .ok t) :
    t.m_commandQueue = s.m_commandQueue ∧
    t.m_commandList = s.m_commandList ∧
    t.m_device.descriptorWrites = s.m_device.descriptorWrites ∧
    t.m_device.sbtWrites = s.m_device.sbtWrites ∧
    t.m_topLevelASBuffers = s.m_topLevelASBuffers ∧
    t.m_srvUavHeap = s.m_srvUavHeap ∧
    t.m_rtStateObject.isSome = true := by
  unfold CreateRaytracingPipeline at h
  simp only [] at h
  split at h
  · cases h
  · cases h
    exact ⟨rfl, rfl, rfl, rfl, rfl, rfl, rfl⟩

/-- What `CreatePerInstanceConstantBuffers` leaves unchanged. -/
theorem CreatePerInstanceConstantBuffers_frame (q : DeviceQueries) (s t : App)
    (h : CreatePerInstanceConstantBuffers q s = .ok t) :
    t.m_commandQueue = s.m_commandQueue ∧
    t.m_commandList = s.m_commandList ∧
    t.m_device.descriptorWrites = s.m_device.descriptorWrites ∧
    t.m_device.sbtWrites = s.m_device.sbtWrites ∧
    t.m_topLevelASBuffers = s.m_topLevelASBuffers ∧
    t.m_srvUavHeap = s.m_srvUavHeap ∧
    t.m_rtStateObject = s.m_rtStateObject := by
  unfold CreatePerInstanceConstantBuffers at h
  split at h
  · cases h
  · cases h
    exact ⟨rfl, rfl, rfl, rfl, rfl, rfl, rfl⟩

/-- What `CreateRaytracingOutputBuffer` leaves unchanged. -/
theorem CreateRaytracingOutputBuffer_frame (q : DeviceQueries) (s t : App)
    (h : CreateRaytracingOutputBuffer q s = .ok t) :
    t.m_commandQueue = s.m_commandQueue ∧
    t.m_commandList = s.m_commandList ∧
    t.m_device.descriptorWrites = s.m_device.descriptorWrites ∧
    t.m_device.sbtWrites = s.m_device.sbtWrites ∧
    t.m_topLevelASBuffers = s.m_topLevelASBuffers ∧
    t.m_srvUavHeap = s.m_srvUavHeap ∧
    t.m_rtStateObject = s.m_rtStateObject := by
  unfold CreateRaytracingOutputBuffer at h
  split at h
  · cases h
  · cases h
    exact ⟨rfl, rfl, rfl, rfl, rfl, rfl, rfl⟩

/-- What `CreateCameraBuffer` leaves unchanged; it writes one constant-buffer view. -/
theorem CreateCameraBuffer_frame (q : DeviceQueries) (s : App) :
    (CreateCameraBuffer q s).m_commandQueue = s.m_commandQueue ∧
    (CreateCameraBuffer q s).m_commandList = s.m_commandList ∧
    (∃ handle location size, (CreateCameraBuffer q s).m_device.descriptorWrites =
      (handle, Descriptor.constantBufferView location size) :: s.m_device.descriptorWrites) ∧
    (CreateCameraBuffer q s).m_device.sbtWrites = s.m_device.sbtWrites ∧
    (CreateCameraBuffer q s).m_topLevelASBuffers = s.m_topLevelASBuffers ∧
    (CreateCameraBuffer q s).m_srvUavHeap = s.m_srvUavHeap ∧
    (CreateCameraBuffer q s).m_rtStateObject = s.m_rtStateObject :=
  ⟨rfl, rfl, ⟨_, _, _, rfl⟩, rfl, rfl, rfl, rfl⟩

/-- What `CreateShaderResourceHeap` leaves unchanged. -/
theorem CreateShaderResourceHeap_frame (q : DeviceQueries) (s : App) :
    (CreateShaderResourceHeap q s).m_commandQueue = s.m_commandQueue ∧
    (CreateShaderResourceHeap q s).m_commandList = s.m_commandList ∧
    (CreateShaderResourceHeap q s).m_device.sbtWrites = s.m_device.sbtWrites ∧
    (CreateShaderResourceHeap q s).m_topLevelASBuffers = s.m_topLevelASBuffers ∧
    (CreateShaderResourceHeap q s).m_rtStateObject = s.m_rtStateObject :=
  ⟨rfl, rfl, rfl, rfl, rfl⟩

/-- What `CreateShaderBindingTable` leaves unchanged; it writes the six records once. -/
theorem CreateShaderBindingTable_frame (q : DeviceQueries) (s t : App)
    (h : CreateShaderBindingTable q s = .ok t) :
    t.m_commandQueue = s.m_commandQueue ∧
    t.m_commandList = s.m_commandList ∧
    t.m_device.descriptorWrites = s.m_device.descriptorWrites ∧
    (∃ records, records.length = 6 ∧
      t.m_device.sbtWrites = (t.m_sbtStorage, records) :: s.m_device.sbtWrites) ∧
    t.m_topLevelASBuffers = s.m_topLevelASBuffers ∧
    t.m_srvUavHeap = s.m_srvUavHeap ∧
    t.m_rtStateObject = s.m_rtStateObject := by
  unfold CreateShaderBindingTable at h
  simp only [] at h
  split at h
  · cases h
  · cases h
    exact ⟨rfl, rfl, rfl,
      ⟨(ShaderBindingTableGenerator.ComputeSBTSize q (declareShaderBindingTable s.m_sbtHelper
          (q.gpuHandleForHeapStart s.m_srvUavHeap))).1.Generate, rfl, rfl⟩, rfl, rfl, rfl⟩

/-- Slot 1 of the heap after `CreateShaderResourceHeap`. -/
theorem CreateShaderResourceHeap_slot1 (q : DeviceQueries) (s : App)
    (hinc : 0 < q.descriptorIncrement) (hinc32 : q.descriptorIncrement < 4294967296)
    (hstart : ∀ h, q.cpuHandleForHeapStart h < 18446744073709551616) :
    (CreateShaderResourceHeap q s).srvUavSlot q 1 =
      some (.accelerationStructureView (q.gpuVA s.m_topLevelASBuffers.pResult)) := by
  obtain ⟨hh, -, hw⟩ := CreateShaderResourceHeap_writes q s
  obtain ⟨-, v1, -, n01, n02, n12⟩ :=
    slotHandle_values (q.cpuHandleForHeapStart (s.m_device.resources.length + 1))
      q.descriptorIncrement hinc hinc32 (hstart _)
  obtain ⟨-, e1, -⟩ := descriptorAt_three _ _ _ _ _ _ _ _ hw n01 n02 n12
  unfold App.srvUavSlot slotHandle
  rw [hh, v1]
  exact e1


/-- The eleven states `OnInit` goes through when it returns. -/
theorem OnInit_ok (q : DeviceQueries) (s t : App) (h : OnInit q s = .ok t) :
    ∃ a b d f g o c hp,
      LoadPipeline q s = .ok a ∧ LoadAssets q a = .ok b ∧
      CheckRaytracingSupport q b = .ok b ∧ CreateAccelerationStructures q b = .ok d ∧
      q.succeeded GpuCall.CommandListClose = true ∧
      CreateRaytracingPipeline q d = .ok f ∧ CreatePerInstanceConstantBuffers q f = .ok g ∧
      CreateRaytracingOutputBuffer q g = .ok o ∧ c = CreateCameraBuffer q o ∧
      hp = CreateShaderResourceHeap q c ∧ CreateShaderBindingTable q hp = .ok t := by
  unfold OnInit OnInitSteps at h
  obtain ⟨a, h1, h⟩ := runSteps_cons_ok _ _ _ _ _ h
  obtain ⟨b, h2, h⟩ := runSteps_cons_ok _ _ _ _ _ h
  obtain ⟨b', h3, h⟩ := runSteps_cons_ok _ _ _ _ _ h
  obtain ⟨d, h4, h⟩ := runSteps_cons_ok _ _ _ _ _ h
  obtain ⟨d', h5, h⟩ := runSteps_cons_ok _ _ _ _ _ h
  obtain ⟨f, h6, h⟩ := runSteps_cons_ok _ _ _ _ _ h
  obtain ⟨g, h7, h⟩ := runSteps_cons_ok _ _ _ _ _ h
  obtain ⟨o, h8, h⟩ := runSteps_cons_ok _ _ _ _ _ h
  obtain ⟨c, h9, h⟩ := runSteps_cons_ok _ _ _ _ _ h
  obtain ⟨hp, h10, h⟩ := runSteps_cons_ok _ _ _ _ _ h
  obtain ⟨t', h11, h⟩ := runSteps_cons_ok _ _ _ _ _ h
  have ht : t' = t := by
    unfold runSteps at h; cases h; rfl
  subst ht
  have e3 : b' = b := (CheckRaytracingSupport_ok q b b' h3).1
  subst e3
  have e5 : d' = d := CloseCommandList_ok q d d' h5
  subst e5
  have hclose : q.succeeded GpuCall.CommandListClose = true := by
    have h5' : (match ThrowIfFailed q GpuCall.CommandListClose with
      | .error e => Except.error e
      | .ok _ => Except.ok d') = Except.ok d' := h5
    unfold ThrowIfFailed at h5'
    by_cases hc : q.succeeded GpuCall.CommandListClose = true
    · exact hc
    · simp [hc] at h5'
  have e9 : c = CreateCameraBuffer q o := by
    have : Except.ok (CreateCameraBuffer q o) = Except.ok c := h9
    cases this; rfl
  have e10 : hp = CreateShaderResourceHeap q c := by
    have : Except.ok (CreateShaderResourceHeap q c) = Except.ok hp := h10
    cases this; rfl
  exact ⟨a, b', d', f, g, o, c, hp, h1, h2, h3, h4, hclose, h6, h7, h8, e9, e10, h11⟩

/-! ## C17: a device without ray tracing -/

/-- On a tier below 1.0 `CheckRaytracingSupport` throws; if the feature query itself
succeeded, it throws the runtime error. -/
theorem CheckRaytracingSupport_low (q : DeviceQueries) (s : App) (htier : q.raytracingTier < 10) :
    ∃ e, CheckRaytracingSupport q s = .error e ∧
      (q.succeeded GpuCall.CheckFeatureSupport = true →
        e = .runtime_error "Raytracing not supported on device") := by
  unfold CheckRaytracingSupport ThrowIfFailed
  by_cases hc : q.succeeded GpuCall.CheckFeatureSupport = true
  · simp [hc, htier]
  · simp [hc]

/-- C17: on a device whose ray-tracing tier is below 1.0, `OnInit` throws and the
only steps it enters are `LoadPipeline`, `LoadAssets` and `CheckRaytracingSupport`:
no acceleration-structure, pipeline, descriptor-table or SBT builder is entered. When
`LoadPipeline` and `LoadAssets` return and the feature query succeeds (the device
reports the tier), the error is "Raytracing not supported on device", thrown by the
third step. On every device that reports a tier of at least 1.0,
`CheckRaytracingSupport` returns. -/
theorem OnInit_unsupported_device (q : DeviceQueries) (s : App) (htier : q.raytracingTier < 10) :
    (∃ e, OnInit q s = .error e) ∧
    (∀ step ∈ stepsStarted q OnInitSteps s,
      step = .LoadPipeline ∨ step = .LoadAssets ∨ step = .CheckRaytracingSupport) ∧
    (∀ m, runSteps q [.LoadPipeline, .LoadAssets] s = .ok m →
      q.succeeded GpuCall.CheckFeatureSupport = true →
      OnInit q s = .error (.runtime_error "Raytracing not supported on device") ∧
      stepsStarted q OnInitSteps s = [.LoadPipeline, .LoadAssets, .CheckRaytracingSupport]) ∧
    (∀ (q2 : DeviceQueries) (s2 : App), 10 ≤ q2.raytracingTier →
      q2.succeeded GpuCall.CheckFeatureSupport = true → CheckRaytracingSupport q2 s2 = .ok s2) := by
  have key : ∀ b : App, ∃ e, InitStep.CheckRaytracingSupport.run q b = .error e ∧
      (q.succeeded GpuCall.CheckFeatureSupport = true →
        e = .runtime_error "Raytracing not supported on device") :=
    fun b => CheckRaytracingSupport_low q b htier
  refine ⟨?_, ?_, ?_, ?_⟩
  · unfold OnInit OnInitSteps
    simp only [runSteps]
    cases h1 : InitStep.LoadPipeline.run q s with
    | error e => exact ⟨e, rfl⟩
    | ok a =>
      simp only []
      cases h2 : InitStep.LoadAssets.run q a with
      | error e => exact ⟨e, rfl⟩
      | ok b =>
        obtain ⟨e, he, -⟩ := key b
        simp only [he]
        exact ⟨e, rfl⟩
  · unfold OnInitSteps
    simp only [stepsStarted]
    cases h1 : InitStep.LoadPipeline.run q s with
    | error e => simp
    | ok a =>
      simp only []
      cases h2 : InitStep.LoadAssets.run q a with
      | error e => simp
      | ok b =>
        obtain ⟨e, he, -⟩ := key b
        simp [he]
  · intro m hm hc
    unfold OnInit OnInitSteps
    simp only [runSteps, stepsStarted] at hm ⊢
    cases h1 : InitStep.LoadPipeline.run q s with
    | error e => rw [h1] at hm; cases hm
    | ok a =>
      rw [h1] at hm
      simp only [] at hm ⊢
      cases h2 : InitStep.LoadAssets.run q a with
      | error e => rw [h2] at hm; cases hm
      | ok b =>
        obtain ⟨e, he, hmsg⟩ := key b
        have hmsg2 := hmsg hc
        subst hmsg2
        simp [he]
  · intro q2 s2 ht hc
    unfold CheckRaytracingSupport ThrowIfFailed
    have : ¬ q2.raytracingTier < 10 := by omega
    simp [hc, this]

/-- Witness for C17: the example device reporting tier 0, from the freshly constructed
application. -/
theorem OnInit_unsupported_device_witness :
    unsupportedQueries.raytracingTier < 10 ∧
    OnInit unsupportedQueries freshApp =
      .error (.runtime_error "Raytracing not supported on device") ∧
    stepsStarted unsupportedQueries OnInitSteps freshApp =
      [.LoadPipeline, .LoadAssets, .CheckRaytracingSupport] :=
  ⟨by decide,
   (OnInit_unsupported_device unsupportedQueries freshApp (by decide)).2.2.1
     (orElse (runSteps unsupportedQueries [.LoadPipeline, .LoadAssets] freshApp) freshApp)
     rfl rfl⟩

/-! ## C18: failing GPU calls in `CreateAccelerationStructures` -/

/-- C18 (the code diverges): `CreateAccelerationStructures` looks at the result of
`Reset` only. Whenever `Reset` succeeds it returns, having executed the command list,
advanced and signalled the fence value, registered the event, waited, and assigned
`m_bottomLevelAS`, whatever `Close`, `Signal` and `SetEventOnCompletion` returned;
on the example device with these three calls failing it returns with all later steps
performed. -/
theorem CreateAccelerationStructures_ignores_failed_calls :
    (∀ (q : DeviceQueries) (s : App), q.succeeded GpuCall.CommandListReset = true →
      ∃ s1, CreateAccelerationStructures q s = .ok s1 ∧
        ∃ cmds, s1.m_commandQueue = s.m_commandQueue ++
          [QueueOp.ExecuteCommandLists cmds, QueueOp.Signal (toSizeT (s.m_fenceValue + 1)),
           QueueOp.SetEventOnCompletion (toSizeT (s.m_fenceValue + 1)),
           QueueOp.WaitForSingleObject] ∧
        s1.m_fenceValue = toSizeT (s.m_fenceValue + 1) ∧
        s1.m_bottomLevelAS = s.m_device.resources.length + 2) ∧
    failingSyncQueries.succeeded GpuCall.CommandListClose = false ∧
    failingSyncQueries.succeeded GpuCall.QueueSignal = false ∧
    failingSyncQueries.succeeded GpuCall.FenceSetEventOnCompletion = false ∧
    failingSyncQueries.succeeded GpuCall.CommandListReset = true ∧
    (∃ s1 cmds, CreateAccelerationStructures failingSyncQueries loadedApp = .ok s1 ∧
      s1.m_commandQueue =
        [QueueOp.ExecuteCommandLists cmds, QueueOp.Signal 3, QueueOp.SetEventOnCompletion 3,
         QueueOp.WaitForSingleObject] ∧
      s1.m_fenceValue = 3 ∧ s1.m_bottomLevelAS = 6) := by
  refine ⟨?_, rfl, rfl, rfl, rfl, ?_⟩
  · intro q s hr
    have hok : ∃ s1, CreateAccelerationStructures q s = .ok s1 := by
      unfold CreateAccelerationStructures ThrowIfFailed
      simp only [hr, if_true]
      exact ⟨_, rfl⟩
    obtain ⟨s1, h1⟩ := hok
    obtain ⟨-, hb, hq, -⟩ := CreateAccelerationStructures_scene q s s1 h1
    refine ⟨s1, h1, _, hq, ?_, hb⟩
    unfold CreateAccelerationStructures at h1
    simp only [] at h1
    split at h1
    · cases h1
    · cases h1
      simp [CreateTopLevelAS, CreateBottomLevelAS]
  · exact ⟨_, _, rfl, rfl, rfl, rfl⟩

/-! ## C19: the TLAS reference in the descriptor heap -/

/-- The full builds of a queue followed by another. -/
theorem fullBuildResults_append (a b : List QueueOp) :
    fullBuildResults (a ++ b) = fullBuildResults a ++ fullBuildResults b := by
  unfold fullBuildResults
  exact List.flatMap_append _ _ _

/-- What `PopulateCommandList` leaves unchanged; the list it records holds no full top-level build. -/
theorem PopulateCommandList_frame (q : DeviceQueries) (s p : App)
    (h : PopulateCommandList q s = .ok p) :
    p.m_commandQueue = s.m_commandQueue ∧
    p.m_device.descriptorWrites = s.m_device.descriptorWrites ∧
    p.m_srvUavHeap = s.m_srvUavHeap ∧
    p.m_topLevelASBuffers = s.m_topLevelASBuffers ∧
    p.m_swapChainPresents = s.m_swapChainPresents ∧
    p.m_commandList.filterMap Cmd.fullBuildResult = [] := by
  unfold PopulateCommandList at h
  split at h
  · cases h
  · split at h
    · cases h
    · by_cases hr : s.m_raster = true
      · simp only [hr, if_true] at h
        split at h
        · cases h
        · cases h
          exact ⟨rfl, rfl, rfl, rfl, rfl, rfl⟩
      · have hr2 : s.m_raster = false := by simpa using hr
        simp only [hr2] at h
        split at h
        · cases h
        · cases h
          exact ⟨rfl, rfl, rfl, rfl, rfl, rfl⟩

/-- A frame writes no descriptor, keeps the heap and the top-level buffers, and submits no full top-level build. -/
theorem OnRender_frame (q : DeviceQueries) (s t : App) (h : OnRender q s = .ok t) :
    t.m_device.descriptorWrites = s.m_device.descriptorWrites ∧
    t.m_srvUavHeap = s.m_srvUavHeap ∧
    t.m_topLevelASBuffers = s.m_topLevelASBuffers ∧
    fullBuildResults t.m_commandQueue = fullBuildResults s.m_commandQueue := by
  unfold OnRender at h
  split at h
  · cases h
  · rename_i p hp
    obtain ⟨pq, pd, ph, pb, -, pc⟩ := PopulateCommandList_frame q s p hp
    simp only [] at h
    split at h
    · cases h
    · obtain ⟨hq, -, -, hd, hb, hh, -⟩ := WaitForPreviousFrame_ok q _ t h
      refine ⟨?_, ?_, ?_, ?_⟩
      · rw [hd]; exact pd
      · rw [hh]; exact ph
      · rw [hb]; exact pb
      · have e : fullBuildResults [QueueOp.ExecuteCommandLists p.m_commandList] = [] := by
          simp [fullBuildResults, pc]
        rcases hq with hq | hq
        · rw [hq]
          simp only [fullBuildResults_append, e, pq]
          simp [fullBuildResults]
        · rw [hq]
          simp only [fullBuildResults_append, e, pq]
          simp [fullBuildResults]

/-- What `OnUpdate` leaves unchanged. -/
theorem OnUpdate_frame (q : DeviceQueries) (s t : App) (h : OnUpdate q s = .ok t) :
    t.m_device = s.m_device ∧
    t.m_srvUavHeap = s.m_srvUavHeap ∧
    t.m_topLevelASBuffers = s.m_topLevelASBuffers ∧
    t.m_commandQueue = s.m_commandQueue := by
  unfold OnUpdate at h
  simp only [] at h
  split at h
  · cases h
  · split at h
    · cases h
    · cases h
      exact ⟨rfl, rfl, rfl, rfl⟩

/-- What `OnKeyUp` leaves unchanged. -/
theorem OnKeyUp_frame (s : App) (key : Nat) :
    (OnKeyUp s key).m_device = s.m_device ∧
    (OnKeyUp s key).m_srvUavHeap = s.m_srvUavHeap ∧
    (OnKeyUp s key).m_topLevelASBuffers = s.m_topLevelASBuffers ∧
    (OnKeyUp s key).m_commandQueue = s.m_commandQueue := by
  unfold OnKeyUp
  split <;> exact ⟨rfl, rfl, rfl, rfl⟩

/-- No call after `OnInit` writes a descriptor, changes the heap or the top-level buffers, or submits a full top-level build. -/
theorem Action_frame (q : DeviceQueries) (a : Action) (s t : App) (h : a.run q s = .ok t) :
    t.m_device.descriptorWrites = s.m_device.descriptorWrites ∧
    t.m_srvUavHeap = s.m_srvUavHeap ∧
    t.m_topLevelASBuffers = s.m_topLevelASBuffers ∧
    fullBuildResults t.m_commandQueue = fullBuildResults s.m_commandQueue := by
  cases a with
  | OnUpdate =>
    obtain ⟨h1, h2, h3, h4⟩ := OnUpdate_frame q s t h
    exact ⟨by rw [h1], h2, h3, by rw [h4]⟩
  | OnKeyUp key =>
    have e : Except.ok (OnKeyUp s key) = Except.ok t := h
    cases e
    obtain ⟨h1, h2, h3, h4⟩ := OnKeyUp_frame s key
    exact ⟨by rw [h1], h2, h3, by rw [h4]⟩
  | OnRender => exact OnRender_frame q s t h

/-- No sequence of calls after `OnInit` does. -/
theorem runActions_frame (q : DeviceQueries) (acts : List Action) (s t : App)
    (h : runActions q acts s = .ok t) :
    t.m_device.descriptorWrites = s.m_device.descriptorWrites ∧
    t.m_srvUavHeap = s.m_srvUavHeap ∧
    t.m_topLevelASBuffers = s.m_topLevelASBuffers ∧
    fullBuildResults t.m_commandQueue = fullBuildResults s.m_commandQueue := by
  induction acts generalizing s with
  | nil =>
    unfold runActions at h
    cases h
    exact ⟨rfl, rfl, rfl, rfl⟩
  | cons a rest ih =>
    obtain ⟨m, hm, hrest⟩ := runActions_cons_ok q a rest s t h
    obtain ⟨a1, a2, a3, a4⟩ := Action_frame q a s m hm
    obtain ⟨b1, b2, b3, b4⟩ := ih m hrest
    exact ⟨b1.trans a1, b2.trans a2, b3.trans a3, b4.trans a4⟩

/-- After `OnInit`, slot 1 holds the address of the result buffer of the one full top-level build submitted. -/
theorem OnInit_tlas (q : DeviceQueries) (s t : App)
    (hinc : 0 < q.descriptorIncrement) (hinc32 : q.descriptorIncrement < 4294967296)
    (hstart : ∀ h, q.cpuHandleForHeapStart h < 18446744073709551616)
    (h : OnInit q s = .ok t) :
    t.srvUavSlot q 1 = some (.accelerationStructureView (q.gpuVA t.m_topLevelASBuffers.pResult)) ∧
    fullBuildResults t.m_commandQueue = [t.m_topLevelASBuffers.pResult] := by
  obtain ⟨a, b, d, f, g, o, c, hp, h1, h2, -, h4, -, h6, h7, h8, e9, e10, h11⟩ := OnInit_ok q s t h
  obtain ⟨aq, -, -⟩ := LoadPipeline_ok q s a h1
  obtain ⟨bq, -, bc, -, -⟩ := LoadAssets_ok q a b h2
  obtain ⟨-, -, dq, -⟩ := CreateAccelerationStructures_scene q b d h4
  obtain ⟨-, -, dr, -, -⟩ := CreateAccelerationStructures_frame q b d h4
  obtain ⟨fq, -, -, -, fb, -, -⟩ := CreateRaytracingPipeline_frame q d f h6
  obtain ⟨gq, -, -, -, gb, -, -⟩ := CreatePerInstanceConstantBuffers_frame q f g h7
  obtain ⟨oq, -, -, -, ob, -, -⟩ := CreateRaytracingOutputBuffer_frame q g o h8
  obtain ⟨cq, -, -, -, cb, -, -⟩ := CreateCameraBuffer_frame q o
  obtain ⟨pq, -, -, pb, -⟩ := CreateShaderResourceHeap_frame q c
  obtain ⟨tq, -, td, -, tb, th, -⟩ := CreateShaderBindingTable_frame q hp t h11
  have hslot := CreateShaderResourceHeap_slot1 q c hinc hinc32 hstart
  rw [← e9] at cq cb
  rw [← e10] at pq pb hslot
  have hbuf : t.m_topLevelASBuffers = d.m_topLevelASBuffers := by
    rw [tb, pb, cb, ob, gb, fb]
  have hqueue : t.m_commandQueue = d.m_commandQueue := by
    rw [tq, pq, cq, oq, gq, fq]
  refine ⟨?_, ?_⟩
  · have : t.srvUavSlot q 1 = hp.srvUavSlot q 1 := by
      unfold App.srvUavSlot Device.descriptorAt
      rw [td, th]
    rw [this, hslot, tb, pb]
  · rw [hqueue, hbuf, dr, dq, bc, aq] at *
    rcases bq with bq | bq
    · rw [bq]
      simp [fullBuildResults, Cmd.fullBuildResult]
    · rw [bq]
      simp [fullBuildResults, Cmd.fullBuildResult]

/-- C19: in every state reached by `OnInit` followed by any sequence of `OnUpdate`,
`OnKeyUp` and `OnRender` calls that return, descriptor slot 1 of `m_srvUavHeap` holds
the GPU address of the result buffer of the most recent full top-level build submitted
to the queue, which is the buffer `m_topLevelASBuffers.pResult` (the frames only refit).
The device's descriptor increment is a nonzero `UINT` and its CPU handles are `SIZE_T`
values. -/
theorem tlas_descriptor_tracks_last_full_build (q : DeviceQueries) (s0 s1 t : App)
    (acts : List Action)
    (hinc : 0 < q.descriptorIncrement) (hinc32 : q.descriptorIncrement < 4294967296)
    (hstart : ∀ h, q.cpuHandleForHeapStart h < 18446744073709551616)
    (hinit : OnInit q s0 = .ok s1) (hrun : runActions q acts s1 = .ok t) :
    ∃ result, (fullBuildResults t.m_commandQueue).getLast? = some result ∧
      t.m_topLevelASBuffers.pResult = result ∧
      t.srvUavSlot q 1 = some (.accelerationStructureView (q.gpuVA result)) := by
  obtain ⟨i1, i2⟩ := OnInit_tlas q s0 s1 hinc hinc32 hstart hinit
  obtain ⟨r1, r2, r3, r4⟩ := runActions_frame q acts s1 t hrun
  refine ⟨t.m_topLevelASBuffers.pResult, ?_, rfl, ?_⟩
  · rw [r4, i2, r3]; rfl
  · have : t.srvUavSlot q 1 = s1.srvUavSlot q 1 := by
      unfold App.srvUavSlot Device.descriptorAt
      rw [r1, r2]
    rw [this, i1, r3]

/-- Witness for C19: `OnInit` on the example device, then the space key, an update
and two frames; slot 1 holds the address of resource 13, the result buffer of the
full build. -/
theorem tlas_descriptor_tracks_last_full_build_witness :
    OnInit exampleQueries freshApp = .ok exampleOnInit ∧
    runActions exampleQueries exampleActions exampleOnInit = .ok exampleAfterFrames ∧
    fullBuildResults exampleAfterFrames.m_commandQueue = [13] ∧
    ∃ result, (fullBuildResults exampleAfterFrames.m_commandQueue).getLast? = some result ∧
      exampleAfterFrames.m_topLevelASBuffers.pResult = result ∧
      exampleAfterFrames.srvUavSlot exampleQueries 1 =
        some (.accelerationStructureView (exampleQueries.gpuVA result)) :=
  ⟨rfl, rfl, rfl,
   tlas_descriptor_tracks_last_full_build exampleQueries freshApp exampleOnInit
     exampleAfterFrames exampleActions (by decide) (by decide) exampleQueries_cpuHandle_bound
     rfl rfl⟩

/-! ## C20: the order of the steps of `OnInit` -/

/-- C20: when `OnInit` returns, with `b`, `d`, `c`, `hp` the states after its first 3,
4, 9 and 10 steps: `CreateAccelerationStructures` (step 4) submits one command list in
which the two bottom-level builds (cube, plane) come before the full top-level build,
then signals the fence, registers the event and waits; up to `CreateCameraBuffer`
(step 9) nothing more is submitted and no descriptor written refers to an acceleration
structure; `CreateShaderResourceHeap` (step 10) writes the descriptor with the address
of the top-level result buffer; at that point the pipeline state object exists and no
shader binding table has been written; `CreateShaderBindingTable` (step 11) writes the
six records once; and no `DispatchRays` is in the open command list or in any list
submitted during `OnInit`. -/
theorem OnInit_order (q : DeviceQueries) (s t : App) (h : OnInit q s = .ok t) :
    ∃ b d c hp : App,
      runSteps q (OnInitSteps.take 3) s = .ok b ∧
      runSteps q (OnInitSteps.take 4) s = .ok d ∧
      runSteps q (OnInitSteps.take 9) s = .ok c ∧
      runSteps q (OnInitSteps.take 10) s = .ok hp ∧
      d.m_commandQueue = b.m_commandQueue ++
        [QueueOp.ExecuteCommandLists
          [Cmd.buildBLAS [.nonIndexed b.m_CubeBuffer 0 36 sizeofVertex 0 0]
             (b.m_device.resources.length + 1) (b.m_device.resources.length + 2) false 0,
           Cmd.uavBarrier (b.m_device.resources.length + 2),
           Cmd.buildBLAS [.nonIndexed b.m_planeBuffer 0 6 sizeofVertex 0 0]
             (b.m_device.resources.length + 3) (b.m_device.resources.length + 4) false 0,
           Cmd.uavBarrier (b.m_device.resources.length + 4),
           Cmd.buildTLAS (b.m_device.resources.length + 5) (b.m_device.resources.length + 6)
             (b.m_device.resources.length + 7) (b.m_topLevelASGenerator.instances.length + 2)
             false (b.m_device.resources.length + 6),
           Cmd.uavBarrier (b.m_device.resources.length + 6)],
         QueueOp.Signal (toSizeT (b.m_fenceValue + 1)),
         QueueOp.SetEventOnCompletion (toSizeT (b.m_fenceValue + 1)),
         QueueOp.WaitForSingleObject] ∧
      d.m_topLevelASBuffers.pResult = b.m_device.resources.length + 6 ∧
      c.m_commandQueue = d.m_commandQueue ∧
      (∀ w ∈ c.m_device.descriptorWrites, ∀ address,
        w.2 ≠ Descriptor.accelerationStructureView address) ∧
      (∃ handle, (handle, Descriptor.accelerationStructureView
        (q.gpuVA d.m_topLevelASBuffers.pResult)) ∈ hp.m_device.descriptorWrites) ∧
      hp.m_rtStateObject.isSome = true ∧
      hp.m_device.sbtWrites = [] ∧
      (∃ records, records.length = 6 ∧ t.m_device.sbtWrites = [(t.m_sbtStorage, records)]) ∧
      (∀ cmd ∈ t.m_commandList, cmd.isDispatch = false) ∧
      (∀ cmds, QueueOp.ExecuteCommandLists cmds ∈ t.m_commandQueue →
        ∀ cmd ∈ cmds, cmd.isDispatch = false) := by
  obtain ⟨a, b, d, f, g, o, c, hp, h1, h2, h3, h4, h5, h6, h7, h8, e9, e10, h11⟩ :=
    OnInit_ok q s t h
  obtain ⟨aq, ad, as⟩ := LoadPipeline_ok q s a h1
  obtain ⟨bq, -, bc, bd, bs⟩ := LoadAssets_ok q a b h2
  obtain ⟨-, -, dq, dc⟩ := CreateAccelerationStructures_scene q b d h4
  obtain ⟨dd, ds, dr, -, -⟩ := CreateAccelerationStructures_frame q b d h4
  obtain ⟨fq, fc, fd, fs, fb, -, fr⟩ := CreateRaytracingPipeline_frame q d f h6
  obtain ⟨gq, gc, gd, gs, gb, -, gr⟩ := CreatePerInstanceConstantBuffers_frame q f g h7
  obtain ⟨oq, oc, od, os, ob, -, or⟩ := CreateRaytracingOutputBuffer_frame q g o h8
  obtain ⟨cq, cc, ⟨handle, location, size, cd⟩, cs, cb, -, cr⟩ := CreateCameraBuffer_frame q o
  obtain ⟨pq, pc, ps, pb, pr⟩ := CreateShaderResourceHeap_frame q c
  obtain ⟨-, -, pw⟩ := CreateShaderResourceHeap_writes q c
  obtain ⟨tq, tc, -, ⟨records, rl, ts⟩, -, -, -⟩ := CreateShaderBindingTable_frame q hp t h11
  rw [← e9] at cq cc cd cs cb cr
  rw [← e10] at pq pc ps pb pr pw
  have hclose : InitStep.CloseCommandList.run q d = .ok d := by
    show (match ThrowIfFailed q GpuCall.CommandListClose with
      | .error e => Except.error e
      | .ok _ => Except.ok d) = Except.ok d
    unfold ThrowIfFailed
    simp [h5]
  have r3 : runSteps q (OnInitSteps.take 3) s = .ok b := by
    show runSteps q [.LoadPipeline, .LoadAssets, .CheckRaytracingSupport] s = .ok b
    simp only [runSteps, InitStep.run, h1, h2, h3]
  have r4 : runSteps q (OnInitSteps.take 4) s = .ok d := by
    show runSteps q [.LoadPipeline, .LoadAssets, .CheckRaytracingSupport,
      .CreateAccelerationStructures] s = .ok d
    simp only [runSteps, InitStep.run, h1, h2, h3, h4]
  have r9 : runSteps q (OnInitSteps.take 9) s = .ok c := by
    show runSteps q [.LoadPipeline, .LoadAssets, .CheckRaytracingSupport,
      .CreateAccelerationStructures, .CloseCommandList, .CreateRaytracingPipeline,
      .CreatePerInstanceConstantBuffers, .CreateRaytracingOutputBuffer,
      .CreateCameraBuffer] s = .ok c
    unfold runSteps; rw [show InitStep.LoadPipeline.run q s = .ok a from h1]
    unfold runSteps; rw [show InitStep.LoadAssets.run q a = .ok b from h2]
    unfold runSteps; rw [show InitStep.CheckRaytracingSupport.run q b = .ok b from h3]
    unfold runSteps; rw [show InitStep.CreateAccelerationStructures.run q b = .ok d from h4]
    unfold runSteps; rw [hclose]
    unfold runSteps; rw [show InitStep.CreateRaytracingPipeline.run q d = .ok f from h6]
    unfold runSteps; rw [show InitStep.CreatePerInstanceConstantBuffers.run q f = .ok g from h7]
    unfold runSteps; rw [show InitStep.CreateRaytracingOutputBuffer.run q g = .ok o from h8]
    unfold runSteps; rw [show InitStep.CreateCameraBuffer.run q o = .ok c from by rw [e9]; rfl]
    rfl
  have r10 : runSteps q (OnInitSteps.take 10) s = .ok hp := by
    show runSteps q [.LoadPipeline, .LoadAssets, .CheckRaytracingSupport,
      .CreateAccelerationStructures, .CloseCommandList, .CreateRaytracingPipeline,
      .CreatePerInstanceConstantBuffers, .CreateRaytracingOutputBuffer,
      .CreateCameraBuffer, .CreateShaderResourceHeap] s = .ok hp
    unfold runSteps; rw [show InitStep.LoadPipeline.run q s = .ok a from h1]
    unfold runSteps; rw [show InitStep.LoadAssets.run q a = .ok b from h2]
    unfold runSteps; rw [show InitStep.CheckRaytracingSupport.run q b = .ok b from h3]
    unfold runSteps; rw [show InitStep.CreateAccelerationStructures.run q b = .ok d from h4]
    unfold runSteps; rw [hclose]
    unfold runSteps; rw [show InitStep.CreateRaytracingPipeline.run q d = .ok f from h6]
    unfold runSteps; rw [show InitStep.CreatePerInstanceConstantBuffers.run q f = .ok g from h7]
    unfold runSteps; rw [show InitStep.CreateRaytracingOutputBuffer.run q g = .ok o from h8]
    unfold runSteps; rw [show InitStep.CreateCameraBuffer.run q o = .ok c from by rw [e9]; rfl]
    unfold runSteps; rw [show InitStep.CreateShaderResourceHeap.run q c = .ok hp from by rw [e10]; rfl]
    rfl
  have hq9 : c.m_commandQueue = d.m_commandQueue := by rw [cq, oq, gq, fq]
  have hd0 : o.m_device.descriptorWrites = [] := by rw [od, gd, fd, dd, bd, ad]
  have hs0 : hp.m_device.sbtWrites = [] := by rw [ps, cs, os, gs, fs, ds, bs, as]
  have hb9 : c.m_topLevelASBuffers = d.m_topLevelASBuffers := by rw [cb, ob, gb, fb]
  refine ⟨b, d, c, hp, r3, r4, r9, r10, ?_, dr, hq9, ?_, ?_, ?_, hs0, ?_, ?_, ?_⟩
  · rw [dq, bc]; rfl
  · intro w hw address
    rw [cd, hd0] at hw
    simp only [List.mem_singleton] at hw
    rw [hw]
    simp
  · refine ⟨toSizeT (q.cpuHandleForHeapStart (c.m_device.resources.length + 1) +
      q.descriptorIncrement), ?_⟩
    rw [pw, hb9]
    simp
  · rw [pr, cr, or, gr]; exact fr
  · exact ⟨records, rl, by rw [ts, hs0]⟩
  · rw [tc, pc, cc, oc, gc, fc, dc]
    simp
  · intro cmds hm cmd hcmd
    rw [tq, pq, hq9, dq, bc] at hm
    rcases bq with bq | bq
    · rw [bq, aq] at hm
      simp at hm
      subst hm
      simp at hcmd
      rcases hcmd with e | e | e | e | e | e <;> subst e <;> rfl
    · rw [bq, aq] at hm
      simp at hm
      subst hm
      simp at hcmd
      rcases hcmd with e | e | e | e | e | e <;> subst e <;> rfl

/-- Witness for C20: `OnInit` on the example device returns. -/
theorem OnInit_order_witness :
    OnInit exampleQueries freshApp = .ok exampleOnInit ∧
    (∃ records, records.length = 6 ∧
      exampleOnInit.m_device.sbtWrites = [(exampleOnInit.m_sbtStorage, records)]) ∧
    (∀ cmds, QueueOp.ExecuteCommandLists cmds ∈ exampleOnInit.m_commandQueue →
        ∀ cmd ∈ cmds, cmd.isDispatch = false) := by
  obtain ⟨_, _, _, _, -, -, -, -, -, -, -, -, -, -, -, h1, -, h2⟩ :=
    OnInit_order exampleQueries freshApp exampleOnInit rfl
  exact ⟨rfl, h1, h2⟩

/-! ## Where the resources are: layout lemmas -/

/-- A handle the device gave out keeps its description when more is allocated. -/
theorem descOf_extended (d d2 : Device) (extra : List ResourceDesc)
    (h : d2.resources = d.resources ++ extra) (r : Resource) (x : ResourceDesc)
    (hx : d.descOf r = some x) : d2.descOf r = some x := by
  unfold Device.descOf at hx ⊢
  by_cases hr : r = 0
  · simp [hr] at hx
  · simp only [hr, if_false] at hx ⊢
    rw [h]
    rw [List.get?_eq_getElem?] at hx ⊢
    have hlt : r - 1 < d.resources.length := by
      by_contra hge
      push_neg at hge
      rw [List.getElem?_eq_none hge] at hx
      cases hx
    rw [List.getElem?_append_left hlt]
    exact hx

/-- The handle of the last allocation names what was allocated. -/
theorem descOf_last (d : Device) (old : List ResourceDesc) (x : ResourceDesc)
    (h : d.resources = old ++ [x]) : d.descOf (old.length + 1) = some x := by
  have := descOf_appended d old [x] h 0
  simpa using this

/-- Where `LoadPipeline` leaves the back buffers: handles 2 and 3, created in the present
state with the window size. -/
theorem LoadPipeline_layout (q : DeviceQueries) (s t : App) (h : LoadPipeline q s = .ok t) :
    t.m_width = s.m_width ∧ t.m_height = s.m_height ∧
    t.m_device.resources.length = 5 ∧
    t.m_renderTargets = [2, 3] ∧
    t.m_device.descOf 2 = some (.texture2D s.m_width s.m_height ResourceFlag.NONE
      ResourceState.PRESENT HeapProps.kDefaultHeapProps) ∧
    t.m_device.descOf 3 = some (.texture2D s.m_width s.m_height ResourceFlag.NONE
      ResourceState.PRESENT HeapProps.kDefaultHeapProps) ∧
    t.m_frameIndex = q.currentBackBufferIndex 0 := by
  unfold LoadPipeline at h
  split at h
  · cases h
  · cases h
    exact ⟨rfl, rfl, rfl, rfl, rfl, rfl, rfl⟩

/-- What `WaitForPreviousFrame` leaves unchanged; the frame index is read from the swap
chain. -/
theorem WaitForPreviousFrame_layout (q : DeviceQueries) (s t : App)
    (h : WaitForPreviousFrame q s = .ok t) :
    t.m_width = s.m_width ∧ t.m_height = s.m_height ∧
    t.m_device = s.m_device ∧
    t.m_renderTargets = s.m_renderTargets ∧
    t.m_outputResource = s.m_outputResource ∧
    t.m_raster = s.m_raster ∧
    t.m_frameIndex = q.currentBackBufferIndex s.m_swapChainPresents := by
  unfold WaitForPreviousFrame at h
  simp only [] at h
  split at h
  · cases h
  · split at h
    · cases h
      exact ⟨rfl, rfl, rfl, rfl, rfl, rfl, rfl⟩
    · split at h
      · cases h
      · cases h
        exact ⟨rfl, rfl, rfl, rfl, rfl, rfl, rfl⟩

/-- What `LoadAssets` leaves unchanged; the device only gains resources. -/
theorem LoadAssets_layout (q : DeviceQueries) (s t : App) (h : LoadAssets q s = .ok t) :
    t.m_width = s.m_width ∧ t.m_height = s.m_height ∧
    (∃ extra, t.m_device.resources = s.m_device.resources ++ extra) ∧
    t.m_renderTargets = s.m_renderTargets ∧
    t.m_frameIndex = q.currentBackBufferIndex s.m_swapChainPresents := by
  unfold LoadAssets at h
  split at h
  · cases h
  · obtain ⟨h1, h2, h3, h4, -, -, h7⟩ := WaitForPreviousFrame_layout q _ t h
    refine ⟨h1, h2, ⟨[.buffer ⟨6 * sizeofVertex, ResourceFlag.NONE,
      ResourceState.GENERIC_READ, HeapProps.kUploadHeapProps⟩, .buffer ⟨36 * sizeofVertex,
      ResourceFlag.NONE, ResourceState.GENERIC_READ, HeapProps.kUploadHeapProps⟩], ?_⟩, h4, h7⟩
    rw [h3]
    simp only [Device.allocate]
    exact List.append_assoc _ _ _

/-- What `CreateAccelerationStructures` leaves unchanged; the device only gains resources
and the fence value advances by one. -/
theorem CreateAccelerationStructures_layout (q : DeviceQueries) (s t : App)
    (h : CreateAccelerationStructures q s = .ok t) :
    t.m_width = s.m_width ∧ t.m_height = s.m_height ∧
    (∃ extra, t.m_device.resources = s.m_device.resources ++ extra) ∧
    t.m_renderTargets = s.m_renderTargets ∧
    t.m_fenceValue = toSizeT (s.m_fenceValue + 1) ∧
    t.m_frameIndex = s.m_frameIndex := by
  unfold CreateAccelerationStructures at h
  simp only [] at h
  split at h
  · cases h
  · cases h
    refine ⟨?_, ?_, ?_, ?_, ?_, ?_⟩
    · simp [CreateTopLevelAS, CreateBottomLevelAS]
    · simp [CreateTopLevelAS, CreateBottomLevelAS]
    · apply Exists.intro
      simp only [CreateTopLevelAS, CreateBottomLevelAS, CreateBuffer, Device.allocate,
        Bool.not_false, if_true, List.append_assoc]
      rfl
    · simp [CreateTopLevelAS, CreateBottomLevelAS]
    · simp [CreateTopLevelAS, CreateBottomLevelAS]
    · simp [CreateTopLevelAS, CreateBottomLevelAS]

/-- What `CreateRaytracingPipeline` leaves unchanged; it allocates no resource. -/
theorem CreateRaytracingPipeline_layout (q : DeviceQueries) (s t : App)
    (h : CreateRaytracingPipeline q s = .ok t) :
    t.m_width = s.m_width ∧ t.m_height = s.m_height ∧
    t.m_device.resources = s.m_device.resources ∧
    t.m_renderTargets = s.m_renderTargets ∧
    t.m_fenceValue = s.m_fenceValue ∧
    t.m_frameIndex = s.m_frameIndex := by
  unfold CreateRaytracingPipeline at h
  simp only [] at h
  split at h
  · cases h
  · cases h
    exact ⟨rfl, rfl, rfl, rfl, rfl, rfl⟩

/-- What `CreatePerInstanceConstantBuffers` leaves unchanged; the device only gains
resources. -/
theorem CreatePerInstanceConstantBuffers_layout (q : DeviceQueries) (s t : App)
    (h : CreatePerInstanceConstantBuffers q s = .ok t) :
    t.m_width = s.m_width ∧ t.m_height = s.m_height ∧
    (∃ extra, t.m_device.resources = s.m_device.resources ++ extra) ∧
    t.m_renderTargets = s.m_renderTargets ∧
    t.m_fenceValue = s.m_fenceValue ∧
    t.m_frameIndex = s.m_frameIndex := by
  unfold CreatePerInstanceConstantBuffers at h
  split at h
  · cases h
  · cases h
    refine ⟨rfl, rfl, ?_, rfl, rfl, rfl⟩
    apply Exists.intro
    simp only [CreateBuffer, Device.allocate, List.append_assoc]
    rfl

/-- The output image is one new texture of the window size, created in the copy-source state. -/
theorem CreateRaytracingOutputBuffer_layout (q : DeviceQueries) (s t : App)
    (h : CreateRaytracingOutputBuffer q s = .ok t) :
    t.m_width = s.m_width ∧ t.m_height = s.m_height ∧
    t.m_device.resources = s.m_device.resources ++ [.texture2D s.m_width s.m_height
      ResourceFlag.ALLOW_UNORDERED_ACCESS ResourceState.COPY_SOURCE
      HeapProps.kDefaultHeapProps] ∧
    t.m_outputResource = s.m_device.resources.length + 1 ∧
    t.m_renderTargets = s.m_renderTargets ∧
    t.m_fenceValue = s.m_fenceValue ∧
    t.m_frameIndex = s.m_frameIndex := by
  unfold CreateRaytracingOutputBuffer at h
  split at h
  · cases h
  · cases h
    exact ⟨rfl, rfl, rfl, rfl, rfl, rfl, rfl⟩

/-- What `CreateCameraBuffer` leaves unchanged; the device only gains resources. -/
theorem CreateCameraBuffer_layout (q : DeviceQueries) (s : App) :
    (CreateCameraBuffer q s).m_width = s.m_width ∧
    (CreateCameraBuffer q s).m_height = s.m_height ∧
    (∃ extra, (CreateCameraBuffer q s).m_device.resources = s.m_device.resources ++ extra) ∧
    (CreateCameraBuffer q s).m_outputResource = s.m_outputResource ∧
    (CreateCameraBuffer q s).m_renderTargets = s.m_renderTargets ∧
    (CreateCameraBuffer q s).m_fenceValue = s.m_fenceValue ∧
    (CreateCameraBuffer q s).m_frameIndex = s.m_frameIndex := by
  refine ⟨rfl, rfl, ?_, rfl, rfl, rfl, rfl⟩
  apply Exists.intro
  simp only [CreateCameraBuffer, CreateBuffer, CreateDescriptorHeap, Device.allocate,
    List.append_assoc]
  rfl

/-- What `CreateShaderResourceHeap` leaves unchanged; the device only gains resources. -/
theorem CreateShaderResourceHeap_layout (q : DeviceQueries) (s : App) :
    (CreateShaderResourceHeap q s).m_width = s.m_width ∧
    (CreateShaderResourceHeap q s).m_height = s.m_height ∧
    (∃ extra, (CreateShaderResourceHeap q s).m_device.resources =
      s.m_device.resources ++ extra) ∧
    (CreateShaderResourceHeap q s).m_outputResource = s.m_outputResource ∧
    (CreateShaderResourceHeap q s).m_renderTargets = s.m_renderTargets ∧
    (CreateShaderResourceHeap q s).m_fenceValue = s.m_fenceValue ∧
    (CreateShaderResourceHeap q s).m_frameIndex = s.m_frameIndex :=
  ⟨rfl, rfl, ⟨_, rfl⟩, rfl, rfl, rfl, rfl⟩

/-- What `CreateShaderBindingTable` leaves unchanged; the device only gains resources. -/
theorem CreateShaderBindingTable_layout (q : DeviceQueries) (s t : App)
    (h : CreateShaderBindingTable q s = .ok t) :
    t.m_width = s.m_width ∧ t.m_height = s.m_height ∧
    (∃ extra, t.m_device.resources = s.m_device.resources ++ extra) ∧
    t.m_outputResource = s.m_outputResource ∧
    t.m_renderTargets = s.m_renderTargets ∧
    t.m_fenceValue = s.m_fenceValue ∧
    t.m_frameIndex = s.m_frameIndex := by
  unfold CreateShaderBindingTable at h
  simp only [] at h
  split at h
  · cases h
  · cases h
    exact ⟨rfl, rfl, ⟨_, rfl⟩, rfl, rfl, rfl, rfl⟩

/-- Where `OnInit` leaves the back buffers, the output image and the fence value. -/
theorem OnInit_layout (q : DeviceQueries) (s t : App) (h : OnInit q s = .ok t) :
    t.m_width = s.m_width ∧ t.m_height = s.m_height ∧
    t.m_renderTargets = [2, 3] ∧
    t.m_device.descOf 2 = some (.texture2D s.m_width s.m_height ResourceFlag.NONE
      ResourceState.PRESENT HeapProps.kDefaultHeapProps) ∧
    t.m_device.descOf 3 = some (.texture2D s.m_width s.m_height ResourceFlag.NONE
      ResourceState.PRESENT HeapProps.kDefaultHeapProps) ∧
    t.m_device.descOf t.m_outputResource = some (.texture2D s.m_width s.m_height
      ResourceFlag.ALLOW_UNORDERED_ACCESS ResourceState.COPY_SOURCE
      HeapProps.kDefaultHeapProps) ∧
    3 < t.m_outputResource ∧
    t.m_fenceValue = 3 ∧
    (∃ n, t.m_frameIndex = q.currentBackBufferIndex n) := by
  obtain ⟨a, b, d, f, g, o, c, hp, h1, h2, -, h4, -, h6, h7, h8, e9, e10, h11⟩ := OnInit_ok q s t h
  obtain ⟨aw, ah, alen, art, a2, a3, -⟩ := LoadPipeline_layout q s a h1
  obtain ⟨bw, bh, ⟨bx, bres⟩, brt, bfi⟩ := LoadAssets_layout q a b h2
  obtain ⟨-, bfv, -, -, -⟩ := LoadAssets_ok q a b h2
  obtain ⟨dw, dh, ⟨dx, dres⟩, drt, dfv, dfi⟩ := CreateAccelerationStructures_layout q b d h4
  obtain ⟨fw, fh, fres, frt, ffv, ffi⟩ := CreateRaytracingPipeline_layout q d f h6
  obtain ⟨gw, gh, ⟨gx, gres⟩, grt, gfv, gfi⟩ := CreatePerInstanceConstantBuffers_layout q f g h7
  obtain ⟨ow, oh, ores, oout, ort, ofv, ofi⟩ := CreateRaytracingOutputBuffer_layout q g o h8
  obtain ⟨cw, ch, ⟨cx, cres⟩, cout, crt, cfv, cfi⟩ := CreateCameraBuffer_layout q o
  obtain ⟨pw, ph, ⟨px, pres⟩, pout, prt, pfv, pfi⟩ := CreateShaderResourceHeap_layout q c
  obtain ⟨tw, th, ⟨tx, tres⟩, tout, trt, tfv, tfi⟩ := CreateShaderBindingTable_layout q hp t h11
  rw [← e9] at cw ch cres cout crt cfv cfi
  rw [← e10] at pw ph pres pout prt pfv pfi
  have hw : t.m_width = s.m_width := by rw [tw, pw, cw, ow, gw, fw, dw, bw, aw]
  have hh : t.m_height = s.m_height := by rw [th, ph, ch, oh, gh, fh, dh, bh, ah]
  have hgw : g.m_width = s.m_width := by rw [gw, fw, dw, bw, aw]
  have hgh : g.m_height = s.m_height := by rw [gh, fh, dh, bh, ah]
  have up_o : ∀ r x, o.m_device.descOf r = some x → t.m_device.descOf r = some x := by
    intro r x hx
    exact descOf_extended _ _ _ tres r x (descOf_extended _ _ _ pres r x
      (descOf_extended _ _ _ cres r x hx))
  have up_a : ∀ r x, a.m_device.descOf r = some x → o.m_device.descOf r = some x := by
    intro r x hx
    have h1 := descOf_extended _ _ _ bres r x hx
    have h2 := descOf_extended _ _ _ dres r x h1
    have h3 : f.m_device.descOf r = some x := by
      unfold Device.descOf at h2 ⊢
      rw [fres]; exact h2
    have h4 := descOf_extended _ _ _ gres r x h3
    exact descOf_extended _ _ _ ores r x h4
  have hlen : 5 ≤ g.m_device.resources.length := by
    rw [gres, List.length_append, fres, dres, List.length_append, bres, List.length_append, alen]
    omega
  have hout : t.m_outputResource = g.m_device.resources.length + 1 := by
    rw [tout, pout, cout, oout]
  refine ⟨hw, hh, ?_, ?_, ?_, ?_, ?_, ?_, ?_⟩
  · rw [trt, prt, crt, ort, grt, frt, drt, brt, art]
  · exact up_o _ _ (up_a _ _ a2)
  · exact up_o _ _ (up_a _ _ a3)
  · rw [hout]
    apply up_o
    have := descOf_last o.m_device _ _ ores
    rw [this, hgw, hgh]
  · rw [hout]
    have : (3 : Nat) < g.m_device.resources.length + 1 := by omega
    exact this
  · rw [tfv, pfv, cfv, ofv, gfv, ffv, dfv, bfv]; rfl
  · exact ⟨a.m_swapChainPresents, by rw [tfi, pfi, cfi, ofi, gfi, ffi, dfi, bfi]⟩

/-- The command list `PopulateCommandList` records in rasterization mode. -/
theorem PopulateCommandList_raster_commands (q : DeviceQueries) (s p : App)
    (hr : s.m_raster = true) (hp : PopulateCommandList q s = .ok p) :
    p.m_commandList =
      [Cmd.SetGraphicsRootSignature, Cmd.RSSetViewports, Cmd.RSSetScissorRects,
       Cmd.transition (s.m_renderTargets.getD s.m_frameIndex 0) ResourceState.PRESENT
         ResourceState.RENDER_TARGET,
       Cmd.OMSetRenderTargets s.m_frameIndex,
       Cmd.ClearDepthStencilView,
       Cmd.SetDescriptorHeaps s.m_constHeap,
       Cmd.SetGraphicsRootDescriptorTable 0 s.m_constHeap,
       Cmd.ClearRenderTargetView s.m_frameIndex,
       Cmd.IASetPrimitiveTopology,
       Cmd.IASetVertexBuffers s.m_CubeBuffer,
       Cmd.DrawInstanced (6 * 6) 1 0 0,
       Cmd.IASetVertexBuffers s.m_planeBuffer,
       Cmd.DrawInstanced 6 1 0 0,
       Cmd.transition (s.m_renderTargets.getD s.m_frameIndex 0) ResourceState.RENDER_TARGET
         ResourceState.PRESENT] := by
  unfold PopulateCommandList at hp
  split at hp
  · cases hp
  · split at hp
    · cases hp
    · simp only [hr, if_true] at hp
      split at hp
      · cases hp
      · cases hp
        rfl

/-- What `PopulateCommandList` leaves unchanged; it allocates no resource. -/
theorem PopulateCommandList_layout (q : DeviceQueries) (s p : App)
    (h : PopulateCommandList q s = .ok p) :
    p.m_width = s.m_width ∧ p.m_height = s.m_height ∧
    p.m_device.resources = s.m_device.resources ∧
    p.m_renderTargets = s.m_renderTargets ∧
    p.m_outputResource = s.m_outputResource ∧
    p.m_raster = s.m_raster ∧
    p.m_frameIndex = s.m_frameIndex ∧
    p.m_fenceValue = s.m_fenceValue := by
  unfold PopulateCommandList at h
  split at h
  · cases h
  · split at h
    · cases h
    · by_cases hr : s.m_raster = true
      · simp only [hr, if_true] at h
        split at h
        · cases h
        · cases h
          exact ⟨rfl, rfl, rfl, rfl, rfl, hr.symm, rfl, rfl⟩
      · have hr2 : s.m_raster = false := by simpa using hr
        simp only [hr2] at h
        split at h
        · cases h
        · cases h
          exact ⟨rfl, rfl, rfl, rfl, rfl, hr2.symm, rfl, rfl⟩

/-- What a frame leaves unchanged; it allocates no resource. -/
theorem OnRender_layout (q : DeviceQueries) (s t : App) (h : OnRender q s = .ok t) :
    t.m_width = s.m_width ∧ t.m_height = s.m_height ∧
    t.m_device.resources = s.m_device.resources ∧
    t.m_renderTargets = s.m_renderTargets ∧
    t.m_outputResource = s.m_outputResource ∧
    t.m_raster = s.m_raster ∧
    (∃ n, t.m_frameIndex = q.currentBackBufferIndex n) := by
  unfold OnRender at h
  split at h
  · cases h
  · rename_i p hp
    obtain ⟨pw, ph, pd, pr, po, pm, -, -⟩ := PopulateCommandList_layout q s p hp
    simp only [] at h
    split at h
    · cases h
    · obtain ⟨tw, th, td, tr, tout, tm, tf⟩ := WaitForPreviousFrame_layout q _ t h
      exact ⟨tw.trans pw, th.trans ph, by rw [td]; exact pd, tr.trans pr, tout.trans po,
        tm.trans pm, ⟨_, tf⟩⟩

/-- What `OnUpdate` leaves unchanged. -/
theorem OnUpdate_layout (q : DeviceQueries) (s t : App) (h : OnUpdate q s = .ok t) :
    t.m_width = s.m_width ∧ t.m_height = s.m_height ∧
    t.m_device = s.m_device ∧
    t.m_renderTargets = s.m_renderTargets ∧
    t.m_outputResource = s.m_outputResource ∧
    t.m_raster = s.m_raster ∧
    t.m_frameIndex = s.m_frameIndex ∧
    t.m_commandQueue = s.m_commandQueue := by
  unfold OnUpdate at h
  simp only [] at h
  split at h
  · cases h
  · split at h
    · cases h
    · cases h
      exact ⟨rfl, rfl, rfl, rfl, rfl, rfl, rfl, rfl⟩

/-- What `OnKeyUp` leaves unchanged. -/
theorem OnKeyUp_layout (s : App) (key : Nat) :
    (OnKeyUp s key).m_width = s.m_width ∧ (OnKeyUp s key).m_height = s.m_height ∧
    (OnKeyUp s key).m_device = s.m_device ∧
    (OnKeyUp s key).m_renderTargets = s.m_renderTargets ∧
    (OnKeyUp s key).m_outputResource = s.m_outputResource ∧
    (OnKeyUp s key).m_frameIndex = s.m_frameIndex ∧
    (OnKeyUp s key).m_commandQueue = s.m_commandQueue := by
  unfold OnKeyUp
  split <;> exact ⟨rfl, rfl, rfl, rfl, rfl, rfl, rfl⟩

/-- No call after `OnInit` changes the window size, the resources or the output image. -/
theorem runActions_layout (q : DeviceQueries) (acts : List Action) (s t : App)
    (h : runActions q acts s = .ok t) :
    t.m_width = s.m_width ∧ t.m_height = s.m_height ∧
    t.m_device.resources = s.m_device.resources ∧
    t.m_outputResource = s.m_outputResource := by
  induction acts generalizing s with
  | nil =>
    unfold runActions at h
    cases h
    exact ⟨rfl, rfl, rfl, rfl⟩
  | cons a rest ih =>
    obtain ⟨m, hm, hrest⟩ := runActions_cons_ok q a rest s t h
    obtain ⟨b1, b2, b3, b4⟩ := ih m hrest
    have : m.m_width = s.m_width ∧ m.m_height = s.m_height ∧
        m.m_device.resources = s.m_device.resources ∧
        m.m_outputResource = s.m_outputResource := by
      cases a with
      | OnUpdate =>
        obtain ⟨a1, a2, a3, -, a5, -⟩ := OnUpdate_layout q s m hm
        exact ⟨a1, a2, by rw [a3], a5⟩
      | OnKeyUp key =>
        have e : Except.ok (OnKeyUp s key) = Except.ok m := hm
        cases e
        obtain ⟨a1, a2, a3, -, a5, -⟩ := OnKeyUp_layout s key
        exact ⟨a1, a2, by rw [a3], a5⟩
      | OnRender =>
        obtain ⟨a1, a2, a3, -, a5, -⟩ := OnRender_layout q s m hm
        exact ⟨a1, a2, a3, a5⟩
    obtain ⟨a1, a2, a3, a4⟩ := this
    exact ⟨b1.trans a1, b2.trans a2, b3.trans a3, b4.trans a4⟩

/-! ## C21: the size of the dispatch -/

/-- C21: in every state reached by `OnInit` and any calls of `OnUpdate`, `OnKeyUp` and
`OnRender` that is in ray-tracing mode, `PopulateCommandList` records one dispatch whose
descriptor has depth 1 and the width and height of the texture behind
`m_outputResource`, the output image `CreateRaytracingOutputBuffer` created (with the
unordered-access flag, in the copy-source state): both read `GetWidth()` and
`GetHeight()`, which nothing changes. -/
theorem dispatch_size_is_output_image_size (q : DeviceQueries) (s0 s1 t p : App)
    (acts : List Action)
    (hinit : OnInit q s0 = .ok s1) (hrun : runActions q acts s1 = .ok t)
    (hr : t.m_raster = false) (hp : PopulateCommandList q t = .ok p) :
    ∃ desc, p.m_commandList.filterMap Cmd.dispatched = [desc] ∧
      t.m_device.descOf t.m_outputResource = some (.texture2D desc.Width desc.Height
        ResourceFlag.ALLOW_UNORDERED_ACCESS ResourceState.COPY_SOURCE
        HeapProps.kDefaultHeapProps) ∧
      desc.Depth = 1 := by
  obtain ⟨iw, ih, -, -, -, io, -, -, -⟩ := OnInit_layout q s0 s1 hinit
  obtain ⟨rw1, rh, rres, rout⟩ := runActions_layout q acts s1 t hrun
  refine ⟨dispatchDesc q t, ?_, ?_, rfl⟩
  · rw [PopulateCommandList_raytrace_commands q t p hr hp]; rfl
  · have : (dispatchDesc q t).Width = s0.m_width ∧ (dispatchDesc q t).Height = s0.m_height := by
      simp only [dispatchDesc]
      exact ⟨rw1.trans iw, rh.trans ih⟩
    rw [this.1, this.2, rout]
    unfold Device.descOf at io ⊢
    rw [rres]
    exact io

/-- Witness for C21: the example after `OnInit`, the space key, an update and two
frames; the output image and the dispatch are 1280 by 720. -/
theorem dispatch_size_is_output_image_size_witness :
    OnInit exampleQueries freshApp = .ok exampleOnInit ∧
    runActions exampleQueries exampleActions exampleOnInit = .ok exampleAfterFrames ∧
    exampleAfterFrames.m_raster = false ∧
    PopulateCommandList exampleQueries exampleAfterFrames = .ok exampleNextFrame ∧
    exampleAfterFrames.m_device.descOf exampleAfterFrames.m_outputResource =
      some (.texture2D 1280 720 ResourceFlag.ALLOW_UNORDERED_ACCESS ResourceState.COPY_SOURCE
        HeapProps.kDefaultHeapProps) ∧
    ∃ desc, exampleNextFrame.m_commandList.filterMap Cmd.dispatched = [desc] ∧
      exampleAfterFrames.m_device.descOf exampleAfterFrames.m_outputResource =
        some (.texture2D desc.Width desc.Height ResourceFlag.ALLOW_UNORDERED_ACCESS
          ResourceState.COPY_SOURCE HeapProps.kDefaultHeapProps) ∧
      desc.Depth = 1 :=
  ⟨rfl, rfl, rfl, rfl, rfl,
   dispatch_size_is_output_image_size exampleQueries freshApp exampleOnInit exampleAfterFrames
     exampleNextFrame exampleActions rfl rfl rfl rfl⟩

/-! ## C22: the bottom-level structures after `CreateAccelerationStructures` -/

/-- C22, counterexample: after `CreateAccelerationStructures` on the loaded example the
plane's bottom-level result is resource 8; `m_bottomLevelAS` is the cube's (6), but
`m_instances` and the instances of `m_topLevelASGenerator` both still refer to 8. -/
theorem plane_blas_still_referenced :
    CreateAccelerationStructures exampleQueries loadedApp = .ok exampleScene ∧
    (CreateBottomLevelAS exampleQueries
      (CreateBottomLevelAS exampleQueries loadedApp [(loadedApp.m_CubeBuffer, 6 * 6)] []).1
      [(loadedApp.m_planeBuffer, 6)] []).2.pResult = 8 ∧
    exampleScene.m_bottomLevelAS = 6 ∧
    exampleScene.m_instances.map Prod.fst = [6, 8] ∧
    exampleScene.m_topLevelASGenerator.instances.map TLASInstance.bottomLevelAS = [6, 8] :=
  ⟨rfl, rfl, rfl, rfl, rfl⟩

/-- C22, amended: after `CreateAccelerationStructures`, `m_bottomLevelAS` is the result
buffer of the cube's bottom-level build and not the plane's; the plane's result buffer
is not dropped: it is the second element of `m_instances` (after the cube's) and the
bottom-level structure of the last instance held by `m_topLevelASGenerator`. -/
theorem CreateAccelerationStructures_keeps_both_blas (q : DeviceQueries) (s s1 : App)
    (h : CreateAccelerationStructures q s = .ok s1) :
    s1.m_bottomLevelAS = (CreateBottomLevelAS q s [(s.m_CubeBuffer, 6 * 6)] []).2.pResult ∧
    s1.m_bottomLevelAS ≠
      (CreateBottomLevelAS q (CreateBottomLevelAS q s [(s.m_CubeBuffer, 6 * 6)] []).1
        [(s.m_planeBuffer, 6)] []).2.pResult ∧
    s1.m_instances.map Prod.fst =
      [(CreateBottomLevelAS q s [(s.m_CubeBuffer, 6 * 6)] []).2.pResult,
       (CreateBottomLevelAS q (CreateBottomLevelAS q s [(s.m_CubeBuffer, 6 * 6)] []).1
        [(s.m_planeBuffer, 6)] []).2.pResult] ∧
    (∃ older cubeInstance planeInstance,
      s1.m_topLevelASGenerator.instances = older ++ [cubeInstance, planeInstance] ∧
      planeInstance.bottomLevelAS =
        (CreateBottomLevelAS q (CreateBottomLevelAS q s [(s.m_CubeBuffer, 6 * 6)] []).1
          [(s.m_planeBuffer, 6)] []).2.pResult) := by
  obtain ⟨hi, hb, -, -⟩ := CreateAccelerationStructures_scene q s s1 h
  have hg := CreateAccelerationStructures_generator q s s1 h
  have e1 : (CreateBottomLevelAS q s [(s.m_CubeBuffer, 6 * 6)] []).2.pResult =
      s.m_device.resources.length + 2 := by
    simp [CreateBottomLevelAS, CreateBuffer, Device.allocate]
  have e2 : (CreateBottomLevelAS q (CreateBottomLevelAS q s [(s.m_CubeBuffer, 6 * 6)] []).1
        [(s.m_planeBuffer, 6)] []).2.pResult = s.m_device.resources.length + 4 := by
    simp [CreateBottomLevelAS, CreateBuffer, Device.allocate]
  have hne : s.m_device.resources.length + 2 ≠ s.m_device.resources.length + 4 := by omega
  rw [e1, e2, hb, hi, hg]
  exact ⟨rfl, hne, rfl, _, _, _, rfl, rfl⟩

/-- Witness for C22 (amended): the loaded example. -/
theorem CreateAccelerationStructures_keeps_both_blas_witness :
    CreateAccelerationStructures exampleQueries loadedApp = .ok exampleScene ∧
    exampleScene.m_bottomLevelAS =
      (CreateBottomLevelAS exampleQueries loadedApp [(loadedApp.m_CubeBuffer, 6 * 6)]
        []).2.pResult ∧
    exampleScene.m_bottomLevelAS ≠
      (CreateBottomLevelAS exampleQueries
        (CreateBottomLevelAS exampleQueries loadedApp [(loadedApp.m_CubeBuffer, 6 * 6)] []).1
        [(loadedApp.m_planeBuffer, 6)] []).2.pResult :=
  ⟨rfl,
   (CreateAccelerationStructures_keeps_both_blas exampleQueries loadedApp exampleScene rfl).1,
   (CreateAccelerationStructures_keeps_both_blas exampleQueries loadedApp exampleScene rfl).2.1⟩

/-! ## C23: transition barriers and resource states -/

/-- The creation states depend on the resources only. -/
theorem creationState_congr (d d2 : Device) (h : d2.resources = d.resources) :
    d2.creationState = d.creationState := by
  funext r
  unfold Device.creationState Device.descOf
  rw [h]

/-- Executing a queue followed by another. -/
theorem runQueue_append (a b : List QueueOp) (st : Resource → Option ResourceState) :
    runQueue (a ++ b) st =
      match runQueue a st with
      | none => none
      | some st1 => runQueue b st1 := by
  induction a generalizing st with
  | nil => rfl
  | cons op rest ih =>
    cases op with
    | ExecuteCommandLists cmds =>
      simp only [List.cons_append, runQueue]
      cases runBarriers cmds st with
      | none => rfl
      | some st1 => exact ih st1
    | Signal v => simp only [List.cons_append, runQueue]; exact ih st
    | SetEventOnCompletion v => simp only [List.cons_append, runQueue]; exact ih st
    | WaitForSingleObject => simp only [List.cons_append, runQueue]; exact ih st
    | Present => simp only [List.cons_append, runQueue]; exact ih st

/-- The barriers of one frame are valid when the back buffer is in the present state and
the output image in the copy-source state, and leave every resource in the state it was
in. -/
theorem PopulateCommandList_barriers (q : DeviceQueries) (s p : App)
    (hp : PopulateCommandList q s = .ok p) (st : Resource → Option ResourceState)
    (hne : s.m_outputResource ≠ s.m_renderTargets.getD s.m_frameIndex 0)
    (hb : st (s.m_renderTargets.getD s.m_frameIndex 0) = some ResourceState.PRESENT)
    (ho : st s.m_outputResource = some ResourceState.COPY_SOURCE) :
    ∃ st1, runBarriers p.m_commandList st = some st1 ∧ ∀ x, st1 x = st x := by
  by_cases hr : s.m_raster = true
  · have hc := PopulateCommandList_raster_commands q s p hr hp
    generalize s.m_renderTargets.getD s.m_frameIndex 0 = bb at hc hne hb
    rw [hc]
    apply Exists.intro
    constructor
    · simp only [runBarriers, Cmd.applyBarrier, hb, if_true]
      rfl
    · intro x
      by_cases hx : x = bb
      · simp [hx, hb]
      · simp [hx]
  · have hr2 : s.m_raster = false := by simpa using hr
    have hc := PopulateCommandList_raytrace_commands q s p hr2 hp
    generalize s.m_renderTargets.getD s.m_frameIndex 0 = bb at hc hne hb
    generalize s.m_outputResource = out at hc hne ho
    have hne2 : bb ≠ out := fun e => hne e.symm
    rw [hc]
    apply Exists.intro
    constructor
    · simp only [runBarriers, Cmd.applyBarrier, hb, ho, hne, hne2, if_true, if_false]
      rfl
    · intro x
      by_cases hx : x = bb
      · simp [hx, hb, hne2]
      · by_cases hx2 : x = out
        · simp [hx2, ho, hne]
        · simp [hx, hx2]

/-- What the queue holds after a frame. -/
theorem OnRender_queue (q : DeviceQueries) (s t : App) (h : OnRender q s = .ok t) :
    ∃ p, PopulateCommandList q s = .ok p ∧
      (t.m_commandQueue = s.m_commandQueue ++ [QueueOp.ExecuteCommandLists p.m_commandList,
         QueueOp.Present, QueueOp.Signal s.m_fenceValue] ∨
       t.m_commandQueue = s.m_commandQueue ++ [QueueOp.ExecuteCommandLists p.m_commandList,
         QueueOp.Present, QueueOp.Signal s.m_fenceValue,
         QueueOp.SetEventOnCompletion s.m_fenceValue, QueueOp.WaitForSingleObject]) := by
  unfold OnRender at h
  split at h
  · cases h
  · rename_i p hp
    obtain ⟨pq, -⟩ := PopulateCommandList_frame q s p hp
    obtain ⟨-, -, -, -, -, -, -, pfv⟩ := PopulateCommandList_layout q s p hp
    simp only [] at h
    split at h
    · cases h
    · obtain ⟨wq, -⟩ := WaitForPreviousFrame_ok q _ t h
      simp only [] at wq
      rw [pfv, pq] at wq
      refine ⟨p, hp, ?_⟩
      rcases wq with wq | wq
      · left; rw [wq]; simp
      · right; rw [wq]; simp

/-- The resource states the queue's work leaves, under the frame loop: every barrier
executed was valid, and every resource is again in the state it was created in. -/
theorem frame_states (q : DeviceQueries) (hbb : ∀ n, q.currentBackBufferIndex n < 2)
    (acts : List Action) (s t : App) (h : runActions q acts s = .ok t)
    (hrt : s.m_renderTargets = [2, 3]) (hout : 3 < s.m_outputResource)
    (hfi : s.m_frameIndex < 2)
    (h2 : s.m_device.creationState 2 = some ResourceState.PRESENT)
    (h3 : s.m_device.creationState 3 = some ResourceState.PRESENT)
    (ho : s.m_device.creationState s.m_outputResource = some ResourceState.COPY_SOURCE)
    (hst : ∃ st, runQueue s.m_commandQueue s.m_device.creationState = some st ∧
      ∀ x, st x = s.m_device.creationState x) :
    t.m_renderTargets = [2, 3] ∧ t.m_frameIndex < 2 ∧
    t.m_outputResource = s.m_outputResource ∧
    t.m_device.creationState = s.m_device.creationState ∧
    ∃ st, runQueue t.m_commandQueue t.m_device.creationState = some st ∧
      ∀ x, st x = t.m_device.creationState x := by
  induction acts generalizing s with
  | nil =>
    unfold runActions at h
    cases h
    exact ⟨hrt, hfi, rfl, rfl, hst⟩
  | cons a rest ih =>
    obtain ⟨m, hm, hrest⟩ := runActions_cons_ok q a rest s t h
    have step : m.m_renderTargets = [2, 3] ∧ m.m_frameIndex < 2 ∧
        m.m_outputResource = s.m_outputResource ∧
        m.m_device.creationState = s.m_device.creationState ∧
        ∃ st, runQueue m.m_commandQueue m.m_device.creationState = some st ∧
          ∀ x, st x = m.m_device.creationState x := by
      cases a with
      | OnUpdate =>
        obtain ⟨-, -, a3, a4, a5, -, a7, a8⟩ := OnUpdate_layout q s m hm
        refine ⟨a4.trans hrt, by rw [a7]; exact hfi, a5, by rw [a3], ?_⟩
        rw [a8, a3]; exact hst
      | OnKeyUp key =>
        have e : Except.ok (OnKeyUp s key) = Except.ok m := hm
        cases e
        obtain ⟨-, -, a3, a4, a5, a7, a8⟩ := OnKeyUp_layout s key
        refine ⟨a4.trans hrt, by rw [a7]; exact hfi, a5, by rw [a3], ?_⟩
        rw [a8, a3]; exact hst
      | OnRender =>
        obtain ⟨-, -, a3, a4, a5, -, ⟨n, a7⟩⟩ := OnRender_layout q s m hm
        obtain ⟨p, hp, hq⟩ := OnRender_queue q s m hm
        have hcs := creationState_congr s.m_device m.m_device a3
        obtain ⟨st, hrun, hpt⟩ := hst
        have hbbv : s.m_renderTargets.getD s.m_frameIndex 0 = 2 ∨
            s.m_renderTargets.getD s.m_frameIndex 0 = 3 := by
          rw [hrt]
          have : s.m_frameIndex = 0 ∨ s.m_frameIndex = 1 := by omega
          rcases this with e | e <;> rw [e]
          · left; rfl
          · right; rfl
        have hne : s.m_outputResource ≠ s.m_renderTargets.getD s.m_frameIndex 0 := by
          rcases hbbv with e | e <;> rw [e] <;> intro e2 <;> rw [e2] at hout <;>
            exact absurd hout (by decide)
        have hb : st (s.m_renderTargets.getD s.m_frameIndex 0) = some ResourceState.PRESENT := by
          rcases hbbv with e | e <;> rw [e, hpt]
          · exact h2
          · exact h3
        have hos : st s.m_outputResource = some ResourceState.COPY_SOURCE := by
          rw [hpt]; exact ho
        obtain ⟨st1, hb1, hpt1⟩ := PopulateCommandList_barriers q s p hp st hne hb hos
        refine ⟨a4.trans hrt, by rw [a7]; exact hbb n, a5, hcs, st1, ?_, ?_⟩
        · rw [hcs]
          rcases hq with hq | hq <;> rw [hq, runQueue_append, hrun] <;>
            simp only [runQueue, hb1]
        · intro x
          rw [hpt1, hpt, hcs]
    obtain ⟨m1, m2, m3, m4, m5⟩ := step
    obtain ⟨r1, r2, r3, r4, r5⟩ := ih m hrest m1 (by rw [m3]; exact hout) m2
      (by rw [m4]; exact h2) (by rw [m4]; exact h3) (by rw [m4, m3]; exact ho) m5
    exact ⟨r1, r2, r3.trans m3, r4.trans m4, r5⟩

/-- The command lists `OnInit` submits hold no transition barrier. -/
theorem OnInit_states (q : DeviceQueries) (s t : App) (h : OnInit q s = .ok t) :
    runQueue t.m_commandQueue t.m_device.creationState = some t.m_device.creationState := by
  obtain ⟨a, b, d, f, g, o, c, hp, h1, h2, -, h4, -, h6, h7, h8, e9, e10, h11⟩ := OnInit_ok q s t h
  obtain ⟨aq, -, -⟩ := LoadPipeline_ok q s a h1
  obtain ⟨bq, -, bc, -, -⟩ := LoadAssets_ok q a b h2
  obtain ⟨-, -, dq, -⟩ := CreateAccelerationStructures_scene q b d h4
  obtain ⟨fq, -⟩ := CreateRaytracingPipeline_frame q d f h6
  obtain ⟨gq, -⟩ := CreatePerInstanceConstantBuffers_frame q f g h7
  obtain ⟨oq, -⟩ := CreateRaytracingOutputBuffer_frame q g o h8
  obtain ⟨cq, -⟩ := CreateCameraBuffer_frame q o
  obtain ⟨pq, -⟩ := CreateShaderResourceHeap_frame q c
  obtain ⟨tq, -⟩ := CreateShaderBindingTable_frame q hp t h11
  rw [← e9] at cq
  rw [← e10] at pq
  rw [tq, pq, cq, oq, gq, fq, dq, bc]
  rcases bq with bq | bq <;> rw [bq, aq] <;> rfl

/-- C23: in every state reached by `OnInit` and any sequence of `OnUpdate`, `OnKeyUp`
(mode toggles) and `OnRender` calls, on a swap chain whose back-buffer index stays below
`FrameCount = 2`: executing everything submitted so far, starting from the states the
resources were created in, never meets a transition barrier whose before-state differs
from the state the resource is in; the output image was created in the copy-source state
and is in it again; the current back buffer exists and every back buffer is in the
present state. The state reached after a frame is the state the next frame starts in. -/
theorem barriers_name_actual_states (q : DeviceQueries) (s0 s1 t : App) (acts : List Action)
    (hbb : ∀ n, q.currentBackBufferIndex n < 2)
    (hinit : OnInit q s0 = .ok s1) (hrun : runActions q acts s1 = .ok t) :
    ∃ states, runQueue t.m_commandQueue t.m_device.creationState = some states ∧
      t.m_device.creationState t.m_outputResource = some ResourceState.COPY_SOURCE ∧
      states t.m_outputResource = some ResourceState.COPY_SOURCE ∧
      t.m_frameIndex < t.m_renderTargets.length ∧
      (∀ target ∈ t.m_renderTargets, states target = some ResourceState.PRESENT) := by
  obtain ⟨-, -, irt, i2, i3, io, iout, -, ⟨n, ifi⟩⟩ := OnInit_layout q s0 s1 hinit
  have c2 : s1.m_device.creationState 2 = some ResourceState.PRESENT := by
    unfold Device.creationState; rw [i2]
  have c3 : s1.m_device.creationState 3 = some ResourceState.PRESENT := by
    unfold Device.creationState; rw [i3]
  have co : s1.m_device.creationState s1.m_outputResource = some ResourceState.COPY_SOURCE := by
    unfold Device.creationState; rw [io]
  obtain ⟨r1, r2, r3, r4, ⟨st, hst, hpt⟩⟩ := frame_states q hbb acts s1 t hrun irt iout
    (by rw [ifi]; exact hbb n) c2 c3 co ⟨_, OnInit_states q s0 s1 hinit, fun _ => rfl⟩
  refine ⟨st, hst, ?_, ?_, ?_, ?_⟩
  · rw [r4, r3]; exact co
  · rw [hpt, r4, r3]; exact co
  · rw [r1]; exact r2
  · intro target ht
    rw [r1] at ht
    simp only [List.mem_cons, List.mem_singleton, List.not_mem_nil, or_false] at ht
    rcases ht with e | e <;> rw [e, hpt, r4]
    · exact c2
    · exact c3

/-- Witness for C23: the example after `OnInit`, the space key, an update and two
ray-traced frames; back buffers 2 and 3 are in the present state, the output image 18
in the copy-source state. -/
theorem barriers_name_actual_states_witness :
    (∀ n, exampleQueries.currentBackBufferIndex n < 2) ∧
    OnInit exampleQueries freshApp = .ok exampleOnInit ∧
    runActions exampleQueries exampleActions exampleOnInit = .ok exampleAfterFrames ∧
    exampleAfterFrames.m_renderTargets = [2, 3] ∧
    exampleAfterFrames.m_outputResource = 18 ∧
    (runQueue exampleAfterFrames.m_commandQueue exampleAfterFrames.m_device.creationState).map
        (fun states => (states 2, states 3, states 18)) =
      some (some ResourceState.PRESENT, some ResourceState.PRESENT,
        some ResourceState.COPY_SOURCE) ∧
    ∃ states, runQueue exampleAfterFrames.m_commandQueue
        exampleAfterFrames.m_device.creationState = some states ∧
      exampleAfterFrames.m_device.creationState exampleAfterFrames.m_outputResource =
        some ResourceState.COPY_SOURCE ∧
      states exampleAfterFrames.m_outputResource = some ResourceState.COPY_SOURCE ∧
      exampleAfterFrames.m_frameIndex < exampleAfterFrames.m_renderTargets.length ∧
      (∀ target ∈ exampleAfterFrames.m_renderTargets,
        states target = some ResourceState.PRESENT) :=
  ⟨fun n => Nat.mod_lt n (by decide), rfl, rfl, rfl, rfl, rfl,
   barriers_name_actual_states exampleQueries freshApp exampleOnInit exampleAfterFrames
     exampleActions (fun n => Nat.mod_lt n (by decide)) rfl rfl⟩

/-! ## C24: the fence values signalled -/

/-- C24 (the code diverges): `CreateAccelerationStructures` increments `m_fenceValue`
before it signals and not after, so `OnInit` leaves `m_fenceValue` at the value last
signalled, and the `WaitForPreviousFrame` of the first frame signals it again: after
`OnInit` and one `OnRender` the values signalled are 1, 3, 3, on the example and on
every device. The third signal is not greater than the second. -/
theorem fence_value_signalled_twice :
    signalledValues exampleOnInit.m_commandQueue = [1, 3] ∧
    exampleOnInit.m_fenceValue = 3 ∧
    OnRender exampleQueries exampleOnInit = .ok exampleFirstFrame ∧
    signalledValues exampleFirstFrame.m_commandQueue = [1, 3, 3] ∧
    ¬ (signalledValues exampleFirstFrame.m_commandQueue).Pairwise (fun a b => a < b) ∧
    (∀ (q : DeviceQueries) (s0 s1 t : App), OnInit q s0 = .ok s1 → OnRender q s1 = .ok t →
      signalledValues t.m_commandQueue = [1, 3, 3]) := by
  refine ⟨rfl, rfl, rfl, rfl, by decide, ?_⟩
  intro q s0 s1 t hinit hrender
  obtain ⟨-, -, -, -, -, -, -, hfv, -⟩ := OnInit_layout q s0 s1 hinit
  obtain ⟨a, b, d, f, g, o, c, hp, h1, h2, -, h4, -, h6, h7, h8, e9, e10, h11⟩ :=
    OnInit_ok q s0 s1 hinit
  obtain ⟨aq, -, -⟩ := LoadPipeline_ok q s0 a h1
  obtain ⟨bq, bfv, -, -, -⟩ := LoadAssets_ok q a b h2
  obtain ⟨-, -, dq, -⟩ := CreateAccelerationStructures_scene q b d h4
  obtain ⟨fq, -⟩ := CreateRaytracingPipeline_frame q d f h6
  obtain ⟨gq, -⟩ := CreatePerInstanceConstantBuffers_frame q f g h7
  obtain ⟨oq, -⟩ := CreateRaytracingOutputBuffer_frame q g o h8
  obtain ⟨cq, -⟩ := CreateCameraBuffer_frame q o
  obtain ⟨pq, -⟩ := CreateShaderResourceHeap_frame q c
  obtain ⟨tq, -⟩ := CreateShaderBindingTable_frame q hp s1 h11
  rw [← e9] at cq
  rw [← e10] at pq
  have hq1 : signalledValues s1.m_commandQueue = [1, 3] := by
    rw [tq, pq, cq, oq, gq, fq, dq, bfv]
    rcases bq with bq | bq <;> rw [bq, aq] <;> rfl
  unfold OnRender at hrender
  split at hrender
  · cases hrender
  · rename_i p hpop
    obtain ⟨ppq, -⟩ := PopulateCommandList_frame q s1 p hpop
    obtain ⟨-, -, -, -, -, -, -, pfv⟩ := PopulateCommandList_layout q s1 p hpop
    simp only [] at hrender
    split at hrender
    · cases hrender
    · obtain ⟨wq, -⟩ := WaitForPreviousFrame_ok q _ t hrender
      simp only [] at wq
      rw [pfv, hfv, ppq] at wq
      unfold signalledValues at hq1 ⊢
      rcases wq with wq | wq <;> rw [wq] <;>
        simp only [List.filterMap_append, hq1] <;> rfl

/-! ## C25: what a frame records in each mode -/

/-- C25: when `PopulateCommandList` returns (it throws only if resetting the allocator,
resetting the list or closing the list fails), in ray-tracing mode the refits and
dispatches it recorded are exactly one refit of the top-level structure followed by one
`DispatchRays`, and in rasterization mode there is none; the application is constructed
in rasterization mode; `OnKeyUp` negates `m_raster` for the space key and changes
nothing for any other key. -/
theorem frame_records_refit_then_dispatch (q : DeviceQueries) (s : App) :
    (match PopulateCommandList q s with
     | .ok p =>
       (s.m_raster = false →
         p.m_commandList.filter (fun c => c.isRefit || c.isDispatch) =
           [Cmd.buildTLAS s.m_topLevelASBuffers.pScratch s.m_topLevelASBuffers.pResult
              s.m_topLevelASBuffers.pInstanceDesc s.m_topLevelASGenerator.instances.length true
              s.m_topLevelASBuffers.pResult,
            Cmd.DispatchRays (dispatchDesc q s)]) ∧
       (s.m_raster = true →
         p.m_commandList.filter (fun c => c.isRefit || c.isDispatch) = [])
     | .error _ =>
       q.succeeded GpuCall.CommandAllocatorReset = false ∨
       q.succeeded GpuCall.CommandListReset = false ∨
       q.succeeded GpuCall.CommandListClose = false) ∧
    freshApp.m_raster = true ∧
    (OnKeyUp s VK_SPACE).m_raster = !s.m_raster ∧
    (∀ key, key ≠ VK_SPACE → OnKeyUp s key = s) := by
  refine ⟨?_, rfl, ?_, ?_⟩
  · cases hp : PopulateCommandList q s with
    | error e =>
      simp only []
      unfold PopulateCommandList ThrowIfFailed at hp
      by_cases h1 : q.succeeded GpuCall.CommandAllocatorReset = true
      · by_cases h2 : q.succeeded GpuCall.CommandListReset = true
        · by_cases h3 : q.succeeded GpuCall.CommandListClose = true
          · simp [h1, h2, h3] at hp
          · right; right; simpa using h3
        · right; left; simpa using h2
      · left; simpa using h1
    | ok p =>
      simp only []
      refine ⟨?_, ?_⟩
      · intro hr
        rw [PopulateCommandList_raytrace_commands q s p hr hp]
        rfl
      · intro hr
        rw [PopulateCommandList_raster_commands q s p hr hp]
        rfl
  · simp [OnKeyUp]
  · intro key hkey
    simp [OnKeyUp, hkey]

/-! ## C26: `CreateShaderBindingTable` twice -/

/-- The builder `CreateShaderBindingTable` leaves does not depend on the builder it
found; the heap `m_srvUavHeap` is unchanged. -/
theorem CreateShaderBindingTable_helper (q : DeviceQueries) (s s2 : App)
    (h2 : CreateShaderBindingTable q s = .ok s2) :
    s2.m_sbtHelper = (ShaderBindingTableGenerator.ComputeSBTSize q
      (declareShaderBindingTable ⟨[], [], [], 0, 0, 0⟩
        (q.gpuHandleForHeapStart s.m_srvUavHeap))).1 ∧
    s2.m_srvUavHeap = s.m_srvUavHeap := by
  unfold CreateShaderBindingTable at h2
  simp only [] at h2
  split at h2
  · cases h2
  · cases h2
    exact ⟨rfl, rfl⟩

/-- C26: whatever records the builder holds, `CreateShaderBindingTable` called twice in
a row returns both times, and the second call leaves the builder exactly as the first
did: the same records (1 ray-generation, 2 miss, 3 hit-group; same names, same root
arguments, same order) and the same strides. -/
theorem CreateShaderBindingTable_twice (q : DeviceQueries) (s : App) :
    ∃ s2 s3, CreateShaderBindingTable q s = .ok s2 ∧ CreateShaderBindingTable q s2 = .ok s3 ∧
      s3.m_sbtHelper = s2.m_sbtHelper ∧
      s3.m_sbtHelper.m_rayGen = s2.m_sbtHelper.m_rayGen ∧
      s3.m_sbtHelper.m_miss = s2.m_sbtHelper.m_miss ∧
      s3.m_sbtHelper.m_hitGroup = s2.m_sbtHelper.m_hitGroup ∧
      s3.m_sbtHelper.m_rayGen.map SBTEntry.m_entryPoint = ["RayGen"] ∧
      s3.m_sbtHelper.m_miss.map SBTEntry.m_entryPoint = ["Miss", "ShadowMiss"] ∧
      s3.m_sbtHelper.m_hitGroup.map SBTEntry.m_entryPoint =
        ["CubeHitGroup", "ShadowHitGroup", "PlaneHitGroup"] := by
  obtain ⟨s2, h2, -, -, -, -, -⟩ := CreateShaderBindingTable_ok q s
  obtain ⟨s3, h3, hr3, hm3, hh3, -, -⟩ := CreateShaderBindingTable_ok q s2
  obtain ⟨e2, hheap⟩ := CreateShaderBindingTable_helper q s s2 h2
  obtain ⟨e3, -⟩ := CreateShaderBindingTable_helper q s2 s3 h3
  have he : s3.m_sbtHelper = s2.m_sbtHelper := by rw [e3, e2, hheap]
  refine ⟨s2, s3, h2, h3, he, by rw [he], by rw [he], by rw [he], ?_, ?_, ?_⟩
  · rw [hr3]; rfl
  · rw [hm3]; rfl
  · rw [hh3]; rfl

/-! ## C27: the programs of the table are declared in the pipeline -/

/-- The libraries and hit groups `declarePipeline` declares. -/
theorem declarePipeline_symbols (r m h sh : Resource) :
    (declarePipeline r m h sh).exportedSymbols =
      ["RayGen", "Miss", "ClosestHit", "CubeClosestHit", "PlaneClosestHit",
       "ShadowClosestHit", "ShadowMiss"] ∧
    (declarePipeline r m h sh).m_hitGroups =
      [⟨"HitGroup", "ClosestHit"⟩, ⟨"CubeHitGroup", "CubeClosestHit"⟩,
       ⟨"PlaneHitGroup", "PlaneClosestHit"⟩, ⟨"ShadowHitGroup", "ShadowClosestHit"⟩] :=
  ⟨rfl, rfl⟩

/-- C27: when `CreateRaytracingPipeline` returns (it throws only if the query for the
state-object properties fails), for the records `CreateShaderBindingTable` adds: the
name of every ray-generation and miss record is a symbol exported by a library added to
the pipeline, the name of every hit-group record is a hit group added to the pipeline,
the closest-hit symbol of every hit group added is exported by a library added, and no
symbol is exported twice, by one library or by two. -/
theorem table_programs_declared_in_pipeline (q : DeviceQueries) (s sb : App) :
    match CreateRaytracingPipeline q s, CreateShaderBindingTable q sb with
    | .ok s1, .ok s2 =>
      ∃ pipeline, s1.m_rtStateObject = some pipeline ∧
        (∀ e ∈ s2.m_sbtHelper.m_rayGen, pipeline.exports e.m_entryPoint = true) ∧
        (∀ e ∈ s2.m_sbtHelper.m_miss, pipeline.exports e.m_entryPoint = true) ∧
        (∀ e ∈ s2.m_sbtHelper.m_hitGroup, pipeline.declaresHitGroup e.m_entryPoint = true) ∧
        (∀ g ∈ pipeline.m_hitGroups, pipeline.exports g.closestHitSymbol = true) ∧
        pipeline.exportedSymbols.Nodup
    | .error _, _ => q.succeeded GpuCall.QueryInterface = false
    | .ok _, .error _ => False := by
  obtain ⟨s2, h2, hr, hm, hh, -, -⟩ := CreateShaderBindingTable_ok q sb
  by_cases hq : q.succeeded GpuCall.QueryInterface = true
  · obtain ⟨s1, h1, hp, -⟩ := CreateRaytracingPipeline_ok q s hq
    rw [h1, h2]
    simp only []
    refine ⟨_, hp, ?_, ?_, ?_, ?_, ?_⟩
    · rw [hr]; intro e he
      simp only [List.mem_singleton] at he
      subst he; rfl
    · rw [hm]; intro e he
      simp only [List.mem_cons, List.mem_singleton, List.not_mem_nil, or_false] at he
      rcases he with he | he <;> subst he <;> rfl
    · rw [hh]; intro e he
      simp only [List.mem_cons, List.mem_singleton, List.not_mem_nil, or_false] at he
      rcases he with he | he | he <;> subst he <;> rfl
    · intro g hg
      rw [(declarePipeline_symbols _ _ _ _).2] at hg
      simp only [List.mem_cons, List.mem_singleton, List.not_mem_nil, or_false] at hg
      rcases hg with hg | hg | hg | hg <;> subst hg <;> rfl
    · rw [(declarePipeline_symbols _ _ _ _).1]
      decide
  · have hq2 : q.succeeded GpuCall.QueryInterface = false := by simpa using hq
    have : ∃ e, CreateRaytracingPipeline q s = .error e := by
      unfold CreateRaytracingPipeline ThrowIfFailed
      simp [hq2]
    obtain ⟨e, he⟩ := this
    rw [he]
    exact hq2

end D3D12HelloTriangle
